import Mathlib

/-!
Verification development for the llm-reliability-harness core: a shallow
embedding of the signal-coercion, classification, normalization, scoring,
JSON-extraction and aggregation functions, together with theorems checking
the specified properties against the embedded code.

Python strings are modelled as Lean `String` (with `List Char` for
character-level scanning), Python `re` patterns as a small regular-expression
AST with an executable matcher, and Python values as the `PyVal` type below.
-/

/-- Python `\w` word character (ASCII portion): letters, digits, underscore. -/
def isWordChar (c : Char) : Bool := c.isAlphanum || c == '_'

/-- Python whitespace as used by `str.strip` and `\s` (ASCII portion). -/
def pyIsSpace (c : Char) : Bool :=
  c == ' ' || c == '\t' || c == '\n' || c == '\r' || c == '\x0b' || c == '\x0c'

/-- Python `str.lower` on a character list (ASCII portion). -/
def pyLowerL (l : List Char) : List Char := l.map Char.toLower

/-- Python `str.lower` (ASCII portion). -/
def pyLower (s : String) : String := String.mk (pyLowerL s.data)

/-- Python `str.upper` (ASCII portion). -/
def pyUpper (s : String) : String := String.mk (s.data.map Char.toUpper)

/-- Left strip of Python `str.strip`. -/
def pyLStripL (l : List Char) : List Char := l.dropWhile pyIsSpace

/-- Right strip of Python `str.strip`. -/
def pyRStripL (l : List Char) : List Char := ((l.reverse).dropWhile pyIsSpace).reverse

/-- Python `str.strip` on a character list. -/
def pyStripL (l : List Char) : List Char := pyLStripL (pyRStripL l)

/-- Python `str.strip`. -/
def pyStripS (s : String) : String := String.mk (pyStripL s.data)

/-- Does `text` start with `pat`? -/
def startsWithL : List Char → List Char → Bool
  | [], _ => true
  | _ :: _, [] => false
  | p :: ps, c :: cs => p == c && startsWithL ps cs

/-- Python substring containment `pat in text` on character lists. -/
def containsL (pat : List Char) : List Char → Bool
  | [] => startsWithL pat []
  | c :: cs => startsWithL pat (c :: cs) || containsL pat cs

/-- Python substring containment `pat in text` on strings. -/
def containsS (text pat : String) : Bool := containsL pat.data text.data

/-- Order-preserving deduplication, the `_dedupe` helper shared by the
rules, normalize and scoring modules (translated with an explicit
`seen`-prefix accumulator in place of the mutated `seen` set). -/
def dedupeAux (seen : List String) : List String → List String
  | [] => []
  | v :: vs => if seen.contains v then dedupeAux seen vs else v :: dedupeAux (v :: seen) vs

/-- The `_dedupe(values)` helper (rules.py, normalize.py, scoring.py). -/
def pyDedupe (values : List String) : List String := dedupeAux [] values

/-! ## Regular expressions

A minimal regex AST with word boundaries, sufficient for the patterns in
`rules.py`, `normalize.py` and `scoring.py`.  The matcher is fuel-bounded
(the fuel below always suffices for the pattern sizes and text lengths that
occur); `reSearch` models the truthiness of `re.search(pattern, text)`. -/

inductive RE where
  | eps : RE
  | pred (f : Char → Bool) : RE
  | seq (a b : RE) : RE
  | alt (a b : RE) : RE
  | star (a : RE) : RE
  | wb : RE

/-- Structural size of a pattern, used to compute matcher fuel. -/
def RE.size : RE → Nat
  | .eps => 1
  | .pred _ => 1
  | .seq a b => a.size + b.size + 1
  | .alt a b => a.size + b.size + 1
  | .star a => a.size + 1
  | .wb => 1

/-- Is the character before the current position a word character? -/
def isWordOpt : Option Char → Bool
  | none => false
  | some c => isWordChar c

/-- Is the character at the current position a word character
(end of input counts as a non-word position)? -/
def isWordNext : List Char → Bool
  | [] => false
  | c :: _ => isWordChar c

/-- Fuel-bounded CPS regex matcher.  `prev` is the character just before the
current position (for `\b`); `k` is the continuation receiving the rest of
the input and the new previous character. -/
def reMatch : Nat → RE → List Char → Option Char → (List Char → Option Char → Bool) → Bool
  | 0, _, _, _, _ => false
  | _ + 1, RE.eps, s, prev, k => k s prev
  | _ + 1, RE.pred f, s, _prev, k =>
    match s with
    | [] => false
    | c :: rest => f c && k rest (some c)
  | fuel + 1, RE.seq a b, s, prev, k =>
    reMatch fuel a s prev (fun s2 p2 => reMatch fuel b s2 p2 k)
  | fuel + 1, RE.alt a b, s, prev, k =>
    reMatch fuel a s prev k || reMatch fuel b s prev k
  | fuel + 1, RE.star a, s, prev, k =>
    k s prev || reMatch fuel a s prev (fun s2 p2 =>
      if s2.length < s.length then reMatch fuel (RE.star a) s2 p2 k else false)
  | _ + 1, RE.wb, s, prev, k => (isWordOpt prev != isWordNext s) && k s prev

/-- Fuel that suffices for matching `r` against `s`. -/
def fuelFor (r : RE) (s : List Char) : Nat := (r.size + 2) * (s.length + 3)

/-- Try a match at every start position, as `re.search` does. -/
def searchA (r : RE) : List Char → Option Char → Bool
  | [], prev => reMatch (fuelFor r []) r [] prev (fun _ _ => true)
  | c :: rest, prev =>
    reMatch (fuelFor r (c :: rest)) r (c :: rest) prev (fun _ _ => true) ||
      searchA r rest (some c)

/-- Truthiness of `re.search(r, s)`. -/
def reSearch (r : RE) (s : String) : Bool := searchA r s.data none

/-- A successful match survives appending a suffix that starts at a non-word
character (or is empty), with at least as much fuel and a weaker
continuation.  This is the monotonicity fact needed to evaluate searches on
texts with a symbolic tail. -/
theorem reMatch_append_mono (ys : List Char) (hys : isWordNext ys = false) :
    ∀ f' f r xs prev k k', f ≤ f' →
      (∀ s2 p, k s2 p = true → k' (s2 ++ ys) p = true) →
      reMatch f r xs prev k = true → reMatch f' r (xs ++ ys) prev k' = true := by
  intro f'
  induction f' with
  | zero =>
    intro f r xs prev k k' hf _ hm
    interval_cases f
    simp [reMatch] at hm
  | succ fb ih =>
    intro f r xs prev k k' hf hk hm
    match f, hf with
    | 0, _ => simp [reMatch] at hm
    | fa + 1, hf =>
      have hfab : fa ≤ fb := Nat.succ_le_succ_iff.mp hf
      cases r with
      | eps =>
        simp only [reMatch] at hm ⊢
        exact hk xs prev hm
      | pred p =>
        cases xs with
        | nil => simp [reMatch] at hm
        | cons c rest =>
          simp only [reMatch, List.cons_append, Bool.and_eq_true] at hm ⊢
          exact ⟨hm.1, hk rest (some c) hm.2⟩
      | seq a b =>
        simp only [reMatch] at hm ⊢
        refine ih fa a xs prev _ _ hfab ?_ hm
        intro s2 p hb
        exact ih fa b s2 p k k' hfab hk hb
      | alt a b =>
        simp only [reMatch, Bool.or_eq_true] at hm ⊢
        rcases hm with hm | hm
        · exact Or.inl (ih fa a xs prev k k' hfab hk hm)
        · exact Or.inr (ih fa b xs prev k k' hfab hk hm)
      | star a =>
        simp only [reMatch, Bool.or_eq_true] at hm ⊢
        rcases hm with hm | hm
        · exact Or.inl (hk xs prev hm)
        · refine Or.inr (ih fa a xs prev _ _ hfab ?_ hm)
          intro s2 p hcont
          by_cases hl : s2.length < xs.length
          · simp only [if_pos hl] at hcont
            have hl2 : (s2 ++ ys).length < (xs ++ ys).length := by
              simp only [List.length_append]
              omega
            simp only [if_pos hl2]
            exact ih fa (RE.star a) s2 p k k' hfab hk hcont
          · simp only [if_neg hl] at hcont
            exact absurd hcont (by simp)
      | wb =>
        simp only [reMatch, Bool.and_eq_true] at hm ⊢
        refine ⟨?_, hk xs prev hm.2⟩
        cases xs with
        | nil =>
          have h1 : (isWordOpt prev != false) = true := by
            simpa [isWordNext] using hm.1
          simpa [List.nil_append, hys] using h1
        | cons c rest => simpa [isWordNext] using hm.1

/-- `fuelFor` is monotone in the text. -/
theorem fuelFor_append_le (r : RE) (xs ys : List Char) :
    fuelFor r xs ≤ fuelFor r (xs ++ ys) := by
  unfold fuelFor
  have : xs.length ≤ (xs ++ ys).length := by simp
  exact Nat.mul_le_mul_left _ (by omega)

/-- A successful search survives appending a suffix that starts at a
non-word character (or is empty). -/
theorem searchA_append (r : RE) (ys : List Char) (hys : isWordNext ys = false) :
    ∀ xs prev, searchA r xs prev = true → searchA r (xs ++ ys) prev = true := by
  intro xs
  induction xs with
  | nil =>
    intro prev h
    simp only [searchA, List.nil_append] at h ⊢
    have hbase := reMatch_append_mono ys hys (fuelFor r ([] ++ ys)) (fuelFor r []) r []
      prev (fun _ _ => true) (fun _ _ => true) (fuelFor_append_le r [] ys)
      (fun _ _ _ => rfl) h
    cases ys with
    | nil => exact h
    | cons c rest =>
      simp only [List.nil_append] at hbase
      simp only [searchA, Bool.or_eq_true]
      exact Or.inl hbase
  | cons c rest ih =>
    intro prev h
    simp only [searchA, Bool.or_eq_true] at h
    simp only [List.cons_append, searchA, Bool.or_eq_true]
    rcases h with h | h
    · left
      have := reMatch_append_mono ys hys (fuelFor r (c :: (rest ++ ys)))
        (fuelFor r (c :: rest)) r (c :: rest) prev (fun _ _ => true) (fun _ _ => true)
        (by simpa using fuelFor_append_le r (c :: rest) ys) (fun _ _ _ => rfl) h
      simpa using this
    · exact Or.inr (ih (some c) h)

/-! ## Python values

`PyVal` models the Python values flowing through the harness: `None`,
booleans, ints, floats (as rationals), strings, lists and (insertion-ordered)
dicts.  Lists and dicts are mutual inductives so that all functions below are
structurally recursive and kernel-computable. -/

mutual
inductive PyVal where
  | none : PyVal
  | bool (b : Bool) : PyVal
  | int (n : Int) : PyVal
  | float (q : Rat) : PyVal
  | str (s : String) : PyVal
  | list (xs : PyList) : PyVal
  | dict (xs : PyDict) : PyVal

inductive PyList where
  | nil : PyList
  | cons (hd : PyVal) (tl : PyList) : PyList

inductive PyDict where
  | nil : PyDict
  | cons (key : String) (val : PyVal) (tl : PyDict) : PyDict
end

instance : Inhabited PyVal := ⟨PyVal.none⟩

/-- Python `d.get(key)` / `d[key]` lookup (first occurrence). -/
def PyDict.get? : PyDict → String → Option PyVal
  | .nil, _ => Option.none
  | .cons k v t, key => if k == key then some v else PyDict.get? t key

/-- Python `d.get(key, default)`. -/
def PyDict.getd (d : PyDict) (key : String) (dflt : PyVal) : PyVal :=
  (d.get? key).getD dflt

/-- Python `key in d`. -/
def PyDict.hasKey : PyDict → String → Bool
  | .nil, _ => false
  | .cons k _ t, key => k == key || PyDict.hasKey t key

/-- Python `d[key] = v`: update the first occurrence in place, else append. -/
def PyDict.set : PyDict → String → PyVal → PyDict
  | .nil, key, v => .cons key v .nil
  | .cons k v0 t, key, v =>
    if k == key then .cons k v t else .cons k v0 (PyDict.set t key v)

/-- Number of entries. -/
def PyDict.len : PyDict → Nat
  | .nil => 0
  | .cons _ _ t => 1 + PyDict.len t

/-- Convert an embedded Python list to a Lean list. -/
def PyList.toList : PyList → List PyVal
  | .nil => []
  | .cons h t => h :: PyList.toList t

/-- Build an embedded Python list from a Lean list. -/
def pyListOf (l : List PyVal) : PyList := l.foldr PyList.cons PyList.nil

/-- Build an embedded Python dict from key/value pairs. -/
def pyDictOf (l : List (String × PyVal)) : PyDict :=
  l.foldr (fun kv d => PyDict.cons kv.1 kv.2 d) PyDict.nil

/-- A Python list of strings as a `PyVal`. -/
def strListVal (l : List String) : PyVal := PyVal.list (pyListOf (l.map PyVal.str))

/-- Python truthiness `bool(v)`. -/
def pyTruthy : PyVal → Bool
  | .none => false
  | .bool b => b
  | .int n => n != 0
  | .float q => q != 0
  | .str s => s != ("")
  | .list PyList.nil => false
  | .list (PyList.cons _ _) => true
  | .dict PyDict.nil => false
  | .dict (PyDict.cons _ _ _) => true

mutual
/-- Python `str(v)`.  Floats are rendered as rationals, an approximation of
Python float formatting (no theorem depends on float rendering). -/
def pyStr : PyVal → String
  | .none => "None"
  | .bool b => if b then "True" else "False"
  | .int n => toString n
  | .float q => toString q
  | .str s => s
  | .list xs => "[" ++ pyReprList xs ++ "]"
  | .dict xs => "\x7b" ++ pyReprDict xs ++ "\x7d"

/-- Python `repr(v)` (strings quoted), used for container elements. -/
def pyRepr : PyVal → String
  | .none => "None"
  | .bool b => if b then "True" else "False"
  | .int n => toString n
  | .float q => toString q
  | .str s => "\x27" ++ s ++ "\x27"
  | .list xs => "[" ++ pyReprList xs ++ "]"
  | .dict xs => "\x7b" ++ pyReprDict xs ++ "\x7d"

/-- Comma-separated reprs of list elements. -/
def pyReprList : PyList → String
  | .nil => ""
  | .cons h PyList.nil => pyRepr h
  | .cons h t => pyRepr h ++ ", " ++ pyReprList t

/-- Comma-separated reprs of dict entries. -/
def pyReprDict : PyDict → String
  | .nil => ""
  | .cons k v PyDict.nil => "\x27" ++ k ++ "\x27: " ++ pyRepr v
  | .cons k v t => "\x27" ++ k ++ "\x27: " ++ pyRepr v ++ ", " ++ pyReprDict t
end

/-- Numeric value of a Python number (`bool` is an `int` subclass). -/
def pyNumVal : PyVal → Option Rat
  | .bool b => some (if b then 1 else 0)
  | .int n => some (n : Rat)
  | .float q => some q
  | _ => Option.none

mutual
/-- Python `==` on embedded values: structural on matching container types,
numeric across `bool`/`int`/`float`, `False` across unrelated types. -/
def pyEq : PyVal → PyVal → Bool
  | .none, .none => true
  | .str a, .str b => a == b
  | .list a, .list b => pyListEq a b
  | .dict a, .dict b => PyDict.len a == PyDict.len b && pyDictSubEq a b
  | a, b =>
    match pyNumVal a, pyNumVal b with
    | some x, some y => x == y
    | _, _ => false

/-- Elementwise Python `==` on lists. -/
def pyListEq : PyList → PyList → Bool
  | .nil, .nil => true
  | .cons a as, .cons b bs => pyEq a b && pyListEq as bs
  | _, _ => false

/-- Every entry of the first dict is present (by key) in the second with an
equal value. -/
def pyDictSubEq : PyDict → PyDict → Bool
  | .nil, _ => true
  | .cons k v t, d2 =>
    (match PyDict.get? d2 k with
     | some v2 => pyEq v v2
     | Option.none => false) && pyDictSubEq t d2
end

/-- Python `==` between an `Option PyVal` pair (absent keys behave as `None`
through `dict.get`). -/
def pyEqOpt (a b : Option PyVal) : Bool := pyEq (a.getD PyVal.none) (b.getD PyVal.none)

theorem PyDict.get_set_same : ∀ (d : PyDict) (k : String) (v : PyVal),
    (d.set k v).get? k = some v
  | .nil, k, v => by simp [PyDict.set, PyDict.get?]
  | .cons k0 v0 t, k, v => by
    by_cases h : k0 = k
    · simp [PyDict.set, PyDict.get?, h]
    · simp [PyDict.set, PyDict.get?, h, PyDict.get_set_same t k v]

theorem PyDict.get_set_other : ∀ (d : PyDict) (k k2 : String) (v : PyVal), k ≠ k2 →
    (d.set k v).get? k2 = d.get? k2
  | .nil, k, k2, v, h => by simp [PyDict.set, PyDict.get?, h]
  | .cons k0 v0 t, k, k2, v, h => by
    by_cases h0 : k0 = k
    · subst h0
      simp [PyDict.set, PyDict.get?, h]
    · simp only [PyDict.set, beq_iff_eq, h0, if_false, PyDict.get?]
      by_cases h2 : k0 = k2
      · simp [h2]
      · simp [h2, PyDict.get_set_other t k k2 v h]

theorem PyDict.set_self : ∀ (d : PyDict) (k : String) (v : PyVal),
    d.get? k = some v → d.set k v = d
  | .nil, k, v, h => by simp [PyDict.get?] at h
  | .cons k0 v0 t, k, v, h => by
    by_cases h0 : k0 = k
    · subst h0
      simp only [PyDict.get?, beq_self_eq_true, if_true, Option.some.injEq] at h
      simp [PyDict.set, h]
    · simp only [PyDict.get?, beq_iff_eq, h0, if_false] at h
      simp [PyDict.set, h0, PyDict.set_self t k v h]

theorem PyDict.hasKey_eq_isSome : ∀ (d : PyDict) (k : String),
    d.hasKey k = (d.get? k).isSome
  | .nil, k => by simp [PyDict.hasKey, PyDict.get?]
  | .cons k0 v0 t, k => by
    by_cases h0 : k0 = k
    · simp [PyDict.hasKey, PyDict.get?, h0]
    · simp [PyDict.hasKey, PyDict.get?, h0, PyDict.hasKey_eq_isSome t k]

/-! ## Pattern combinators and the patterns of rules.py / scoring.py -/

/-- Literal character. -/
def RE.lit (c : Char) : RE := RE.pred (fun x => x == c)

/-- Case-insensitive literal character (pattern char given lowercase). -/
def RE.litCI (c : Char) : RE := RE.pred (fun x => x.toLower == c)

/-- Literal string. -/
def rstr (s : String) : RE := (s.data.map RE.lit).foldr RE.seq RE.eps

/-- Case-insensitive literal string. -/
def rstrCI (s : String) : RE := (s.data.map RE.litCI).foldr RE.seq RE.eps

/-- Alternation of a list of patterns (empty list never matches). -/
def raltL : List RE → RE
  | [] => RE.pred (fun _ => false)
  | [r] => r
  | r :: rest => RE.alt r (raltL rest)

/-- One-or-more. -/
def rplus (r : RE) : RE := RE.seq r (RE.star r)

/-- Zero-or-one. -/
def ropt (r : RE) : RE := RE.alt r RE.eps

/-- The `.` pattern (any character except newline). -/
def rdot : RE := RE.pred (fun c => !(c == '\n'))

/-- The `.*` pattern. -/
def rdotStar : RE := RE.star rdot

/-- The `\s` class. -/
def rspace : RE := RE.pred pyIsSpace

/-- The `\d` class. -/
def rdigit : RE := RE.pred Char.isDigit

/-- Any ASCII letter (the `[A-Z]` class under `IGNORECASE`). -/
def ralpha : RE := RE.pred Char.isAlpha

/-- The `[A-Z]` class (case-sensitive). -/
def rupper : RE := RE.pred Char.isUpper

/-- The `[a-z]` class (case-sensitive). -/
def rlower : RE := RE.pred Char.isLower

/-- The `\w` class. -/
def rwordC : RE := RE.pred isWordChar

/-- Exactly `n` copies. -/
def rrepExact (r : RE) : Nat → RE
  | 0 => RE.eps
  | k + 1 => RE.seq r (rrepExact r k)

/-- Up to `n` optional copies. -/
def rrepOpt (r : RE) : Nat → RE
  | 0 => RE.eps
  | k + 1 => RE.seq (ropt r) (rrepOpt r k)

/-- Bounded repetition `r{m,n}`. -/
def rrep (r : RE) (m n : Nat) : RE := RE.seq (rrepExact r m) (rrepOpt r (n - m))

/-- A `\b(w1|w2|...)\b` word-alternation pattern. -/
def rwords (ws : List String) : RE :=
  RE.seq RE.wb (RE.seq (raltL (ws.map rstr)) RE.wb)

/-- A case-insensitive `\b(w1|w2|...)\b` word-alternation pattern. -/
def rwordsCI (ws : List String) : RE :=
  RE.seq RE.wb (RE.seq (raltL (ws.map rstrCI)) RE.wb)

namespace Rules

def _EMAIL_RE : RE :=
  RE.seq RE.wb (RE.seq
    (rplus (RE.pred (fun c => c.isAlphanum || c == '.' || c == '_' || c == '%' || c == '+' || c == '-')))
    (RE.seq (RE.lit '@')
      (RE.seq (rplus (RE.pred (fun c => c.isAlphanum || c == '.' || c == '-')))
        (RE.seq (RE.lit '.')
          (RE.seq (RE.seq ralpha (RE.seq ralpha (RE.star ralpha))) RE.wb)))))

def _USERNAME_RE : RE := rwords [("username"), ("user id"), ("userid"), ("user:")]

def _DEVICE_WORD_RE : RE :=
  rwords [("windows"), ("mac"), ("macbook"), ("iphone"), ("ios"), ("android"), ("linux")]

def _LOGIN_WORD_RE : RE := rwords [("login"), ("log in"), ("signin"), ("sign in"), ("password")]

def _PRINTER_ID_RE : RE :=
  RE.seq RE.wb (RE.seq
    (RE.alt
      (RE.seq (rstrCI ("printer")) (RE.seq (RE.star rspace)
        (raltL [rstrCI ("id"), rstrCI ("model"), rstrCI ("number"), rstr ("#")])))
      (RE.seq (rrep ralpha 1 4) (RE.seq (RE.lit '-') (rrep rdigit 2 5))))
    RE.wb)

def _TEAM_RE : RE := rwords [("team"), ("department"), ("org"), ("organization")]

def _ACCESS_LEVEL_RE : RE :=
  rwords [("admin"), ("read"), ("write"), ("viewer"), ("editor"), ("owner"), ("role"), ("access level")]

def _NAME_HINT_RE : RE :=
  RE.seq RE.wb
    (RE.alt (rstr ("name:"))
      (RE.seq (rstr ("for "))
        (RE.seq rupper (RE.seq (rplus rlower)
          (ropt (RE.seq (RE.lit ' ') (RE.seq rupper (rplus rlower))))))))

def _URGENCY_RE : RE :=
  rwords [("urgent"), ("asap"), ("immediately"), ("critical"), ("sev1"), ("priority")]

def _DEADLINE_RE : RE :=
  rwords [("deadline"), ("due"), ("by"), ("before"), ("today"), ("tomorrow"), ("this week"),
    ("eod"), ("end of day"), ("monday")]

def _TIME_HINT_RE : RE :=
  RE.seq RE.wb (RE.seq
    (raltL [rstr ("since"), rstr ("started"), rstr ("start"), rstr ("today"), rstr ("yesterday"),
      rstr ("this morning"), rstr ("last night"), rstr ("next month"),
      RE.seq (rrep rdigit 1 2) (RE.seq (RE.lit ':') (rrepExact rdigit 2))])
    RE.wb)

def _LOCATION_HINT_RE : RE :=
  rwords [("home"), ("office"), ("floor"), ("room"), ("building"), ("site"), ("remote"), ("location")]

def _ERROR_HINT_RE : RE :=
  rwords [("error"), ("code"), ("failed"), ("denied"), ("incorrect"), ("timeout"), ("screenshot")]

def _SECURITY_OVERRIDE_RE : RE :=
  rwords [("phishing"), ("malware"), ("ransomware"), ("compromised"), ("suspicious link"),
    ("credential theft"), ("unauthorized"), ("breach"), ("confidential"), ("data leak"),
    ("lost phone"), ("lost device"), ("wrong external email")]

def _ACCESS_OVERRIDE_RE : RE :=
  rwords [("access"), ("permission"), ("role"), ("account"), ("provisioning"), ("onboarding"),
    ("new employee"), ("joiner"), ("leaver"), ("grant access"), ("provide access"),
    ("requesting access"), ("access to"), ("jira"), ("confluence"), ("okta"), ("sso"),
    ("sap system"), ("vpn access")]

def _ACCESS_STRONG_RE : RE :=
  rwords [("access denied"), ("permission denied"), ("account locked"), ("onboarding"),
    ("new employee"), ("joiner"), ("jira"), ("confluence"), ("okta"), ("sso"), ("hr portal"),
    ("sap"), ("provisioning"), ("role")]

def _PRINTER_OVERRIDE_RE : RE :=
  rwords [("printer"), ("print queue"), ("toner"), ("paper jam"), ("spooler")]

def _APP_NAME_RE : RE :=
  rwords [("teams"), ("slack"), ("zoom"), ("outlook"), ("chrome"), ("edge"), ("onedrive"), ("sharepoint")]

def _SOFTWARE_SYMPTOM_RE : RE :=
  rwords [("stuck loading"), ("loading screen"), ("crash"), ("not opening"), ("not working"),
    ("freezing"), ("won\x27t start"), ("wont start"), ("spinning"), ("hangs")]

def _STRONG_OUTAGE_RE : RE :=
  rwords [("wifi is down"), ("wifi down"), ("wi-fi is down"), ("wi-fi down"), ("wireless is down"),
    ("no internet"), ("internet down"), ("can\x27t connect"), ("cannot connect"),
    ("unable to connect"), ("network outage"), ("outage")]

def _errorCodeSeq : RE :=
  RE.seq (rstr ("error")) (RE.seq (RE.star rspace)
    (raltL [rstr ("809"), rstr ("720"), rstr ("691")]))

def _VPN_OVERRIDE_RE : RE :=
  RE.seq RE.wb (RE.seq
    (raltL [rstr ("vpn"), rstr ("anyconnect"), rstr ("pulse secure"), _errorCodeSeq])
    RE.wb)

def _OUTAGE_MULTI_RE : RE :=
  rwords [("outage affecting multiple users"), ("affecting multiple users"), ("whole floor"),
    ("entire floor"), ("whole office")]

def _NETWORK_TERM_RE : RE :=
  rwords [("wifi"), ("wi-fi"), ("wireless"), ("internet"), ("network"), ("connect"), ("connection")]

def _NETWORK_PERF_RE : RE :=
  rwords [("slow internet"), ("internet is very slow"), ("network is slow"), ("times out"), ("timeout")]

def _PRINT_TO_PDF_RE : RE := rwords [("print to pdf"), ("pdf")]

def _HARDWARE_REQUEST_RE : RE :=
  rwords [("new laptop"), ("monitor"), ("keyboard"), ("mouse"), ("dock")]

def _PHYSICAL_REPLACEMENT_RE : RE :=
  rwords [("replace"), ("replacement"), ("new laptop"), ("new monitor"), ("new keyboard")]

def _LOST_DEVICE_RE : RE :=
  RE.seq RE.wb (RE.seq
    (raltL [
      RE.seq (rstr ("lost"))
        (RE.seq (rrep (RE.seq (rplus rspace) (rplus rwordC)) 0 2)
          (RE.seq (rplus rspace) (RE.alt (rstr ("phone")) (rstr ("device"))))),
      rstr ("lost phone"), rstr ("lost device"), rstr ("stolen"), rstr ("missing phone"),
      rstr ("device stolen")])
    RE.wb)

def _CORP_ACCESS_RE : RE :=
  rwords [("company email"), ("corporate email"), ("work email"), ("company access"),
    ("corporate access")]

def _LAPTOP_FAILURE_RE : RE :=
  rwords [("blue screen"), ("bsod"), ("boot loop"), ("won\x27t boot"), ("wont boot"),
    ("bitlocker"), ("recovery key"), ("startup repair")]

def _EMAIL_OVERRIDE_RE : RE :=
  rwords [("outlook"), ("calendar"), ("shared mailbox"), ("delegate access"), ("mailbox"),
    ("invitation"), ("meeting invite"), ("exchange"), ("shared calendar")]

def _BITLOCKER_RE : RE := rwords [("bitlocker"), ("recovery key"), ("windows laptop")]

def _homeWifiGrp : RE :=
  RE.alt (RE.seq (rstr ("home wi")) (RE.seq (ropt (RE.lit '-')) (rstr ("fi")))) (rstr ("home wifi"))

def _HOTSPOT_HOME_WIFI_RE : RE :=
  RE.alt
    (RE.seq RE.wb (RE.seq
      (raltL [rstr ("vpn works via hotspot"),
        RE.seq (rstr ("vpn works from ")) (RE.seq rdotStar (rstr ("hotspot"))),
        rstr ("hotspot works")])
      (RE.seq rdotStar _homeWifiGrp)))
    (RE.seq _homeWifiGrp (RE.seq rdotStar
      (RE.seq (RE.alt (rstr ("vpn works via hotspot")) (rstr ("hotspot works"))) RE.wb)))

def _DEVICE_EXPLICIT_RE : RE :=
  rwords [("iphone"), ("ios"), ("android"), ("windows"), ("mac"), ("macbook")]

def _BLOCKING_WORK_RE : RE :=
  rwords [("can\x27t work"), ("cannot work"), ("unable to work"), ("blocked"),
    ("can\x27t log in"), ("cannot log in"), ("reboot loop"), ("blue screen")]

def _OUTAGE_RE : RE :=
  RE.seq RE.wb (RE.seq
    (raltL [rstr ("outage"), rstr ("down"), rstr ("whole company"),
      RE.seq (rstr ("company"))
        (RE.seq (ropt (RE.pred (fun c => c == '-' || pyIsSpace c))) (rstr ("wide"))),
      rstr ("whole team"), rstr ("all users"), rstr ("everyone"), rstr ("nobody can"),
      rstr ("can\x27t connect")])
    RE.wb)

def _ACCESS_URGENT_RE : RE :=
  rwords [("today"), ("asap"), ("urgent"), ("blocked now"), ("immediately")]

def _NETWORK_BLOCK_ACCESS_RE : RE :=
  rwords [("cannot access"), ("can\x27t access"), ("can\u2019t access"),
    ("can\u00e2\u20ac\u2122t access")]

def _NETWORK_TIMEOUT_DNS_PROXY_RE : RE :=
  rwords [("timeout"), ("times out"), ("time out"), ("dns"), ("proxy")]

def _CORP_NETWORK_RE : RE := rwords [("company network"), ("office network")]

def _EXTERNAL_SERVICE_RE : RE :=
  rwords [("github"), ("external site"), ("external service"), ("external services")]

/-- The inline `\b(all users|everyone|whole floor|whole team|nobody)\b` pattern
of `infer_priority`'s Network branch. -/
def _MULTI_USER_OUTAGE_TEXT_RE : RE :=
  rwords [("all users"), ("everyone"), ("whole floor"), ("whole team"), ("nobody")]

/-- The inline `\berror\s*(809|720|691)\b` pattern. -/
def _VPN_ERROR_CODE_RE : RE := RE.seq RE.wb (RE.seq _errorCodeSeq RE.wb)

/-- The inline `\b(flicker|flickers|flickering|not working|issue|broken|fails)\b` pattern. -/
def _FLICKER_RE : RE :=
  rwords [("flicker"), ("flickers"), ("flickering"), ("not working"), ("issue"), ("broken"), ("fails")]

/-- The inline `\boutlook.*password\b` pattern of `_is_actionable_incident`. -/
def _OUTLOOK_PASSWORD_RE : RE :=
  RE.seq RE.wb (RE.seq (rstr ("outlook")) (RE.seq rdotStar (RE.seq (rstr ("password")) RE.wb)))

/-- The inline `\b(new employee|new hire|joining|joiner|starts)\b` pattern. -/
def _NEW_JOINER_RE : RE :=
  rwords [("new employee"), ("new hire"), ("joining"), ("joiner"), ("starts")]

/-- The inline `\b(manager|approval|approved|group)\b` pattern. -/
def _MANAGER_RE : RE := rwords [("manager"), ("approval"), ("approved"), ("group")]

/-- The inline `\b(usb|ethernet|wifi|wi-fi|bluetooth|lan)\b` pattern. -/
def _CONN_TYPE_RE : RE :=
  rwords [("usb"), ("ethernet"), ("wifi"), ("wi-fi"), ("bluetooth"), ("lan")]

/-- The inline `\b(speed test|mbps|latency|packet loss)\b` pattern. -/
def _SPEED_TEST_RE : RE := rwords [("speed test"), ("mbps"), ("latency"), ("packet loss")]

/-- The inline `\b(anyconnect|globalprotect|openvpn|pulse|forticlient)\b` pattern. -/
def _VPN_CLIENT_RE : RE :=
  rwords [("anyconnect"), ("globalprotect"), ("openvpn"), ("pulse"), ("forticlient")]

/-- The inline `\b(utc|gmt|pst|est|ist|timezone)\b` pattern. -/
def _TIMEZONE_RE : RE := rwords [("utc"), ("gmt"), ("pst"), ("est"), ("ist"), ("timezone")]

/-- The inline `\bzoom.*\b(version|v\d)` pattern. -/
def _ZOOM_VERSION_RE : RE :=
  RE.seq RE.wb (RE.seq (rstr ("zoom")) (RE.seq rdotStar
    (RE.seq RE.wb (RE.alt (rstr ("version")) (RE.seq (rstr ("v")) rdigit)))))

/-- The inline `\bmeeting\s*id\b` pattern. -/
def _MEETING_ID_RE : RE :=
  RE.seq RE.wb (RE.seq (rstr ("meeting")) (RE.seq (RE.star rspace) (RE.seq (rstr ("id")) RE.wb)))

/-- The inline `\bslack.*\b(version|v\d)` pattern. -/
def _SLACK_VERSION_RE : RE :=
  RE.seq RE.wb (RE.seq (rstr ("slack")) (RE.seq rdotStar
    (RE.seq RE.wb (RE.alt (rstr ("version")) (RE.seq (rstr ("v")) rdigit)))))

/-- The inline `\b(teams|slack|zoom|docker|chrome|outlook)\b` pattern. -/
def _APPLICATION_NAME_RE : RE :=
  rwords [("teams"), ("slack"), ("zoom"), ("docker"), ("chrome"), ("outlook")]

/-- The inline `\badmin|approval\b` pattern (alternation binds loosely). -/
def _ADMIN_APPROVAL_RE : RE :=
  RE.alt (RE.seq RE.wb (rstr ("admin"))) (RE.seq (rstr ("approval")) RE.wb)

/-- The inline `\bwindows\s*\d` pattern. -/
def _WINDOWS_VERSION_RE : RE :=
  RE.seq RE.wb (RE.seq (rstr ("windows")) (RE.seq (RE.star rspace) rdigit))

/-- The inline `\b(phone|iphone|android|asset|id)\b` pattern. -/
def _PHONE_ASSET_RE : RE :=
  rwords [("phone"), ("iphone"), ("android"), ("asset"), ("id")]

/-- The inline `\b(asset|serial|tag|hostname|device id)\b` pattern. -/
def _ASSET_ID_RE : RE :=
  rwords [("asset"), ("serial"), ("tag"), ("hostname"), ("device id")]

/-- The inline `\b(battery|power|charging|charger)\b` pattern. -/
def _BATTERY_RE : RE := rwords [("battery"), ("power"), ("charging"), ("charger")]

/-- The inline `\b(app|application|teams|zoom|slack|outlook)\b` pattern. -/
def _APPS_AFFECTED_RE : RE :=
  rwords [("app"), ("application"), ("teams"), ("zoom"), ("slack"), ("outlook")]

end Rules

namespace Scoring

/-- `DEVICE_HINT_PATTERN` of scoring.py (`IGNORECASE`, searched on raw input). -/
def DEVICE_HINT_PATTERN : RE := rwordsCI [("windows"), ("mac"), ("iphone"), ("android")]

end Scoring

/-! ## normalize.py: allowed value sets -/

namespace NormalizeM

def ALLOWED_CATEGORIES : List String :=
  [("VPN"), ("Email"), ("Access"), ("Laptop"), ("Network"), ("Printer"), ("Software"),
   ("Security"), ("Hardware")]

def ALLOWED_DEVICES : List String :=
  [("Windows"), ("Mac"), ("iPhone"), ("Android"), ("Unknown")]

def ALLOWED_PRIORITIES : List String := [("P1"), ("P2"), ("P3"), ("P4")]

end NormalizeM

/-! ## rules.py: signal coercion and the classification engine -/

/-- The canonical triage output record built by `build_output_from_signals`
(a Python dict literal with these six keys). -/
structure TriageOut where
  category : String
  priority : String
  device : String
  needs_clarification : Bool
  missing_fields : List String
  summary : String
deriving Repr, DecidableEq

namespace Rules

def SIGNAL_KEYS : List String :=
  [("device_hint"), ("mentions_vpn"), ("mentions_email"), ("mentions_wifi_or_network"),
   ("mentions_printer"), ("mentions_software_app"), ("mentions_laptop_issue"),
   ("access_request"), ("security_incident"), ("scope"), ("error_codes"),
   ("urgency_words"), ("summary")]

def SIGNAL_INDICATOR_KEYS : List String := SIGNAL_KEYS.filter (fun k => !(k == ("summary")))

def STRICT_MISSING_FIELDS_DEFAULT : Bool := true

def CANON_FIELD_MAP : List (String × List String) :=
  [(("error_message"), [("error_message_or_screenshot"), ("screenshot_or_error_code")]),
   (("exact_error_message"), [("error_message_or_screenshot"), ("screenshot_or_error_code")]),
   (("error_code"), [("screenshot_or_error_code"), ("error_details")]),
   (("speed_test"), [("speed_test_result")]),
   (("since_when"), [("when_started"), ("start_time")]),
   (("wifi_or_ethernet"), [("connection_type")]),
   (("network_type"), [("connection_type"), ("is_vpn_on")]),
   (("app_name"), [("application_name")]),
   (("system_name"), [("sap_system_name"), ("drive_name"), ("hr_portal_url")]),
   (("role_needed"), [("role_or_permissions"), ("access_level"), ("role")]),
   (("time_window"), [("exact_time_window"), ("start_time")]),
   (("indicators"), [("error_details")]),
   (("containment_steps"), [("error_details")]),
   (("what_happened"), [("what_was_sent"), ("error_details")]),
   (("affected_accounts"), [("team_distribution_list"), ("username"), ("employee_email")]),
   (("battery_or_power"), [("on_battery_or_power")]),
   (("apps_affected"), [("application_name")])]

def is_ticket_signals (payload : PyVal) : Bool :=
  match payload with
  | .dict d => SIGNAL_KEYS.all (fun k => d.hasKey k)
  | _ => false

def looks_like_ticket_signals (payload : PyVal) : Bool :=
  match payload with
  | .dict d => SIGNAL_INDICATOR_KEYS.any (fun k => d.hasKey k)
  | _ => false

def _coerce_signal_bool (value : PyVal) : Bool :=
  match value with
  | .bool b => b
  | .str s =>
    let lowered := pyLower (pyStripS s)
    if lowered == ("true") || lowered == ("yes") || lowered == ("1") then true
    else if lowered == ("false") || lowered == ("no") || lowered == ("0") then false
    else pyTruthy (PyVal.str s)
  | v => pyTruthy v

def _coerce_signal_choice (value : PyVal) (allowed : List String) (fallback : String) : String :=
  let text := pyLower (pyStripS (pyStr (if pyTruthy value then value else PyVal.str (""))))
  if allowed.contains text then text else fallback

/-- Loop body of `_coerce_signal_list`. -/
def coerceSignalListAux : PyList → List String
  | .nil => []
  | .cons item t =>
    let text := pyStripS (pyStr item)
    if text == ("") then coerceSignalListAux t else text :: coerceSignalListAux t

def _coerce_signal_list (value : PyVal) : List String :=
  match value with
  | .list xs => coerceSignalListAux xs
  | _ => []

def coerce_ticket_signals (payload : PyDict) : PyDict :=
  pyDictOf [
    (("device_hint"), PyVal.str (_coerce_signal_choice (payload.getd ("device_hint") PyVal.none)
      [("windows"), ("mac"), ("iphone"), ("android")] ("unknown"))),
    (("mentions_vpn"), PyVal.bool (_coerce_signal_bool (payload.getd ("mentions_vpn") PyVal.none))),
    (("mentions_email"), PyVal.bool (_coerce_signal_bool (payload.getd ("mentions_email") PyVal.none))),
    (("mentions_wifi_or_network"),
      PyVal.bool (_coerce_signal_bool (payload.getd ("mentions_wifi_or_network") PyVal.none))),
    (("mentions_printer"), PyVal.bool (_coerce_signal_bool (payload.getd ("mentions_printer") PyVal.none))),
    (("mentions_software_app"),
      PyVal.bool (_coerce_signal_bool (payload.getd ("mentions_software_app") PyVal.none))),
    (("mentions_laptop_issue"),
      PyVal.bool (_coerce_signal_bool (payload.getd ("mentions_laptop_issue") PyVal.none))),
    (("access_request"), PyVal.bool (_coerce_signal_bool (payload.getd ("access_request") PyVal.none))),
    (("security_incident"), PyVal.bool (_coerce_signal_bool (payload.getd ("security_incident") PyVal.none))),
    (("scope"), PyVal.str (_coerce_signal_choice (payload.getd ("scope") PyVal.none)
      [("single_user"), ("multiple_users")] ("unknown"))),
    (("error_codes"), strListVal (_coerce_signal_list (payload.getd ("error_codes") PyVal.none))),
    (("urgency_words"), PyVal.bool (_coerce_signal_bool (payload.getd ("urgency_words") PyVal.none))),
    (("summary"), PyVal.str (pyStripS (pyStr (payload.getd ("summary") (PyVal.str (""))))))]

def _signal_bool (signals : PyDict) (key : String) : Bool :=
  pyTruthy (signals.getd key PyVal.none)

def _signal_text (signals : PyDict) (key : String) : String :=
  match signals.getd key (PyVal.str ("")) with
  | .str s => s
  | v => pyStr v

def _normalize_scope (value : String) : String :=
  let lowered := pyLower (pyStripS value)
  if lowered == ("single_user") || lowered == ("multiple_users") || lowered == ("unknown") then
    lowered
  else ("unknown")

def _clamp (value : String) (allowed : List String) (fallback : String)
    (warnings : List String) (warning : String) : String × List String :=
  if allowed.contains value then (value, warnings) else (fallback, warnings ++ [warning])

def has_security_text (text : String) : Bool := reSearch _SECURITY_OVERRIDE_RE text

def _is_lost_device_security (text : String) : Bool :=
  reSearch _LOST_DEVICE_RE text &&
    (reSearch _CORP_ACCESS_RE text || containsS text ("email") || containsS text ("access"))

def _is_password_reset (text : String) : Bool :=
  containsS text ("password reset") || (containsS text ("forgot") && containsS text ("password"))

def _is_new_joiner_request (text : String) : Bool := reSearch _NEW_JOINER_RE text

def _is_login_issue (signals : PyDict) (input_text : String) : Bool :=
  if _signal_bool signals ("access_request") then false
  else reSearch _LOGIN_WORD_RE input_text

def _is_actionable_incident (signals : PyDict) (input_text : String) : Bool :=
  let text := pyLower input_text
  let scope := _normalize_scope (_signal_text signals ("scope"))
  let has_scope_or_location :=
    (scope == ("single_user") || scope == ("multiple_users")) || reSearch _LOCATION_HINT_RE text
  let has_clear_symptom :=
    reSearch _ERROR_HINT_RE text || reSearch _STRONG_OUTAGE_RE text ||
    reSearch _LOGIN_WORD_RE text || reSearch _VPN_ERROR_CODE_RE text ||
    reSearch _OUTLOOK_PASSWORD_RE text || reSearch _LOST_DEVICE_RE text
  has_scope_or_location && has_clear_symptom

def _is_true_network_outage (signals : PyDict) (input_text : String) : Bool :=
  let text := pyLower input_text
  let scope := _normalize_scope (_signal_text signals ("scope"))
  let explicit_outage := reSearch _STRONG_OUTAGE_RE text
  let has_network_text := reSearch _NETWORK_TERM_RE text
  let multi_user_signal :=
    _signal_bool signals ("mentions_wifi_or_network") && scope == ("multiple_users") && has_network_text
  let explicit_multi_outage := reSearch _OUTAGE_MULTI_RE text
  explicit_outage || multi_user_signal || explicit_multi_outage

def infer_device (device_hint : String) (input_text : String) : String :=
  let text := pyLower input_text
  if reSearch _BITLOCKER_RE text then ("Windows")
  else if reSearch _HOTSPOT_HOME_WIFI_RE text then ("Unknown")
  else if _is_lost_device_security text && !(reSearch _DEVICE_EXPLICIT_RE text) then ("Unknown")
  else
    let hint := pyLower (pyStripS device_hint)
    if hint == ("windows") then ("Windows")
    else if hint == ("mac") then ("Mac")
    else if hint == ("iphone") then ("iPhone")
    else if hint == ("android") then ("Android")
    else if containsS text ("windows") then ("Windows")
    else if containsS text ("macbook") || containsS text ("mac") then ("Mac")
    else if containsS text ("iphone") || containsS text ("ios") then ("iPhone")
    else if containsS text ("android") then ("Android")
    else ("Unknown")

def infer_category (signals : PyDict) (input_text : String) : String :=
  let text := pyLower input_text
  let has_security_keywords := reSearch _SECURITY_OVERRIDE_RE text
  let has_lost_device_security :=
    reSearch _LOST_DEVICE_RE text &&
      (reSearch _CORP_ACCESS_RE text || containsS text ("email") || containsS text ("access"))
  let has_access_keyword := reSearch _ACCESS_OVERRIDE_RE text
  let has_access_evidence := has_access_keyword
  let has_access_strong := reSearch _ACCESS_STRONG_RE text
  let has_true_network_outage := _is_true_network_outage signals input_text
  let has_network_access_issue :=
    reSearch _NETWORK_PERF_RE text ||
    (containsS text ("company network") && containsS text ("access")) ||
    (containsS text ("cannot connect") && containsS text ("network"))
  let has_software_issue := reSearch _APP_NAME_RE text && reSearch _SOFTWARE_SYMPTOM_RE text
  let has_pdf_software_pattern := reSearch _PRINT_TO_PDF_RE text && !(containsS text ("printer"))
  let has_hardware_request := reSearch _HARDWARE_REQUEST_RE text
  let has_email_context := reSearch _EMAIL_OVERRIDE_RE text
  let has_laptop_failure := reSearch _LAPTOP_FAILURE_RE text
  if has_security_keywords || has_lost_device_security then ("Security")
  else if has_laptop_failure then ("Laptop")
  else if has_email_context then ("Email")
  else
    let is_pure_physical_request := reSearch _PHYSICAL_REPLACEMENT_RE text && !has_access_keyword
    if has_access_evidence &&
        (has_access_strong || (!is_pure_physical_request && !has_network_access_issue)) then
      ("Access")
    else if has_hardware_request && !has_access_keyword && !has_email_context then ("Hardware")
    else if has_pdf_software_pattern then ("Software")
    else if _signal_bool signals ("mentions_printer") || reSearch _PRINTER_OVERRIDE_RE text then
      ("Printer")
    else if has_software_issue then
      (if has_true_network_outage then ("Network") else ("Software"))
    else if _signal_bool signals ("mentions_vpn") || reSearch _VPN_OVERRIDE_RE text then ("VPN")
    else if has_true_network_outage then ("Network")
    else if _signal_bool signals ("mentions_wifi_or_network") && reSearch _NETWORK_PERF_RE text then
      ("Network")
    else if _signal_bool signals ("mentions_laptop_issue") then ("Laptop")
    else if _signal_bool signals ("mentions_email") then ("Email")
    else if _signal_bool signals ("mentions_software_app") then ("Software")
    else ("Hardware")

def infer_priority (signals : PyDict) (input_text : String) : String :=
  let scope := _normalize_scope (_signal_text signals ("scope"))
  let text := pyLower (input_text ++ (" ") ++ _signal_text signals ("summary"))
  let category := infer_category signals input_text
  let urgent := reSearch _URGENCY_RE text
  let outage_keywords := reSearch _OUTAGE_RE text || reSearch _STRONG_OUTAGE_RE text
  let severe_laptop := reSearch _LAPTOP_FAILURE_RE text
  if category == ("Security") then
    (if reSearch _LOST_DEVICE_RE text || has_security_text text then ("P1") else ("P2"))
  else if category == ("Network") then
    let multi_user_outage_text := reSearch _MULTI_USER_OUTAGE_TEXT_RE text
    if (scope == ("multiple_users") && outage_keywords) || (outage_keywords && multi_user_outage_text) then
      ("P1")
    else if scope == ("multiple_users") then ("P2")
    else
      let corporate_external_block :=
        reSearch _CORP_NETWORK_RE text && reSearch _EXTERNAL_SERVICE_RE text &&
          (reSearch _NETWORK_TIMEOUT_DNS_PROXY_RE text || reSearch _NETWORK_BLOCK_ACCESS_RE text)
      if corporate_external_block then ("P2")
      else if reSearch _NETWORK_PERF_RE text &&
          (containsS text ("still connects") || containsS text ("connects")) then ("P3")
      else if reSearch _NETWORK_PERF_RE text then ("P3")
      else if urgent then ("P2")
      else ("P3")
  else if category == ("Laptop") then
    if severe_laptop then ("P1")
    else if reSearch _BLOCKING_WORK_RE text || urgent then ("P2")
    else ("P3")
  else if category == ("VPN") then
    if reSearch _VPN_ERROR_CODE_RE text || urgent || reSearch _BLOCKING_WORK_RE text then ("P2")
    else ("P3")
  else if category == ("Access") then
    if _is_password_reset text || containsS text ("can\x27t access") || containsS text ("cannot access") then
      ("P2")
    else if reSearch _ACCESS_URGENT_RE text || urgent then ("P2")
    else ("P3")
  else if category == ("Email") then
    if scope == ("multiple_users") && outage_keywords && !(reSearch _EMAIL_OVERRIDE_RE text) then
      ("P1")
    else if scope == ("multiple_users") || urgent then ("P2")
    else ("P3")
  else if category == ("Software") then
    if containsS text ("slack") && containsS text ("notification") && containsS text ("update") && !urgent then
      ("P4")
    else if containsS text ("install") || containsS text ("request") || reSearch _PRINT_TO_PDF_RE text then
      ("P4")
    else if urgent then ("P2")
    else ("P3")
  else if category == ("Hardware") || category == ("Printer") then
    if urgent then ("P2")
    else if category == ("Printer") then ("P3")
    else if reSearch _FLICKER_RE text then ("P3")
    else ("P4")
  else if scope == ("multiple_users") then ("P2")
  else if urgent then ("P2")
  else if scope == ("single_user") then ("P3")
  else ("P4")

/-- `infer_needs_clarification(signals, input_text, missing_fields, category)`.
Python's `category or infer_category(...)` treats both `None` and `""` as
absent; the empty string plays the role of `None` here. -/
def infer_needs_clarification (signals : PyDict) (input_text : String)
    (missing_fields : List String) (category : String) : Bool :=
  let category_value := if category == ("") then infer_category signals input_text else category
  let missing := missing_fields
  if missing.isEmpty then false
  else if category_value == ("Security") && _is_lost_device_security (pyLower input_text) then true
  else if (category_value == ("VPN") || category_value == ("Network") ||
      category_value == ("Email") || category_value == ("Security")) &&
      _is_actionable_incident signals input_text then false
  else if category_value == ("Access") then
    missing.any (fun field =>
      [("employee_name"), ("employee_email"), ("team"), ("access_level"),
       ("role_or_permissions"), ("start_date"), ("username"), ("manager_approval"),
       ("manager_approval_or_group"), ("sap_system_name"), ("drive_name"),
       ("hr_portal_url"), ("alternate_contact")].contains field)
  else if category_value == ("Laptop") then
    missing.any (fun field =>
      [("username"), ("device_os"), ("when_started"), ("asset_id"), ("apps_affected"),
       ("on_battery_or_power"), ("stop_code"), ("recent_changes")].contains field)
  else if category_value == ("Printer") then
    missing.any (fun field => [("printer_id_or_model"), ("location")].contains field)
  else true

def _field_mentioned (field : String) (input_text : String) (signals : PyDict) : Bool :=
  let text := pyLower input_text
  let scope := _normalize_scope (_signal_text signals ("scope"))
  if field == ("device_os") then reSearch _DEVICE_WORD_RE text
  else if field == ("username") then reSearch _EMAIL_RE text || reSearch _USERNAME_RE text
  else if field == ("employee_name") then reSearch _NAME_HINT_RE input_text
  else if field == ("employee_email") || field == ("alternate_contact") then reSearch _EMAIL_RE text
  else if field == ("team") || field == ("team_distribution_list") then reSearch _TEAM_RE text
  else if field == ("access_level") || field == ("role_or_permissions") || field == ("role") then
    reSearch _ACCESS_LEVEL_RE text
  else if field == ("manager_approval") || field == ("manager_approval_or_group") then
    reSearch _MANAGER_RE text
  else if field == ("start_date") then reSearch _DEADLINE_RE text
  else if field == ("sap_system_name") then containsS text ("sap")
  else if field == ("drive_name") then containsS text ("drive")
  else if field == ("hr_portal_url") then containsS text ("hr portal")
  else if field == ("screenshot_or_error_code") || field == ("error_message_or_screenshot") ||
      field == ("error_details") then reSearch _ERROR_HINT_RE text
  else if field == ("printer_id_or_model") then reSearch _PRINTER_ID_RE input_text
  else if field == ("location") || field == ("location_floor") then reSearch _LOCATION_HINT_RE text
  else if field == ("when_started") || field == ("start_time") || field == ("time_sent") ||
      field == ("exact_time_window") then reSearch _TIME_HINT_RE text
  else if field == ("connection_type") then reSearch _CONN_TYPE_RE text
  else if field == ("speed_test_result") then reSearch _SPEED_TEST_RE text
  else if field == ("vpn_client_name") then reSearch _VPN_CLIENT_RE text
  else if field == ("home_router_model") then containsS text ("router")
  else if field == ("timezone") then reSearch _TIMEZONE_RE text
  else if field == ("zoom_version") then reSearch _ZOOM_VERSION_RE text
  else if field == ("zoom_account_email") then containsS text ("zoom") && reSearch _EMAIL_RE text
  else if field == ("meeting_id") then reSearch _MEETING_ID_RE text
  else if field == ("slack_version") then reSearch _SLACK_VERSION_RE text
  else if field == ("application_name") then reSearch _APPLICATION_NAME_RE text
  else if field == ("admin_approval") then reSearch _ADMIN_APPROVAL_RE text
  else if field == ("windows_version") then reSearch _WINDOWS_VERSION_RE text
  else if field == ("recipient_email_domain") || field == ("what_was_sent") then
    reSearch _EMAIL_RE text || containsS text ("sent")
  else if field == ("device_type") || field == ("phone_number_or_asset_id") then
    reSearch _PHONE_ASSET_RE text
  else if field == ("last_known_time") then reSearch _TIME_HINT_RE text
  else if field == ("asset_id") then reSearch _ASSET_ID_RE text
  else if field == ("on_battery_or_power") then reSearch _BATTERY_RE text
  else if field == ("apps_affected") then reSearch _APPS_AFFECTED_RE text
  else if field == ("scope") then scope == ("single_user") || scope == ("multiple_users")
  else false

def _map_to_canonical (field : String) (allowed : List String) : Option String :=
  if allowed.contains field then some field
  else
    (((CANON_FIELD_MAP.find? (fun kv => kv.1 == field)).map Prod.snd).getD []).find?
      (fun candidate => allowed.contains candidate)

/-- `normalize_missing_fields_to_canonical(fields, allowed_missing_fields,
strict_missing_fields)`.  The `allowed_missing_fields` parameter is the
resolved allowed-vocabulary set: in Python, `_resolve_allowed_missing_fields`
turns `None` into a vocabulary read from the dataset file (file I/O outside
this embedding) and any other collection into a set of its stringified
members. -/
def normalize_missing_fields_to_canonical (fields : List String)
    (allowed_missing_fields : List String) (strict_missing_fields : Bool) : List String :=
  let allowed := allowed_missing_fields
  pyDedupe ((pyDedupe fields).filterMap (fun field =>
    match _map_to_canonical field allowed with
    | some canonical => some canonical
    | Option.none => if strict_missing_fields then Option.none else some field))

def infer_missing_fields (signals : PyDict) (input_text : String)
    (allowed_missing_fields : List String) (strict_missing_fields : Bool) : List String :=
  let category := infer_category signals input_text
  let text := pyLower input_text
  if category == ("Security") && _is_lost_device_security text then
    normalize_missing_fields_to_canonical
      [("device_type"), ("phone_number_or_asset_id"), ("last_known_time")]
      allowed_missing_fields strict_missing_fields
  else if (category == ("VPN") || category == ("Network") || category == ("Email") ||
      category == ("Security")) && _is_actionable_incident signals input_text then []
  else if category == ("Network") && containsS text ("slow") then
    normalize_missing_fields_to_canonical [("location_floor"), ("speed_test"), ("start_time")]
      allowed_missing_fields strict_missing_fields
  else
    let candidates : List String :=
      if category == ("Access") then
        let c :=
          (if _is_new_joiner_request text then
            [("employee_name"), ("employee_email"), ("team"), ("access_level"), ("start_date")]
          else []) ++
          (if containsS text ("sap") then
            [("username"), ("sap_system_name"), ("role_or_permissions"), ("manager_approval")]
          else []) ++
          (if containsS text ("drive") then [("drive_name"), ("manager_approval_or_group")] else []) ++
          (if containsS text ("hr portal") then
            [("username"), ("hr_portal_url"), ("screenshot_or_error_code")]
          else []) ++
          (if _is_password_reset text then [("username"), ("alternate_contact")] else [])
        if c.isEmpty then [("username"), ("access_level")] else c
      else if category == ("Laptop") then
        if reSearch _BITLOCKER_RE text then [("asset_id"), ("username"), ("is_company_managed")]
        else if _is_login_issue signals input_text then
          [("device_os"), ("username"), ("when_started")]
        else if reSearch _LAPTOP_FAILURE_RE text then
          [("device_os"), ("stop_code"), ("recent_changes")]
        else [("device_os"), ("when_started"), ("apps_affected"), ("on_battery_or_power")]
      else if category == ("Printer") then [("printer_id_or_model"), ("location")]
      else if category == ("Software") then
        let c :=
          (if reSearch _APP_NAME_RE text && reSearch _SOFTWARE_SYMPTOM_RE text then
            [("when_started"), ("error_message")]
          else []) ++
          (if containsS text ("zoom") then
            [("zoom_version")] ++
              (if containsS text ("removed") then
                [("device_os"), ("zoom_account_email"), ("meeting_id")]
              else [])
          else []) ++
          (if containsS text ("slack") then [("slack_version"), ("when_started")] else []) ++
          (if containsS text ("docker") then [("admin_approval"), ("windows_version")] else []) ++
          (if containsS text ("print to pdf") || containsS text ("pdf") then
            [("device_os"), ("application_name"), ("when_started")]
          else [])
        if c.isEmpty && _signal_bool signals ("mentions_software_app") then
          [("when_started"), ("error_message")]
        else c
      else if category == ("Network") then
        (if containsS text ("github") then [("location"), ("is_vpn_on"), ("error_details")] else []) ++
        (if (containsS text ("wifi") || containsS text ("wi-fi")) && !(containsS text ("slow")) then
          [("wifi_or_ethernet")]
        else [])
      else if category == ("VPN") then
        if reSearch _HOTSPOT_HOME_WIFI_RE text then
          [("device_os"), ("vpn_client_name"), ("home_router_model")]
        else if !(_is_actionable_incident signals input_text) then
          [("device_os"), ("vpn_client_name"), ("exact_error_message"), ("when_started")] ++
          (if containsS text ("home") || containsS text ("hotspot") then [("home_router_model")] else []) ++
          (if containsS text ("night") || containsS text ("morning") then
            [("timezone"), ("exact_time_window")]
          else [])
        else []
      else if category == ("Security") then
        (if containsS text ("external email") || containsS text ("sent") then
          [("recipient_email_domain"), ("what_happened"), ("time_sent")]
        else []) ++
        (if containsS text ("lost") && containsS text ("phone") then
          [("device_type"), ("phone_number_or_asset_id"), ("last_known_time")]
        else [])
      else if category == ("Email") then
        if containsS text ("calendar") || containsS text ("mailbox") then
          [("calendar_name"), ("team_distribution_list"), ("start_time")]
        else if containsS text ("delivery") &&
            (containsS text ("whole company") || containsS text ("company")) then
          [("start_time"), ("affected_domains")]
        else []
      else if category == ("Hardware") then
        (if containsS text ("monitor") then
          [("laptop_model"), ("monitor_model"), ("cable_or_port_tested")]
        else []) ++
        (if containsS text ("keyboard") then
          [("keyboard_type"), ("connection_type"), ("when_started")]
        else []) ++
        (if containsS text ("new laptop") then
          [("employee_name"), ("start_date"), ("role"), ("preferred_os")]
        else [])
      else []
    let unresolved := (pyDedupe candidates).filter
      (fun candidate => !(_field_mentioned candidate input_text signals))
    normalize_missing_fields_to_canonical unresolved allowed_missing_fields strict_missing_fields

def build_output_from_signals (signals : PyDict) (input_text : String)
    (allowed_missing_fields : List String) (strict_missing_fields : Bool) :
    TriageOut × List String :=
  let warnings : List String := []
  let device := infer_device (_signal_text signals ("device_hint")) input_text
  let category := infer_category signals input_text
  let priority := infer_priority signals input_text
  let missing_fields :=
    infer_missing_fields signals input_text allowed_missing_fields strict_missing_fields
  let needs_clarification :=
    infer_needs_clarification signals input_text missing_fields category
  let mw :=
    if !missing_fields.isEmpty && !needs_clarification then
      (([] : List String), warnings ++ [("dropped_non_blocking_missing_fields")])
    else (missing_fields, warnings)
  let nw :=
    if mw.1.isEmpty && needs_clarification then
      (false, mw.2 ++ [("forced_needs_clarification_false")])
    else (needs_clarification, mw.2)
  let summary0 := pyStripS (_signal_text signals ("summary"))
  let sw :=
    if summary0 == ("") then
      (String.mk ((pyStripS input_text).data.take 160), nw.2 ++ [("defaulted_summary_from_input")])
    else (summary0, nw.2)
  let cw := _clamp category NormalizeM.ALLOWED_CATEGORIES ("Software") sw.2 ("category_out_of_set")
  let pw := _clamp priority NormalizeM.ALLOWED_PRIORITIES ("P3") cw.2 ("priority_out_of_set")
  let dw := _clamp device NormalizeM.ALLOWED_DEVICES ("Unknown") pw.2 ("device_out_of_set")
  (⟨cw.1, pw.1, dw.1, nw.1, mw.1, sw.1⟩, pyDedupe dw.2)

end Rules

/-! ## normalize.py: output normalization -/

/-- Python `v is False`. -/
def pyIsFalse : PyVal → Bool
  | .bool false => true
  | _ => false

/-- Python `v is True`. -/
def pyIsTrue : PyVal → Bool
  | .bool true => true
  | _ => false

namespace NormalizeM

def _CATEGORY_SYNONYMS : List (String × String) :=
  [(("auth"), ("Access")), (("authentication"), ("Access")), (("login"), ("Access")),
   (("password"), ("Access")), (("account"), ("Access")), (("wifi"), ("Network")),
   (("wi-fi"), ("Network")), (("internet"), ("Network")), (("outlook"), ("Email")),
   (("mail"), ("Email")), (("calendar"), ("Email")), (("zoom"), ("Software")),
   (("teams"), ("Software")), (("slack"), ("Software")), (("docker"), ("Software")),
   (("bitlocker"), ("Laptop")), (("blue screen"), ("Laptop")), (("bsod"), ("Laptop"))]

/-- `_ensure_text_key(data, key, default, warnings)`: returns the updated
dict, the updated warnings, and the text the key now holds. -/
def _ensure_text_key (data : PyDict) (key : String) (dflt : String)
    (warnings : List String) : PyDict × List String × String :=
  match data.get? key with
  | Option.none => (data.set key (PyVal.str dflt), warnings ++ [("defaulted_") ++ key], dflt)
  | some PyVal.none => (data.set key (PyVal.str dflt), warnings ++ [("defaulted_") ++ key], dflt)
  | some v =>
    let text := pyStripS (pyStr v)
    if text == ("") then (data.set key (PyVal.str dflt), warnings ++ [("defaulted_") ++ key], dflt)
    else (data.set key (PyVal.str text), warnings, text)

def _normalize_category (category : String) (input_text_lower : String)
    (warnings : List String) : String × List String :=
  let clean := pyStripS category
  let lowered := pyLower clean
  let _unused := input_text_lower
  if ALLOWED_CATEGORIES.contains clean then (clean, warnings)
  else
    match _CATEGORY_SYNONYMS.find? (fun kv => containsS lowered kv.1) with
    | some kv => (kv.2, warnings ++ [("normalized_category_synonym")])
    | Option.none =>
      if containsS lowered ("vpn") then (("VPN"), warnings ++ [("normalized_category_synonym")])
      else (("Software"), warnings ++ [("category_out_of_set")])

def _infer_device (input_text_lower : String) : Option String :=
  if containsS input_text_lower ("windows") then some ("Windows")
  else if containsS input_text_lower ("macbook") || containsS input_text_lower ("mac") then
    some ("Mac")
  else if containsS input_text_lower ("iphone") || containsS input_text_lower ("ios") then
    some ("iPhone")
  else if containsS input_text_lower ("android") then some ("Android")
  else Option.none

def _normalize_device (device_value : PyVal) (input_text_lower : String)
    (warnings : List String) : String × List String :=
  let inferred := _infer_device input_text_lower
  let raw := match device_value with | .str s => pyStripS s | _ => ("")
  if raw == ("") then
    match inferred with
    | some inf => (inf, warnings ++ [("defaulted_device_from_text")])
    | Option.none => (("Unknown"), warnings ++ [("defaulted_device")])
  else
    let lowered := pyLower raw
    if containsS lowered ("iphone") || containsS lowered ("ios") then (("iPhone"), warnings)
    else if containsS lowered ("android") then (("Android"), warnings)
    else if containsS lowered ("mac") || containsS lowered ("macbook") then (("Mac"), warnings)
    else if containsS lowered ("windows") then (("Windows"), warnings)
    else if raw == ("Laptop") && (inferred == some ("Windows") || inferred == some ("Mac")) then
      (inferred.getD ("Unknown"), warnings ++ [("mapped_laptop_to_os_device")])
    else if ALLOWED_DEVICES.contains raw then (raw, warnings)
    else
      match inferred with
      | some inf => (inf, warnings ++ [("device_out_of_set_mapped_from_text")])
      | Option.none => (("Unknown"), warnings ++ [("device_out_of_set")])

def _normalize_priority (priority : String) (warnings : List String) : String × List String :=
  let clean := pyUpper (pyStripS priority)
  if ALLOWED_PRIORITIES.contains clean then (clean, warnings)
  else if clean == ("HIGH") || clean == ("URGENT") then (("P1"), warnings ++ [("normalized_priority")])
  else if clean == ("MEDIUM") || clean == ("NORMAL") then (("P3"), warnings ++ [("normalized_priority")])
  else if clean == ("LOW") then (("P4"), warnings ++ [("normalized_priority")])
  else
    match clean.data.getLast? with
    | some c =>
      if c == '1' || c == '2' || c == '3' || c == '4' then
        let maybe := ("P").push c
        if ALLOWED_PRIORITIES.contains maybe then (maybe, warnings ++ [("normalized_priority")])
        else (("P3"), warnings ++ [("priority_out_of_set")])
      else (("P3"), warnings ++ [("priority_out_of_set")])
    | Option.none => (("P3"), warnings ++ [("priority_out_of_set")])

/-- Loop body of `_normalize_missing_fields`. -/
def _normalize_missing_fields_aux : PyList → List String
  | .nil => []
  | .cons item t =>
    let text := pyStripS (pyStr item)
    if text == ("") then _normalize_missing_fields_aux t
    else text :: _normalize_missing_fields_aux t

def _normalize_missing_fields (value : PyVal) (warnings : List String) :
    List String × List String :=
  match value with
  | .list xs => (pyDedupe (_normalize_missing_fields_aux xs), warnings)
  | _ => (([] : List String), warnings ++ [("defaulted_missing_fields")])

def _normalize_bool (value : PyVal) : Bool :=
  match value with
  | .bool b => b
  | .str s =>
    let lowered := pyLower (pyStripS s)
    if lowered == ("true") || lowered == ("yes") || lowered == ("1") then true
    else if lowered == ("false") || lowered == ("no") || lowered == ("0") then false
    else pyTruthy (PyVal.str s)
  | v => pyTruthy v

def normalize_output (actual : PyDict) (input_text : String) : PyDict × List String :=
  let warnings : List String := []
  let text := pyLower input_text
  let e1 := _ensure_text_key actual ("category") ("Software") warnings
  let category := e1.2.2
  let e2 := _ensure_text_key e1.1 ("priority") ("P3") e1.2.1
  let priority := e2.2.2
  let e3 := _ensure_text_key e2.1 ("summary") ("") e2.2.1
  let e4 :=
    if (e3.1).hasKey ("needs_clarification") then (e3.1, e3.2.1)
    else ((e3.1).set ("needs_clarification") (PyVal.bool false),
      e3.2.1 ++ [("defaulted_needs_clarification")])
  let e5 :=
    if (e4.1).hasKey ("missing_fields") then (e4.1, e4.2)
    else ((e4.1).set ("missing_fields") (PyVal.list PyList.nil),
      e4.2 ++ [("defaulted_missing_fields")])
  let c6 := _normalize_category category text e5.2
  let n6 := (e5.1).set ("category") (PyVal.str c6.1)
  let c7 := _normalize_priority priority c6.2
  let n7 := n6.set ("priority") (PyVal.str c7.1)
  let c8 := _normalize_device (n7.getd ("device") PyVal.none) text c7.2
  let n8 := n7.set ("device") (PyVal.str c8.1)
  let s9 := pyStripS (pyStr (n8.getd ("summary") (PyVal.str (""))))
  let n9 := n8.set ("summary") (PyVal.str s9)
  let c10 := _normalize_missing_fields (n9.getd ("missing_fields") PyVal.none) c8.2
  let n10 := n9.set ("missing_fields") (strListVal c10.1)
  let b11 := _normalize_bool (n10.getd ("needs_clarification") PyVal.none)
  let n11 := n10.set ("needs_clarification") (PyVal.bool b11)
  let fix1 :=
    if pyTruthy (n11.getd ("missing_fields") PyVal.none) &&
        pyIsFalse (n11.getd ("needs_clarification") PyVal.none) then
      (n11.set ("needs_clarification") (PyVal.bool true),
        c10.2 ++ [("coerced_needs_clarification_true")])
    else (n11, c10.2)
  let w13 :=
    if pyIsTrue ((fix1.1).getd ("needs_clarification") PyVal.none) &&
        !(pyTruthy ((fix1.1).getd ("missing_fields") PyVal.none)) then
      fix1.2 ++ [("needs_clarification_without_missing_fields")]
    else fix1.2
  (fix1.1, pyDedupe w13)

end NormalizeM

/-! ## schema.py: required-field validation -/

namespace Schema

/-- The Python types appearing in `REQUIRED_OUTPUT_FIELDS`. -/
inductive PyType where
  | str : PyType
  | bool : PyType
  | list : PyType

def REQUIRED_OUTPUT_FIELDS : List (String × PyType) :=
  [(("category"), PyType.str), (("priority"), PyType.str), (("device"), PyType.str),
   (("needs_clarification"), PyType.bool), (("missing_fields"), PyType.list),
   (("summary"), PyType.str)]

/-- Python `isinstance(v, t)` for the three types used here. -/
def isinstanceOf (v : PyVal) : PyType → Bool
  | PyType.str => match v with | .str _ => true | _ => false
  | PyType.bool => match v with | .bool _ => true | _ => false
  | PyType.list => match v with | .list _ => true | _ => false

def typeErrorText : PyType → String
  | PyType.str => ("str")
  | PyType.bool => ("bool")
  | PyType.list => ("list")

def validate_required_fields (output : PyVal) : Bool × List String :=
  match output with
  | .dict d =>
    let errors := REQUIRED_OUTPUT_FIELDS.foldl (fun errors ft =>
      if !(d.hasKey ft.1) then errors ++ [("Missing key: ") ++ ft.1]
      else if isinstanceOf (d.getd ft.1 PyVal.none) ft.2 then errors
      else errors ++ [("Key \x27") ++ ft.1 ++ ("\x27 must be ") ++ typeErrorText ft.2]) []
    (errors.isEmpty, errors)
  | _ => (false, [("Output must be a JSON object")])

end Schema

/-! ## scoring.py: the scoring / diff engine -/

/-- The per-case result dict built by `score_case`. -/
structure ScoreResult where
  json_valid : Bool
  schema_valid : Bool
  schema_errors : List String
  category_correct : Bool
  priority_correct : Bool
  device_correct : Bool
  needs_clarification_correct : Bool
  hallucination : Bool
  unknown_missing_fields : List String
  warnings : List String
  extraction_failure_device_unknown : Bool
  failure_reasons : List String
  overall_pass : Bool
deriving Repr

namespace Scoring

def _field_correct (expected : PyDict) (actual : PyVal) (field : String) : Bool :=
  match actual with
  | .dict a => pyEqOpt (expected.get? field) (a.get? field)
  | _ => false

def _hallucination_checks (actual : PyVal) : Bool × List String :=
  match actual with
  | .dict a =>
    let needs_clarification := a.getd ("needs_clarification") PyVal.none
    let missing_fields := a.getd ("missing_fields") PyVal.none
    let reasons :=
      (if pyIsFalse needs_clarification &&
          (match missing_fields with | .list (PyList.cons _ _) => true | _ => false) then
        [("missing_fields_without_clarification")]
      else []) ++
      (if pyIsTrue needs_clarification &&
          (match missing_fields with | .list PyList.nil => true | _ => false) then
        [("clarification_without_missing_fields")]
      else [])
    (!(reasons.isEmpty), reasons)
  | _ => (false, [])

def _is_device_extraction_failure (actual : PyVal) (input_text : String) : Bool :=
  match actual with
  | .dict a =>
    if pyEq (a.getd ("device") PyVal.none) (PyVal.str ("Unknown")) then
      reSearch DEVICE_HINT_PATTERN input_text
    else false
  | _ => false

/-- Loop body of `_find_unknown_missing_fields`. -/
def findUnknownAux (allowed : List String) : PyList → List String
  | .nil => []
  | .cons field t =>
    match field with
    | .str s =>
      if allowed.contains s then findUnknownAux allowed t else s :: findUnknownAux allowed t
    | v => pyStr v :: findUnknownAux allowed t

def _find_unknown_missing_fields (actual : PyVal) (allowed_missing_fields : List String) :
    List String :=
  match actual with
  | .dict a =>
    match a.getd ("missing_fields") PyVal.none with
    | .list xs => findUnknownAux allowed_missing_fields xs
    | _ => []
  | _ => []

/-- `score_case(expected, actual, input_text, allowed_missing_fields)`.
The `allowed_missing_fields` parameter models the supplied collection
(Python's `allowed_missing_fields or []` turns `None` into the empty
collection, which the empty list represents here). -/
def score_case (expected : PyDict) (actual : PyVal) (input_text : String)
    (allowed_missing_fields : List String) : ScoreResult :=
  let json_valid := match actual with | .dict _ => true | _ => false
  let sv :=
    if json_valid then Schema.validate_required_fields actual
    else (false, [("Output must be a JSON object")])
  let category_correct := _field_correct expected actual ("category")
  let priority_correct := _field_correct expected actual ("priority")
  let device_correct := _field_correct expected actual ("device")
  let needs_clarification_correct := _field_correct expected actual ("needs_clarification")
  let hc := _hallucination_checks actual
  let extraction_failure_device_unknown := _is_device_extraction_failure actual input_text
  let unknown_missing_fields := _find_unknown_missing_fields actual allowed_missing_fields
  let warnings : List String :=
    if unknown_missing_fields.isEmpty then [] else [("unknown_missing_fields")]
  let failure_reasons :=
    (if json_valid then [] else [("invalid_json")]) ++
    (if sv.1 then [] else [("schema_error")]) ++
    (if category_correct then [] else [("wrong_category")]) ++
    (if priority_correct then [] else [("wrong_priority")]) ++
    (if device_correct then [] else [("wrong_device")]) ++
    (if needs_clarification_correct then [] else [("wrong_needs_clarification")]) ++
    (if hc.1 then [("hallucination")] ++ hc.2 else []) ++
    (if extraction_failure_device_unknown then [("extraction_failure_device_unknown")] else [])
  let overall_pass :=
    json_valid && sv.1 && category_correct && priority_correct && device_correct &&
      needs_clarification_correct && !hc.1
  ⟨json_valid, sv.1, sv.2, category_correct, priority_correct, device_correct,
    needs_clarification_correct, hc.1, unknown_missing_fields, warnings,
    extraction_failure_device_unknown, pyDedupe failure_reasons, overall_pass⟩

end Scoring

/-! ## providers/ollama.py: JSON object extraction and repair -/

namespace Ollama

/-- Scanner loop of `extract_first_json_object`: `text` is the full input,
the other arguments mirror the loop state (`remaining` characters, current
index, brace depth, candidate start index with `-1` as sentinel, in-string
flag, escape flag). -/
def extractAux (text : List Char) : List Char → Nat → Nat → Int → Bool → Bool → Option String
  | [], _, _, _, _, _ => Option.none
  | ch :: rest, idx, depth, start, in_string, escaped =>
    if in_string then
      if escaped then extractAux text rest (idx + 1) depth start true false
      else if ch == '\\' then extractAux text rest (idx + 1) depth start true true
      else if ch == '"' then extractAux text rest (idx + 1) depth start false escaped
      else extractAux text rest (idx + 1) depth start true escaped
    else if ch == '"' then extractAux text rest (idx + 1) depth start true escaped
    else if ch == '\x7b' then
      extractAux text rest (idx + 1) (depth + 1) (if depth == 0 then (idx : Int) else start)
        in_string escaped
    else if ch == '\x7d' && depth > 0 then
      if depth - 1 == 0 && start ≥ 0 then
        some (String.mk ((text.drop start.toNat).take (idx + 1 - start.toNat)))
      else extractAux text rest (idx + 1) (depth - 1) start in_string escaped
    else extractAux text rest (idx + 1) depth start in_string escaped

def extract_first_json_object (text : String) : Option String :=
  extractAux text.data text.data 0 0 (-1) false false

/-- `parse_json_object_with_repair(text)`.  Python's `json.loads` is
modelled by the abstract parameter `loads`, which returns `none` exactly
when `json.loads` raises `JSONDecodeError`.  The trailing
`isinstance(parsed, dict)` check applies on both the direct-parse and the
extraction path, so it is written out in each branch. -/
def parse_json_object_with_repair (loads : String → Option PyVal) (text : String) :
    Option PyVal × Bool × String :=
  let raw := pyStripS text
  if raw == ("") then (Option.none, false, ("EmptyOutput"))
  else
    match loads raw with
    | some parsed =>
      match parsed with
      | .dict _ => (some parsed, true, (""))
      | _ => (Option.none, false, ("InvalidJSON"))
    | Option.none =>
      match extract_first_json_object raw with
      | Option.none => (Option.none, false, ("ExtractionFailure"))
      | some candidate =>
        match loads candidate with
        | Option.none => (Option.none, false, ("InvalidJSON"))
        | some parsed =>
          match parsed with
          | .dict _ => (some parsed, true, (""))
          | _ => (Option.none, false, ("InvalidJSON"))

/-- `parse_json_object_from_text(text)` drops the failure kind. -/
def parse_json_object_from_text (loads : String → Option PyVal) (text : String) :
    Option PyVal × Bool :=
  ((parse_json_object_with_repair loads text).1, (parse_json_object_with_repair loads text).2.1)

end Ollama

/-! ## reporting/summarize.py: latency percentiles and gates -/

namespace Summarize

/-- `_percentile(values, percentile)`: nearest-rank percentile on rationals
(Python computes with floats; the empty-list early return, which the
theorems below are about, is exact in either arithmetic).  Out-of-range
ranks index with default 0 where Python would raise. -/
def _percentile (values : List Rat) (percentile : Int) : Rat :=
  if values.isEmpty then 0
  else
    let sorted_values := values.mergeSort (fun a b => a ≤ b)
    let rank := max 1 (Int.toNat (Int.ceil ((percentile : Rat) / 100 * (sorted_values.length : Rat))))
    sorted_values.getD (rank - 1) 0

/-- The latency filter of `summarize_results`:
`isinstance(row, dict) and isinstance(row.get("latency_ms"), (int, float))`
(Python `bool` is an `int` subclass, so boolean latencies pass the check). -/
def latencyOf (row : PyVal) : Option Rat :=
  match row with
  | .dict d =>
    match d.get? ("latency_ms") with
    | some (PyVal.int n) => some ((n : Rat))
    | some (PyVal.float q) => some q
    | some (PyVal.bool b) => some (if b then 1 else 0)
    | _ => Option.none
  | _ => Option.none

/-- The latency-sample selection of `summarize_results` (lines 63-74):
event-stream latencies when any exist, else result-record latencies. -/
def latency_samples (events results : List PyVal) : List Rat :=
  let latencies := events.filterMap latencyOf
  if latencies.isEmpty then results.filterMap latencyOf else latencies

/-- The `latency_ms` entry of the summary built by `summarize_results`:
`(p50, p95)` over the selected samples. -/
def summarize_latency (events results : List PyVal) : Rat × Rat :=
  let l := latency_samples events results
  (_percentile l 50, _percentile l 95)

/-- The summary fields consumed by `evaluate_gates`. -/
structure GateSummary where
  category_accuracy : Rat
  schema_valid_rate : Rat
  latency_p50 : Rat
  latency_p95 : Rat

/-- The gate thresholds, after `_resolve_gate_limits` has merged defaults,
provider profile, environment override and caller overrides (that merge is
configuration plumbing outside these claims). -/
structure GateLimits where
  category_accuracy_min : Rat
  schema_valid_rate_min : Rat
  latency_p95_ms_max : Rat

def DEFAULT_GATES : GateLimits := ⟨85 / 100, 1, 2000⟩

def OLLAMA_LOCAL_GATES_latency_p95_ms_max : Rat := 6000

def _float_eq (a b : Rat) : Bool := decide (|a - b| ≤ 1 / 1000000000)

/-- `evaluate_gates(summary, gates)`: the three named checks and the
conjunction `passed`. -/
def evaluate_gates (summary : GateSummary) (limits : GateLimits) : Bool × List (String × Bool) :=
  let checks : List (String × Bool) :=
    [(("category_accuracy"), decide (limits.category_accuracy_min ≤ summary.category_accuracy)),
     (("schema_valid_rate"), _float_eq summary.schema_valid_rate limits.schema_valid_rate_min),
     (("latency_p95_ms"), decide (summary.latency_p95 ≤ limits.latency_p95_ms_max))]
  (checks.all (fun c => c.2), checks)

end Summarize

/-! ## Theorems about extraction (C3) -/

theorem extractAux_shape (text : List Char) : ∀ (remaining : List Char) (idx depth : Nat)
    (start : Int) (instr esc : Bool),
    remaining = text.drop idx →
    (start ≥ 0 → text.get? start.toNat = some '\x7b' ∧ start.toNat < idx) →
    ∀ s, Ollama.extractAux text remaining idx depth start instr esc = some s →
      s.data.head? = some '\x7b' ∧ s.data.getLast? = some '\x7d' ∧ s.data <:+: text := by
  intro remaining
  induction remaining with
  | nil =>
    intro idx depth start instr esc hrem hstart s hs
    simp [Ollama.extractAux] at hs
  | cons ch rest ih =>
    intro idx depth start instr esc hrem hstart s hs
    have hrest : rest = text.drop (idx + 1) := by
      rw [← List.tail_drop, ← hrem]
      rfl
    have hch : text.get? idx = some ch := by
      have h0 : (text.drop idx).get? 0 = some ch := by rw [← hrem]; rfl
      rwa [List.get?_drop, Nat.add_zero] at h0
    have hidxlt : idx < text.length := by
      by_contra hge
      have hn : text.get? idx = Option.none := List.get?_eq_none.mpr (Nat.le_of_not_lt hge)
      rw [hn] at hch
      exact Option.noConfusion hch
    have hstart' : start ≥ 0 → text.get? start.toNat = some '\x7b' ∧ start.toNat < idx + 1 := by
      intro h
      exact ⟨(hstart h).1, Nat.lt_succ_of_lt (hstart h).2⟩
    simp only [Ollama.extractAux] at hs
    by_cases h1 : instr = true
    · rw [if_pos h1] at hs
      by_cases h2 : esc = true
      · rw [if_pos h2] at hs
        exact ih (idx + 1) depth start true false hrest hstart' s hs
      · rw [if_neg h2] at hs
        by_cases h3 : (ch == '\\') = true
        · rw [if_pos h3] at hs
          exact ih (idx + 1) depth start true true hrest hstart' s hs
        · rw [if_neg h3] at hs
          by_cases h4 : (ch == '"') = true
          · rw [if_pos h4] at hs
            exact ih (idx + 1) depth start false esc hrest hstart' s hs
          · rw [if_neg h4] at hs
            exact ih (idx + 1) depth start true esc hrest hstart' s hs
    · rw [if_neg h1] at hs
      by_cases h5 : (ch == '"') = true
      · rw [if_pos h5] at hs
        exact ih (idx + 1) depth start true esc hrest hstart' s hs
      · rw [if_neg h5] at hs
        by_cases h6 : (ch == '\x7b') = true
        · rw [if_pos h6] at hs
          refine ih (idx + 1) (depth + 1) (if depth == 0 then (idx : Int) else start) instr esc
            hrest ?_ s hs
          intro hge
          by_cases hd : (depth == 0) = true
          · simp only [hd, if_true]
            have hlb : ch = '\x7b' := by simpa using h6
            exact ⟨by simpa [hlb] using hch, by simp⟩
          · simp only [hd, if_false]
            simp only [hd, if_false] at hge
            exact hstart' hge
        · rw [if_neg h6] at hs
          by_cases h7 : (ch == '\x7d' && decide (depth > 0)) = true
          · rw [if_pos h7] at hs
            by_cases h8 : (depth - 1 == 0 && decide (start ≥ 0)) = true
            · rw [if_pos h8] at hs
              have hge : start ≥ 0 := by
                have hand := (Bool.and_eq_true _ _).mp h8
                exact of_decide_eq_true hand.2
              have hrb : ch = '\x7d' := by
                have hand := (Bool.and_eq_true _ _).mp h7
                simpa using hand.1
              obtain ⟨hsto, hstlt⟩ := hstart hge
              have hinj := Option.some.inj hs
              subst hinj
              have hsdata : (String.mk ((text.drop start.toNat).take (idx + 1 - start.toNat))).data
                  = (text.drop start.toNat).take (idx + 1 - start.toNat) := rfl
              have hlen : ((text.drop start.toNat).take (idx + 1 - start.toNat)).length
                  = idx + 1 - start.toNat := by
                rw [List.length_take, List.length_drop]
                omega
              refine ⟨?_, ?_, ?_⟩
              · rw [hsdata, ← List.get?_zero, List.get?_take (by omega), List.get?_drop,
                  Nat.add_zero]
                exact hsto
              · rw [hsdata, List.getLast?_eq_get?, hlen, List.get?_take (by omega),
                  List.get?_drop]
                have heq : start.toNat + (idx + 1 - start.toNat - 1) = idx := by omega
                rw [heq, hch, hrb]
              · rw [hsdata]
                refine ⟨text.take start.toNat,
                  (text.drop start.toNat).drop (idx + 1 - start.toNat), ?_⟩
                rw [List.append_assoc, List.take_append_drop, List.take_append_drop]
            · rw [if_neg h8] at hs
              exact ih (idx + 1) (depth - 1) start instr esc hrest hstart' s hs
          · rw [if_neg h7] at hs
            exact ih (idx + 1) depth start instr esc hrest hstart' s hs

/-- With the start sentinel still `-1` and no opening brace in the remaining
input, the scanner never returns an object. -/
theorem extractAux_none_of_no_brace (text : List Char) : ∀ (remaining : List Char)
    (idx depth : Nat) (instr esc : Bool), (∀ c ∈ remaining, c ≠ '\x7b') →
    Ollama.extractAux text remaining idx depth (-1) instr esc = Option.none := by
  intro remaining
  induction remaining with
  | nil => intro idx depth instr esc _; rfl
  | cons ch rest ih =>
    intro idx depth instr esc hnb
    have hch : ch ≠ '\x7b' := hnb ch (List.mem_cons_self ch rest)
    have hrest : ∀ c ∈ rest, c ≠ '\x7b' := fun c hc => hnb c (List.mem_cons_of_mem ch hc)
    simp only [Ollama.extractAux]
    by_cases h1 : instr = true
    · rw [if_pos h1]
      by_cases h2 : esc = true
      · rw [if_pos h2]
        exact ih (idx + 1) depth true false hrest
      · rw [if_neg h2]
        by_cases h3 : (ch == '\\') = true
        · rw [if_pos h3]
          exact ih (idx + 1) depth true true hrest
        · rw [if_neg h3]
          by_cases h4 : (ch == '"') = true
          · rw [if_pos h4]
            exact ih (idx + 1) depth false esc hrest
          · rw [if_neg h4]
            exact ih (idx + 1) depth true esc hrest
    · rw [if_neg h1]
      by_cases h5 : (ch == '"') = true
      · rw [if_pos h5]
        exact ih (idx + 1) depth true esc hrest
      · rw [if_neg h5]
        have h6 : ¬((ch == '\x7b') = true) := by simpa using hch
        rw [if_neg h6]
        by_cases h7 : (ch == '\x7d' && decide (depth > 0)) = true
        · rw [if_pos h7]
          have h8 : ¬((depth - 1 == 0 && decide ((-1 : Int) ≥ 0)) = true) := by simp
          rw [if_neg h8]
          exact ih (idx + 1) (depth - 1) instr esc hrest
        · rw [if_neg h7]
          exact ih (idx + 1) depth instr esc hrest

/-- The prose sample input of the extraction property. -/
def exJsonProse : String := "prefix \x7b\x22a\x22:1,\x22b\x22:\x7b\x22c\x22:2\x7d\x7d suffix"

/-- The embedded object inside `exJsonProse`. -/
def exJsonObject : String := "\x7b\x22a\x22:1,\x22b\x22:\x7b\x22c\x22:2\x7d\x7d"

/-- The sample input with a closing brace inside a string literal. -/
def exJsonBraceInString : String := "\x7b\x22text\x22:\x22a \x7d b\x22\x7d"

/-- Reference reading of the spec sentence, phase 1 (spec-derived, for the
refinement comparison): return the suffix of the input that starts at the
first `\x7b` encountered outside double-quoted string literals, tracking
backslash escapes so that an escaped quote does not toggle string mode;
none if there is no such brace. -/
def specFindStart : List Char → Bool → Bool → Option (List Char)
  | [], _, _ => Option.none
  | c :: rest, instr, esc =>
    if instr then
      if esc then specFindStart rest true false
      else if c == '\\' then specFindStart rest true true
      else if c == '"' then specFindStart rest false esc
      else specFindStart rest true esc
    else if c == '"' then specFindStart rest true esc
    else if c == '\x7b' then some (c :: rest)
    else specFindStart rest instr esc

/-- Reference reading of the spec sentence, phase 2 (spec-derived, for the
refinement comparison): the span of characters up to and including the
`\x7d` that returns the brace depth to 0, where depth increments on `\x7b`
and decrements on `\x7d`, braces inside double-quoted string literals
(with backslash-escape tracking) being ignored; none if the depth never
returns to 0. -/
def specTakeObject : List Char → Bool → Bool → Nat → Option (List Char)
  | [], _, _, _ => Option.none
  | c :: rest, instr, esc, depth =>
    if instr then
      if esc then (specTakeObject rest true false depth).map (fun r => c :: r)
      else if c == '\\' then (specTakeObject rest true true depth).map (fun r => c :: r)
      else if c == '"' then (specTakeObject rest false esc depth).map (fun r => c :: r)
      else (specTakeObject rest true esc depth).map (fun r => c :: r)
    else if c == '"' then (specTakeObject rest true esc depth).map (fun r => c :: r)
    else if c == '\x7b' then (specTakeObject rest instr esc (depth + 1)).map (fun r => c :: r)
    else if c == '\x7d' && depth > 0 then
      if depth - 1 == 0 then some [c]
      else (specTakeObject rest instr esc (depth - 1)).map (fun r => c :: r)
    else (specTakeObject rest instr esc depth).map (fun r => c :: r)

/-- Reference extraction (spec-derived): the first unquoted `\x7b`, then the
span through the `\x7d` that returns the depth to 0. -/
def extract_first_json_object_spec (text : String) : Option String :=
  Option.map (fun r => String.mk r)
    ((specFindStart text.data false false).bind (fun r => specTakeObject r false false 0))

theorem extractAux_eq_takeObject (text : List Char) : ∀ (rem : List Char)
    (idx depth start : Nat) (instr esc : Bool),
    rem = text.drop idx → start ≤ idx → 1 ≤ depth →
    Ollama.extractAux text rem idx depth ((start : Nat) : Int) instr esc
      = Option.map (fun r => String.mk ((text.drop start).take (idx - start) ++ r))
          (specTakeObject rem instr esc depth) := by
  intro rem
  induction rem with
  | nil =>
    intro idx depth start instr esc _ _ _
    rfl
  | cons c rest ih =>
    intro idx depth start instr esc hrem hstart hdepth
    have hrest : rest = text.drop (idx + 1) := by
      rw [← List.tail_drop, ← hrem]
      rfl
    have hch : text[idx]? = some c := by
      have h0 : (text.drop idx)[0]? = some c := by
        rw [← hrem]
        exact List.getElem?_cons_zero
      rwa [List.getElem?_drop, Nat.add_zero] at h0
    have htake : (text.drop start).take (idx + 1 - start)
        = (text.drop start).take (idx - start) ++ [c] := by
      have h1 : idx + 1 - start = (idx - start) + 1 := by omega
      rw [h1, List.take_succ, List.getElem?_drop]
      have h2 : start + (idx - start) = idx := by omega
      rw [h2, hch]
      rfl
    simp only [Ollama.extractAux, specTakeObject]
    by_cases h1 : instr = true
    · simp only [if_pos h1]
      by_cases h2 : esc = true
      · simp only [if_pos h2]
        rw [ih (idx + 1) depth start true false hrest (by omega) hdepth]
        cases specTakeObject rest true false depth <;> simp [htake]
      · simp only [if_neg h2]
        by_cases h3 : (c == '\\') = true
        · simp only [if_pos h3]
          rw [ih (idx + 1) depth start true true hrest (by omega) hdepth]
          cases specTakeObject rest true true depth <;> simp [htake]
        · simp only [if_neg h3]
          by_cases h4 : (c == '"') = true
          · simp only [if_pos h4]
            rw [ih (idx + 1) depth start false esc hrest (by omega) hdepth]
            cases specTakeObject rest false esc depth <;> simp [htake]
          · simp only [if_neg h4]
            rw [ih (idx + 1) depth start true esc hrest (by omega) hdepth]
            cases specTakeObject rest true esc depth <;> simp [htake]
    · simp only [if_neg h1]
      by_cases h5 : (c == '"') = true
      · simp only [if_pos h5]
        rw [ih (idx + 1) depth start true esc hrest (by omega) hdepth]
        cases specTakeObject rest true esc depth <;> simp [htake]
      · simp only [if_neg h5]
        by_cases h6 : (c == '\x7b') = true
        · simp only [if_pos h6]
          have hd0 : (depth == 0) = false := by
            simp only [beq_eq_false_iff_ne]
            omega
          simp only [hd0, Bool.false_eq_true, if_false]
          rw [ih (idx + 1) (depth + 1) start instr esc hrest (by omega) (by omega)]
          cases specTakeObject rest instr esc (depth + 1) <;> simp [htake]
        · simp only [if_neg h6]
          by_cases h7 : (c == '\x7d' && decide (depth > 0)) = true
          · simp only [if_pos h7]
            have hge : decide (((start : Nat) : Int) ≥ 0) = true :=
              decide_eq_true (Int.natCast_nonneg start)
            simp only [hge, Bool.and_true]
            by_cases h8 : (depth - 1 == 0) = true
            · simp only [if_pos h8]
              have htn : ((start : Nat) : Int).toNat = start := Int.toNat_natCast start
              rw [htn, htake]
              simp
            · simp only [if_neg h8]
              have hd1 : ¬(depth - 1 = 0) := by simpa using h8
              rw [ih (idx + 1) (depth - 1) start instr esc hrest (by omega) (by omega)]
              cases specTakeObject rest instr esc (depth - 1) <;> simp [htake]
          · simp only [if_neg h7]
            rw [ih (idx + 1) depth start instr esc hrest (by omega) hdepth]
            cases specTakeObject rest instr esc depth <;> simp [htake]

theorem extractAux_eq_spec (text : List Char) : ∀ (rem : List Char) (idx : Nat)
    (instr esc : Bool), rem = text.drop idx → (esc = true → instr = true) →
    Ollama.extractAux text rem idx 0 (-1) instr esc
      = Option.map (fun r => String.mk r)
          ((specFindStart rem instr esc).bind (fun r => specTakeObject r false false 0)) := by
  intro rem
  induction rem with
  | nil =>
    intro idx instr esc _ _
    rfl
  | cons c rest ih =>
    intro idx instr esc hrem hinv
    have hrest : rest = text.drop (idx + 1) := by
      rw [← List.tail_drop, ← hrem]
      rfl
    simp only [Ollama.extractAux, specFindStart]
    by_cases h1 : instr = true
    · simp only [if_pos h1]
      by_cases h2 : esc = true
      · simp only [if_pos h2]
        exact ih (idx + 1) true false hrest (fun h => Bool.noConfusion h)
      · simp only [if_neg h2]
        by_cases h3 : (c == '\\') = true
        · simp only [if_pos h3]
          exact ih (idx + 1) true true hrest (fun _ => rfl)
        · simp only [if_neg h3]
          by_cases h4 : (c == '"') = true
          · simp only [if_pos h4]
            refine ih (idx + 1) false esc hrest (fun h => ?_)
            exact absurd h h2
          · simp only [if_neg h4]
            exact ih (idx + 1) true esc hrest (fun _ => rfl)
    · simp only [if_neg h1]
      have hesc : esc = false := by
        cases hesc0 : esc with
        | false => rfl
        | true => exact absurd (hinv hesc0) h1
      subst hesc
      have hinstr : instr = false := by
        cases hin0 : instr with
        | false => rfl
        | true => exact absurd hin0 h1
      subst hinstr
      by_cases h5 : (c == '"') = true
      · simp only [if_pos h5]
        exact ih (idx + 1) true false hrest (fun _ => rfl)
      · simp only [if_neg h5]
        by_cases h6 : (c == '\x7b') = true
        · simp only [if_pos h6]
          have h00 : ((0 : Nat) == 0) = true := rfl
          simp only [h00, if_true, Nat.zero_add]
          rw [extractAux_eq_takeObject text rest (idx + 1) 1 idx false false hrest
            (by omega) (by omega)]
          have hone : idx + 1 - idx = 1 := by omega
          have htk1 : (text.drop idx).take 1 = [c] := by
            rw [← hrem]
            rfl
          rw [hone, htk1]
          simp only [Option.some_bind, specTakeObject]
          simp only [Bool.false_eq_true, if_false, if_neg h5, if_pos h6, Nat.zero_add]
          cases specTakeObject rest false false 1 <;> simp
        · simp only [if_neg h6]
          have h0gt : (decide ((0 : Nat) > 0)) = false := rfl
          simp only [h0gt, Bool.and_false, Bool.false_eq_true, if_false]
          exact ih (idx + 1) false false hrest (fun h => Bool.noConfusion h)

/-- A found suffix decomposes the input after a brace-free prefix, and
starts with the opening brace. -/
theorem specFindStart_decomp : ∀ (cs : List Char) (instr esc : Bool) (r : List Char),
    specFindStart cs instr esc = some r →
    (∃ pre, cs = pre ++ r ∧ specFindStart pre instr esc = Option.none) ∧
      r.head? = some '\x7b'
  | [], instr, esc, r => by
    intro h
    exact Option.noConfusion h
  | c :: rest, instr, esc, r => by
    intro h
    rw [specFindStart] at h
    by_cases h1 : instr = true
    · rw [if_pos h1] at h
      by_cases h2 : esc = true
      · rw [if_pos h2] at h
        obtain ⟨⟨pre, hcs, hnone⟩, hhead⟩ := specFindStart_decomp rest true false r h
        refine ⟨⟨c :: pre, by rw [List.cons_append, hcs], ?_⟩, hhead⟩
        rw [specFindStart, if_pos h1, if_pos h2]
        exact hnone
      · rw [if_neg h2] at h
        by_cases h3 : (c == '\\') = true
        · rw [if_pos h3] at h
          obtain ⟨⟨pre, hcs, hnone⟩, hhead⟩ := specFindStart_decomp rest true true r h
          refine ⟨⟨c :: pre, by rw [List.cons_append, hcs], ?_⟩, hhead⟩
          rw [specFindStart, if_pos h1, if_neg h2, if_pos h3]
          exact hnone
        · rw [if_neg h3] at h
          by_cases h4 : (c == '"') = true
          · rw [if_pos h4] at h
            obtain ⟨⟨pre, hcs, hnone⟩, hhead⟩ := specFindStart_decomp rest false esc r h
            refine ⟨⟨c :: pre, by rw [List.cons_append, hcs], ?_⟩, hhead⟩
            rw [specFindStart, if_pos h1, if_neg h2, if_neg h3, if_pos h4]
            exact hnone
          · rw [if_neg h4] at h
            obtain ⟨⟨pre, hcs, hnone⟩, hhead⟩ := specFindStart_decomp rest true esc r h
            refine ⟨⟨c :: pre, by rw [List.cons_append, hcs], ?_⟩, hhead⟩
            rw [specFindStart, if_pos h1, if_neg h2, if_neg h3, if_neg h4]
            exact hnone
    · rw [if_neg h1] at h
      by_cases h5 : (c == '"') = true
      · rw [if_pos h5] at h
        obtain ⟨⟨pre, hcs, hnone⟩, hhead⟩ := specFindStart_decomp rest true esc r h
        refine ⟨⟨c :: pre, by rw [List.cons_append, hcs], ?_⟩, hhead⟩
        rw [specFindStart, if_neg h1, if_pos h5]
        exact hnone
      · rw [if_neg h5] at h
        by_cases h6 : (c == '\x7b') = true
        · rw [if_pos h6] at h
          have hr : r = c :: rest := (Option.some.inj h).symm
          subst hr
          refine ⟨⟨[], rfl, rfl⟩, ?_⟩
          rw [List.head?_cons]
          have hc : c = '\x7b' := by simpa using h6
          rw [hc]
        · rw [if_neg h6] at h
          obtain ⟨⟨pre, hcs, hnone⟩, hhead⟩ := specFindStart_decomp rest instr esc r h
          refine ⟨⟨c :: pre, by rw [List.cons_append, hcs], ?_⟩, hhead⟩
          rw [specFindStart, if_neg h1, if_neg h5, if_neg h6]
          exact hnone

/-- A found object span is an initial segment of its input on which the
scan returns exactly that span, and it ends with the closing brace. -/
theorem specTakeObject_decomp : ∀ (cs : List Char) (instr esc : Bool) (depth : Nat)
    (r : List Char), specTakeObject cs instr esc depth = some r →
    (∃ suf, cs = r ++ suf ∧ specTakeObject r instr esc depth = some r) ∧
      r.getLast? = some '\x7d'
  | [], instr, esc, depth, r => by
    intro h
    exact Option.noConfusion h
  | c :: rest, instr, esc, depth, r => by
    intro h
    rw [specTakeObject] at h
    by_cases h1 : instr = true
    · rw [if_pos h1] at h
      by_cases h2 : esc = true
      · rw [if_pos h2] at h
        obtain ⟨r', hr', hrc⟩ := Option.map_eq_some'.mp h
        obtain ⟨⟨suf, hrest, hself⟩, hlast⟩ := specTakeObject_decomp rest true false depth r' hr'
        subst hrc
        refine ⟨⟨suf, by rw [List.cons_append, hrest], ?_⟩, ?_⟩
        · rw [specTakeObject, if_pos h1, if_pos h2, hself]
          rfl
        · have hne : r' ≠ [] := by
            intro hn
            rw [hn] at hlast
            exact Option.noConfusion hlast
          cases r' with
          | nil => exact absurd rfl hne
          | cons a t => rw [List.getLast?_cons_cons]; exact hlast
      · rw [if_neg h2] at h
        by_cases h3 : (c == '\\') = true
        · rw [if_pos h3] at h
          obtain ⟨r', hr', hrc⟩ := Option.map_eq_some'.mp h
          obtain ⟨⟨suf, hrest, hself⟩, hlast⟩ :=
            specTakeObject_decomp rest true true depth r' hr'
          subst hrc
          refine ⟨⟨suf, by rw [List.cons_append, hrest], ?_⟩, ?_⟩
          · rw [specTakeObject, if_pos h1, if_neg h2, if_pos h3, hself]
            rfl
          · have hne : r' ≠ [] := by
              intro hn
              rw [hn] at hlast
              exact Option.noConfusion hlast
            cases r' with
            | nil => exact absurd rfl hne
            | cons a t => rw [List.getLast?_cons_cons]; exact hlast
        · rw [if_neg h3] at h
          by_cases h4 : (c == '"') = true
          · rw [if_pos h4] at h
            obtain ⟨r', hr', hrc⟩ := Option.map_eq_some'.mp h
            obtain ⟨⟨suf, hrest, hself⟩, hlast⟩ :=
              specTakeObject_decomp rest false esc depth r' hr'
            subst hrc
            refine ⟨⟨suf, by rw [List.cons_append, hrest], ?_⟩, ?_⟩
            · rw [specTakeObject, if_pos h1, if_neg h2, if_neg h3, if_pos h4, hself]
              rfl
            · have hne : r' ≠ [] := by
                intro hn
                rw [hn] at hlast
                exact Option.noConfusion hlast
              cases r' with
              | nil => exact absurd rfl hne
              | cons a t => rw [List.getLast?_cons_cons]; exact hlast
          · rw [if_neg h4] at h
            obtain ⟨r', hr', hrc⟩ := Option.map_eq_some'.mp h
            obtain ⟨⟨suf, hrest, hself⟩, hlast⟩ :=
              specTakeObject_decomp rest true esc depth r' hr'
            subst hrc
            refine ⟨⟨suf, by rw [List.cons_append, hrest], ?_⟩, ?_⟩
            · rw [specTakeObject, if_pos h1, if_neg h2, if_neg h3, if_neg h4, hself]
              rfl
            · have hne : r' ≠ [] := by
                intro hn
                rw [hn] at hlast
                exact Option.noConfusion hlast
              cases r' with
              | nil => exact absurd rfl hne
              | cons a t => rw [List.getLast?_cons_cons]; exact hlast
    · rw [if_neg h1] at h
      by_cases h5 : (c == '"') = true
      · rw [if_pos h5] at h
        obtain ⟨r', hr', hrc⟩ := Option.map_eq_some'.mp h
        obtain ⟨⟨suf, hrest, hself⟩, hlast⟩ := specTakeObject_decomp rest true esc depth r' hr'
        subst hrc
        refine ⟨⟨suf, by rw [List.cons_append, hrest], ?_⟩, ?_⟩
        · rw [specTakeObject, if_neg h1, if_pos h5, hself]
          rfl
        · have hne : r' ≠ [] := by
            intro hn
            rw [hn] at hlast
            exact Option.noConfusion hlast
          cases r' with
          | nil => exact absurd rfl hne
          | cons a t => rw [List.getLast?_cons_cons]; exact hlast
      · rw [if_neg h5] at h
        by_cases h6 : (c == '\x7b') = true
        · rw [if_pos h6] at h
          obtain ⟨r', hr', hrc⟩ := Option.map_eq_some'.mp h
          obtain ⟨⟨suf, hrest, hself⟩, hlast⟩ :=
            specTakeObject_decomp rest instr esc (depth + 1) r' hr'
          subst hrc
          refine ⟨⟨suf, by rw [List.cons_append, hrest], ?_⟩, ?_⟩
          · rw [specTakeObject, if_neg h1, if_neg h5, if_pos h6, hself]
            rfl
          · have hne : r' ≠ [] := by
              intro hn
              rw [hn] at hlast
              exact Option.noConfusion hlast
            cases r' with
            | nil => exact absurd rfl hne
            | cons a t => rw [List.getLast?_cons_cons]; exact hlast
        · rw [if_neg h6] at h
          by_cases h7 : (c == '\x7d' && decide (depth > 0)) = true
          · rw [if_pos h7] at h
            by_cases h8 : (depth - 1 == 0) = true
            · rw [if_pos h8] at h
              have hr : r = [c] := (Option.some.inj h).symm
              subst hr
              refine ⟨⟨rest, rfl, ?_⟩, ?_⟩
              · rw [specTakeObject, if_neg h1, if_neg h5, if_neg h6, if_pos h7, if_pos h8]
              · have hc : c = '\x7d' := by
                  have hand := (Bool.and_eq_true _ _).mp h7
                  simpa using hand.1
                rw [hc]
                rfl
            · rw [if_neg h8] at h
              obtain ⟨r', hr', hrc⟩ := Option.map_eq_some'.mp h
              obtain ⟨⟨suf, hrest, hself⟩, hlast⟩ :=
                specTakeObject_decomp rest instr esc (depth - 1) r' hr'
              subst hrc
              refine ⟨⟨suf, by rw [List.cons_append, hrest], ?_⟩, ?_⟩
              · rw [specTakeObject, if_neg h1, if_neg h5, if_neg h6, if_pos h7, if_neg h8,
                  hself]
                rfl
              · have hne : r' ≠ [] := by
                  intro hn
                  rw [hn] at hlast
                  exact Option.noConfusion hlast
                cases r' with
                | nil => exact absurd rfl hne
                | cons a t => rw [List.getLast?_cons_cons]; exact hlast
          · rw [if_neg h7] at h
            obtain ⟨r', hr', hrc⟩ := Option.map_eq_some'.mp h
            obtain ⟨⟨suf, hrest, hself⟩, hlast⟩ :=
              specTakeObject_decomp rest instr esc depth r' hr'
            subst hrc
            refine ⟨⟨suf, by rw [List.cons_append, hrest], ?_⟩, ?_⟩
            · rw [specTakeObject, if_neg h1, if_neg h5, if_neg h6, if_neg h7, hself]
              rfl
            · have hne : r' ≠ [] := by
                intro hn
                rw [hn] at hlast
                exact Option.noConfusion hlast
              cases r' with
              | nil => exact absurd rfl hne
              | cons a t => rw [List.getLast?_cons_cons]; exact hlast

/-- The sample input with a backslash-escaped quote inside a string literal
(the escaped quote does not toggle string mode, so the brace after it is
still inside the string and does not terminate the object). -/
def exJsonEscapedQuote : String := "\x7b\x22a\x22:\x22x\\\x22\x7dy\x22\x7d"

/-- C3: for every input string, `extract_first_json_object` returns exactly
what the spec reading computes: the substring that starts at the first
`\x7b` seen outside double-quoted string literals (backslash escapes
tracked, so an escaped quote does not toggle string mode) and ends at the
`\x7d` (inclusive) that returns the brace depth to 0; equivalently, every
returned value splits the input as `pre ++ s ++ suf` where `pre` holds no
unquoted opening brace, `s` starts with `\x7b`, ends with `\x7d`, and
scanning `s` alone returns the whole of `s` (its final `\x7d` is the one
returning the depth to 0); none is returned when no balanced object exists
(an unmatched brace, or no opening brace at all); on the spec samples it
returns the embedded object, a brace inside a string literal does not
terminate early, and an escaped quote is handled as claimed. -/
theorem extract_first_json_object_correct :
    (∀ text : String, Ollama.extract_first_json_object text
        = extract_first_json_object_spec text) ∧
    (∀ text s, Ollama.extract_first_json_object text = some s →
      ∃ pre suf, text.data = pre ++ s.data ++ suf ∧
        specFindStart pre false false = Option.none ∧
        s.data.head? = some '\x7b' ∧ s.data.getLast? = some '\x7d' ∧
        specTakeObject s.data false false 0 = some s.data) ∧
    Ollama.extract_first_json_object exJsonProse = some exJsonObject ∧
    Ollama.extract_first_json_object exJsonBraceInString = some exJsonBraceInString ∧
    Ollama.extract_first_json_object exJsonEscapedQuote = some exJsonEscapedQuote ∧
    Ollama.extract_first_json_object ("\x7b") = Option.none ∧
    Ollama.extract_first_json_object ("prefix \x7b\x22a\x22:1") = Option.none ∧
    (∀ text : String, (∀ c ∈ text.data, c ≠ '\x7b') →
      Ollama.extract_first_json_object text = Option.none) := by
  have hmain : ∀ text : String, Ollama.extract_first_json_object text
      = extract_first_json_object_spec text := by
    intro text
    exact extractAux_eq_spec text.data text.data 0 false false (List.drop_zero _).symm
      (fun h => Bool.noConfusion h)
  refine ⟨hmain, ?_, by rfl, by rfl, by rfl, by rfl, by rfl, ?_⟩
  · intro text s hs
    rw [hmain text] at hs
    unfold extract_first_json_object_spec at hs
    cases hf : specFindStart text.data false false with
    | none =>
      rw [hf] at hs
      exact Option.noConfusion hs
    | some r =>
      rw [hf] at hs
      simp only [Option.some_bind] at hs
      cases ht : specTakeObject r false false 0 with
      | none =>
        rw [ht] at hs
        exact Option.noConfusion hs
      | some l =>
        rw [ht] at hs
        have hsl : s = String.mk l := (Option.some.inj hs).symm
        have hsd : s.data = l := by rw [hsl]
        obtain ⟨⟨pre, hcs, hnone⟩, hheadr⟩ := specFindStart_decomp text.data false false r hf
        obtain ⟨⟨suf, hr, hself⟩, hlast⟩ := specTakeObject_decomp r false false 0 l ht
        refine ⟨pre, suf, ?_, hnone, ?_, ?_, ?_⟩
        · rw [hcs, hr, hsd, List.append_assoc]
        · rw [hsd]
          have hlne : l ≠ [] := by
            intro hn
            rw [hn] at hlast
            exact Option.noConfusion hlast
          cases l with
          | nil => exact absurd rfl hlne
          | cons a t =>
            rw [hr] at hheadr
            rw [List.cons_append, List.head?_cons] at hheadr
            rw [List.head?_cons]
            exact hheadr
        · rw [hsd]
          exact hlast
        · rw [hsd]
          exact hself
  · intro text h
    exact extractAux_none_of_no_brace text.data text.data 0 0 false false h

/-- Witness for C3 at concrete inputs. -/
theorem extract_first_json_object_correct_witness :
    (∃ pre suf, exJsonProse.data = pre ++ exJsonObject.data ++ suf ∧
      specFindStart pre false false = Option.none ∧
      exJsonObject.data.head? = some '\x7b' ∧ exJsonObject.data.getLast? = some '\x7d' ∧
      specTakeObject exJsonObject.data false false 0 = some exJsonObject.data) ∧
    Ollama.extract_first_json_object ("no json here") = Option.none :=
  ⟨extract_first_json_object_correct.2.1 exJsonProse exJsonObject (by rfl),
   extract_first_json_object_correct.2.2.2.2.2.2.2 ("no json here") (by decide)⟩

/-- Is the value a Python dict? -/
def pyIsDict : PyVal → Bool
  | .dict _ => true
  | _ => false

theorem pyIsDict_exists (v : PyVal) : pyIsDict v = true ↔ ∃ d, v = PyVal.dict d := by
  cases v <;> simp [pyIsDict]

theorem parse_repair_eq (loads : String → Option PyVal) (text : String) :
    Ollama.parse_json_object_with_repair loads text =
      (if pyStripS text == ("") then (Option.none, false, ("EmptyOutput"))
       else
         match loads (pyStripS text) with
         | some parsed =>
           if pyIsDict parsed then (some parsed, true, (""))
           else (Option.none, false, ("InvalidJSON"))
         | Option.none =>
           match Ollama.extract_first_json_object (pyStripS text) with
           | Option.none => (Option.none, false, ("ExtractionFailure"))
           | some candidate =>
             match loads candidate with
             | Option.none => (Option.none, false, ("InvalidJSON"))
             | some parsed =>
               if pyIsDict parsed then (some parsed, true, (""))
               else (Option.none, false, ("InvalidJSON"))) := by
  unfold Ollama.parse_json_object_with_repair
  by_cases he : (pyStripS text == ("")) = true
  · rw [if_pos he, if_pos he]
  · rw [if_neg he, if_neg he]
    cases hl : loads (pyStripS text) with
    | some v => cases v <;> simp [pyIsDict]
    | none =>
      cases hx : Ollama.extract_first_json_object (pyStripS text) with
      | none => rfl
      | some c =>
        cases hlc : loads c with
        | none => simp [hlc]
        | some v => cases v <;> simp [hlc, pyIsDict]

theorem triple_ne_of_kind {a a' : Option PyVal} {b b' : Bool} {s s' : String} (h : s ≠ s') :
    (a, b, s) ≠ (a', b', s') := fun hh => h (congrArg (fun t => t.2.2) hh)

theorem triple_ne_of_fst {a a' : Option PyVal} {b b' : Bool} {s s' : String} (h : a ≠ a') :
    (a, b, s) ≠ (a', b', s') := fun hh => h (congrArg (fun t => t.1) hh)

/-- C4: for every `loads` behaviour and input string,
`parse_json_object_with_repair` never raises and returns exactly one of:
`EmptyOutput` iff the trimmed text is empty; a success carrying an object,
either from the direct strict parse or from strict-parsing the first
extracted balanced-object substring; `ExtractionFailure` iff the strict
parse fails and no embedded object is found; and `InvalidJSON` iff a strict
parse produced a non-object value or the extracted substring fails to
parse. -/
theorem parse_json_object_with_repair_classification
    (loads : String → Option PyVal) (text : String) :
    (Ollama.parse_json_object_with_repair loads text = (Option.none, false, ("EmptyOutput")) ↔
      pyStripS text = ("")) ∧
    (∀ v, Ollama.parse_json_object_with_repair loads text = (some v, true, ("")) →
      (∃ d, v = PyVal.dict d) ∧
        (loads (pyStripS text) = some v ∨ (loads (pyStripS text) = Option.none ∧
          ∃ c, Ollama.extract_first_json_object (pyStripS text) = some c ∧ loads c = some v))) ∧
    (Ollama.parse_json_object_with_repair loads text = (Option.none, false, ("ExtractionFailure")) ↔
      pyStripS text ≠ ("") ∧ loads (pyStripS text) = Option.none ∧
        Ollama.extract_first_json_object (pyStripS text) = Option.none) ∧
    (Ollama.parse_json_object_with_repair loads text = (Option.none, false, ("InvalidJSON")) ↔
      pyStripS text ≠ ("") ∧
      ((∃ v, loads (pyStripS text) = some v ∧ pyIsDict v = false) ∨
       (loads (pyStripS text) = Option.none ∧
        ∃ c, Ollama.extract_first_json_object (pyStripS text) = some c ∧
          (loads c = Option.none ∨ ∃ v, loads c = some v ∧ pyIsDict v = false)))) ∧
    (Ollama.parse_json_object_with_repair loads text = (Option.none, false, ("EmptyOutput")) ∨
     Ollama.parse_json_object_with_repair loads text = (Option.none, false, ("ExtractionFailure")) ∨
     Ollama.parse_json_object_with_repair loads text = (Option.none, false, ("InvalidJSON")) ∨
     ∃ v, Ollama.parse_json_object_with_repair loads text = (some v, true, (""))) := by
  have heq := parse_repair_eq loads text
  by_cases he : pyStripS text = ("")
  · have hr : Ollama.parse_json_object_with_repair loads text =
        (Option.none, false, ("EmptyOutput")) := by
      rw [heq, if_pos (by simpa using he)]
    refine ⟨iff_of_true hr he, ?_, ?_, ?_, Or.inl hr⟩
    · intro v hv
      rw [hr] at hv
      exact absurd hv.symm (triple_ne_of_fst (by simp))
    · refine iff_of_false (hr ▸ triple_ne_of_kind (by decide)) ?_
      rintro ⟨hne, -⟩
      exact hne he
    · refine iff_of_false (hr ▸ triple_ne_of_kind (by decide)) ?_
      rintro ⟨hne, -⟩
      exact hne he
  · cases hl : loads (pyStripS text) with
    | some v =>
      by_cases hd : pyIsDict v = true
      · have hr : Ollama.parse_json_object_with_repair loads text = (some v, true, ("")) := by
          rw [heq, if_neg (by simpa using he), hl]
          simp [hd]
        refine ⟨?_, ?_, ?_, ?_, Or.inr (Or.inr (Or.inr ⟨v, hr⟩))⟩
        · exact iff_of_false (hr ▸ triple_ne_of_fst (by simp)) (fun h => he h)
        · intro w hw
          rw [hr] at hw
          have hvw : v = w := by
            have hp := congrArg (fun t => t.1) hw
            simpa using hp
          subst hvw
          exact ⟨(pyIsDict_exists v).mp hd, Or.inl rfl⟩
        · refine iff_of_false (hr ▸ triple_ne_of_fst (by simp)) ?_
          rintro ⟨-, hn, -⟩
          exact Option.noConfusion hn
        · refine iff_of_false (hr ▸ triple_ne_of_fst (by simp)) ?_
          rintro ⟨-, ⟨w, hw, hwnd⟩ | ⟨hn, -⟩⟩
          · obtain rfl := Option.some.inj hw
            rw [hd] at hwnd
            exact Bool.noConfusion hwnd
          · exact Option.noConfusion hn
      · have hdf : pyIsDict v = false := Bool.eq_false_iff.mpr hd
        have hr : Ollama.parse_json_object_with_repair loads text =
            (Option.none, false, ("InvalidJSON")) := by
          rw [heq, if_neg (by simpa using he), hl]
          simp [hdf]
        refine ⟨?_, ?_, ?_, iff_of_true hr ⟨he, Or.inl ⟨v, rfl, hdf⟩⟩,
          Or.inr (Or.inr (Or.inl hr))⟩
        · exact iff_of_false (hr ▸ triple_ne_of_kind (by decide)) (fun h => he h)
        · intro w hw
          rw [hr] at hw
          exact absurd hw.symm (triple_ne_of_fst (by simp))
        · refine iff_of_false (hr ▸ triple_ne_of_kind (by decide)) ?_
          rintro ⟨-, hn, -⟩
          exact Option.noConfusion hn
    | none =>
      cases hx : Ollama.extract_first_json_object (pyStripS text) with
      | none =>
        have hr : Ollama.parse_json_object_with_repair loads text =
            (Option.none, false, ("ExtractionFailure")) := by
          rw [heq, if_neg (by simpa using he), hl, hx]
        refine ⟨?_, ?_, iff_of_true hr ⟨he, rfl, rfl⟩, ?_, Or.inr (Or.inl hr)⟩
        · exact iff_of_false (hr ▸ triple_ne_of_kind (by decide)) (fun h => he h)
        · intro w hw
          rw [hr] at hw
          exact absurd hw.symm (triple_ne_of_fst (by simp))
        · refine iff_of_false (hr ▸ triple_ne_of_kind (by decide)) ?_
          rintro ⟨-, ⟨w, hw, -⟩ | ⟨-, c, hc, -⟩⟩
          · exact Option.noConfusion hw
          · exact Option.noConfusion hc
      | some c =>
        cases hlc : loads c with
        | none =>
          have hr : Ollama.parse_json_object_with_repair loads text =
              (Option.none, false, ("InvalidJSON")) := by
            rw [heq, if_neg (by simpa using he), hl, hx]
            simp [hlc]
          refine ⟨?_, ?_, ?_, iff_of_true hr ⟨he, Or.inr ⟨rfl, c, rfl, Or.inl hlc⟩⟩,
            Or.inr (Or.inr (Or.inl hr))⟩
          · exact iff_of_false (hr ▸ triple_ne_of_kind (by decide)) (fun h => he h)
          · intro w hw
            rw [hr] at hw
            exact absurd hw.symm (triple_ne_of_fst (by simp))
          · refine iff_of_false (hr ▸ triple_ne_of_kind (by decide)) ?_
            rintro ⟨-, -, hxn⟩
            exact Option.noConfusion hxn
        | some v =>
          by_cases hd : pyIsDict v = true
          · have hr : Ollama.parse_json_object_with_repair loads text =
                (some v, true, ("")) := by
              rw [heq, if_neg (by simpa using he), hl, hx]
              simp [hlc, hd]
            refine ⟨?_, ?_, ?_, ?_, Or.inr (Or.inr (Or.inr ⟨v, hr⟩))⟩
            · exact iff_of_false (hr ▸ triple_ne_of_fst (by simp)) (fun h => he h)
            · intro w hw
              rw [hr] at hw
              have hvw : v = w := by
                have hp := congrArg (fun t => t.1) hw
                simpa using hp
              subst hvw
              exact ⟨(pyIsDict_exists v).mp hd, Or.inr ⟨rfl, c, rfl, hlc⟩⟩
            · refine iff_of_false (hr ▸ triple_ne_of_fst (by simp)) ?_
              rintro ⟨-, -, hxn⟩
              exact Option.noConfusion hxn
            · refine iff_of_false (hr ▸ triple_ne_of_fst (by simp)) ?_
              rintro ⟨-, ⟨w, hw, -⟩ | ⟨-, c2, hc2, hbad⟩⟩
              · exact Option.noConfusion hw
              · obtain rfl := Option.some.inj hc2
                rcases hbad with hbad | ⟨w, hw, hwnd⟩
                · rw [hlc] at hbad
                  exact Option.noConfusion hbad
                · rw [hlc] at hw
                  obtain rfl := Option.some.inj hw
                  rw [hd] at hwnd
                  exact Bool.noConfusion hwnd
          · have hdf : pyIsDict v = false := Bool.eq_false_iff.mpr hd
            have hr : Ollama.parse_json_object_with_repair loads text =
                (Option.none, false, ("InvalidJSON")) := by
              rw [heq, if_neg (by simpa using he), hl, hx]
              simp [hlc, hdf]
            refine ⟨?_, ?_, ?_,
              iff_of_true hr ⟨he, Or.inr ⟨rfl, c, rfl, Or.inr ⟨v, hlc, hdf⟩⟩⟩,
              Or.inr (Or.inr (Or.inl hr))⟩
            · exact iff_of_false (hr ▸ triple_ne_of_kind (by decide)) (fun h => he h)
            · intro w hw
              rw [hr] at hw
              exact absurd hw.symm (triple_ne_of_fst (by simp))
            · refine iff_of_false (hr ▸ triple_ne_of_kind (by decide)) ?_
              rintro ⟨-, -, hxn⟩
              exact Option.noConfusion hxn

/-- A constant `json.loads` model, for concrete instantiation. -/
def constLoads (v : Option PyVal) : String → Option PyVal := fun _ => v

/-- Witness for C4: a loads that yields an object gives success on the
direct-parse path, and a loads that always fails classifies brace-free text
as `ExtractionFailure`. -/
theorem parse_json_object_with_repair_classification_witness :
    ((∃ d, PyVal.dict PyDict.nil = PyVal.dict d) ∧
      (constLoads (some (PyVal.dict PyDict.nil)) (pyStripS ("x")) =
          some (PyVal.dict PyDict.nil) ∨
        (constLoads (some (PyVal.dict PyDict.nil)) (pyStripS ("x")) = Option.none ∧
          ∃ c, Ollama.extract_first_json_object (pyStripS ("x")) = some c ∧
            constLoads (some (PyVal.dict PyDict.nil)) c = some (PyVal.dict PyDict.nil)))) ∧
    Ollama.parse_json_object_with_repair (constLoads Option.none) ("no json here") =
      (Option.none, false, ("ExtractionFailure")) :=
  ⟨(parse_json_object_with_repair_classification
      (constLoads (some (PyVal.dict PyDict.nil))) ("x")).2.1 (PyVal.dict PyDict.nil) (by rfl),
   ((parse_json_object_with_repair_classification
      (constLoads Option.none) ("no json here")).2.2.1).mpr ⟨by decide, rfl, by rfl⟩⟩

/-! ## Theorems about signal coercion (C9) -/

/-- Modelled from the spec: the string items of an input sequence, as in
"keep only non-empty string items from an input sequence". -/
def stringItems : PyList → List String
  | .nil => []
  | .cons (PyVal.str s) t => s :: stringItems t
  | .cons _ t => stringItems t

/-- C9 counterexample: on the payload `{"error_codes": [809]}` the coerced
`error_codes` is `["809"]`, although the input sequence has no string items
at all — a non-string item appears (stringified) in the result, so the
coercion does not keep only the non-empty string items. -/
theorem coerce_signal_list_counterexample :
    PyDict.get? (Rules.coerce_ticket_signals (pyDictOf [(("error_codes"),
      PyVal.list (pyListOf [PyVal.int 809]))])) ("error_codes") =
        some (strListVal [("809")]) ∧
    stringItems (pyListOf [PyVal.int 809]) = ([] : List String) ∧
    ¬(("809") ∈ stringItems (pyListOf [PyVal.int 809])) :=
  ⟨rfl, rfl, by decide⟩

/-- The loop of `_coerce_signal_list` stringifies and strips every item and
drops the empty results. -/
theorem coerceSignalListAux_eq : ∀ xs : PyList, Rules.coerceSignalListAux xs =
    (xs.toList.map (fun item => pyStripS (pyStr item))).filter
      (fun text => !(text == ("")))
  | PyList.nil => rfl
  | PyList.cons h t => by
    simp only [Rules.coerceSignalListAux, PyList.toList, List.map_cons, List.filter_cons]
    by_cases hh : (pyStripS (pyStr h) == ("")) = true
    · simp [hh, coerceSignalListAux_eq t]
    · have hh2 : (pyStripS (pyStr h) == ("")) = false := Bool.eq_false_iff.mpr hh
      rw [coerceSignalListAux_eq t]
      simp [hh2]

/-- C9 (amended): `coerce_ticket_signals` is total by construction, and its
`error_codes` entry holds, in order, the stringified-and-stripped form
`str(item).strip()` of every item of the input sequence whose stringified
form is non-empty — string items are kept stripped, non-string items appear
in stringified form — and any non-list input yields the empty list. -/
theorem coerce_ticket_signals_error_codes_amended :
    (∀ payload : PyDict, PyDict.get? (Rules.coerce_ticket_signals payload) ("error_codes") =
      some (strListVal (Rules._coerce_signal_list (payload.getd ("error_codes") PyVal.none)))) ∧
    (∀ v : PyVal, Rules._coerce_signal_list v =
      match v with
      | PyVal.list xs =>
        (xs.toList.map (fun item => pyStripS (pyStr item))).filter
          (fun text => !(text == ("")))
      | _ => []) := by
  refine ⟨fun payload => rfl, fun v => ?_⟩
  cases v with
  | list xs => exact coerceSignalListAux_eq xs
  | none => rfl
  | bool b => rfl
  | int n => rfl
  | float q => rfl
  | str s => rfl
  | dict d => rfl

/-! ## Theorems about canonicalization (C7) -/

theorem mem_dedupeAux : ∀ (seen l : List String) (x : String), x ∈ dedupeAux seen l → x ∈ l := by
  intro seen l
  induction l generalizing seen with
  | nil => intro x hx; simp [dedupeAux] at hx
  | cons v vs ih =>
    intro x hx
    simp only [dedupeAux] at hx
    by_cases hv : seen.contains v
    · rw [if_pos hv] at hx
      exact List.mem_cons_of_mem v (ih seen x hx)
    · rw [if_neg hv] at hx
      rcases List.mem_cons.mp hx with h | h
      · exact h ▸ List.mem_cons_self v vs
      · exact List.mem_cons_of_mem v (ih (v :: seen) x h)

theorem mem_pyDedupe (l : List String) (x : String) (h : x ∈ pyDedupe l) : x ∈ l :=
  mem_dedupeAux [] l x h

/-- A successful canonical mapping always lands in the allowed vocabulary. -/
theorem map_to_canonical_mem (field : String) (allowed : List String) (c : String)
    (h : Rules._map_to_canonical field allowed = some c) : c ∈ allowed := by
  unfold Rules._map_to_canonical at h
  by_cases hc : allowed.contains field
  · rw [if_pos hc] at h
    obtain rfl := Option.some.inj h
    exact List.mem_of_elem_eq_true hc
  · rw [if_neg hc] at h
    have hp := List.find?_some h
    exact List.mem_of_elem_eq_true hp

/-- C7: every element returned by `normalize_missing_fields_to_canonical`
is either in the allowed vocabulary (the field itself or a synonym-table
target) or, when strict mode is off, one of the raw candidate fields — never
a value absent from both; with strict mode on, unmapped fields are dropped,
so every returned element is in the vocabulary. -/
theorem normalize_missing_fields_canonical_closure
    (fields allowed : List String) (strict : Bool) :
    (∀ x ∈ Rules.normalize_missing_fields_to_canonical fields allowed strict,
      x ∈ allowed ∨ (strict = false ∧ x ∈ fields)) ∧
    (strict = true → ∀ x ∈ Rules.normalize_missing_fields_to_canonical fields allowed strict,
      x ∈ allowed) := by
  have hmain : ∀ x ∈ Rules.normalize_missing_fields_to_canonical fields allowed strict,
      x ∈ allowed ∨ (strict = false ∧ x ∈ fields) := by
    intro x hx
    unfold Rules.normalize_missing_fields_to_canonical at hx
    have hx2 := mem_pyDedupe _ x hx
    obtain ⟨f, hf, hfx⟩ := List.mem_filterMap.mp hx2
    have hffields : f ∈ fields := mem_pyDedupe _ f hf
    cases hc : Rules._map_to_canonical f allowed with
    | some c =>
      rw [hc] at hfx
      obtain rfl := Option.some.inj hfx
      exact Or.inl (map_to_canonical_mem f allowed c hc)
    | none =>
      rw [hc] at hfx
      by_cases hs : strict = true
      · rw [if_pos hs] at hfx
        exact Option.noConfusion hfx
      · rw [if_neg hs] at hfx
        obtain rfl := Option.some.inj hfx
        exact Or.inr ⟨Bool.eq_false_iff.mpr hs, hffields⟩
  refine (fun hmain => ⟨hmain, fun hs x hx => ?_⟩) hmain
  rcases hmain x hx with h | ⟨hfalse, -⟩
  · exact h
  · rw [hs] at hfalse
    exact Bool.noConfusion hfalse

/-- Witness for C7 at a concrete canonicalization. -/
theorem normalize_missing_fields_canonical_closure_witness :
    ("error_message_or_screenshot") ∈ [("error_message_or_screenshot")] ∨
      (true = false ∧ ("error_message_or_screenshot") ∈ [("error_message")]) :=
  (normalize_missing_fields_canonical_closure [("error_message")]
    [("error_message_or_screenshot")] true).1 ("error_message_or_screenshot") (by decide)

/-! ## Theorems about aggregation (C10) -/

/-- C10: on an empty latency sample list `_percentile` returns `0.0` for
every percentile rather than failing or signalling absence, so a summary of
a run with no numeric latency data (neither in events nor in results)
reports `p50 = p95 = 0.0`, and the `latency_p95` gate check then passes
against any positive threshold even though no latency was measured. -/
theorem summarize_empty_latency_gate :
    (∀ p : Int, Summarize._percentile [] p = 0) ∧
    (∀ (events results : List PyVal) (limits : Summarize.GateLimits),
      events.filterMap Summarize.latencyOf = [] →
      results.filterMap Summarize.latencyOf = [] →
      0 < limits.latency_p95_ms_max →
      Summarize.summarize_latency events results = (0, 0) ∧
      ∀ ca sv : Rat, (("latency_p95_ms"), true) ∈
        (Summarize.evaluate_gates ⟨ca, sv, (Summarize.summarize_latency events results).1,
          (Summarize.summarize_latency events results).2⟩ limits).2) := by
  have hemp : ∀ p : Int, Summarize._percentile [] p = 0 := fun p => rfl
  refine ⟨hemp, ?_⟩
  intro events results limits h1 h2 hpos
  have hsamp : Summarize.latency_samples events results = [] := by
    unfold Summarize.latency_samples
    rw [h1]
    simpa using h2
  have hlat : Summarize.summarize_latency events results = (0, 0) := by
    unfold Summarize.summarize_latency
    rw [hsamp]
    rfl
  refine ⟨hlat, ?_⟩
  intro ca sv
  rw [hlat]
  unfold Summarize.evaluate_gates
  have hchk : decide ((0 : Rat) ≤ limits.latency_p95_ms_max) = true :=
    decide_eq_true (le_of_lt hpos)
  simp only [hchk]
  simp

/-- Witness for C10 at a concrete run with no numeric latency data. -/
theorem summarize_empty_latency_gate_witness :
    Summarize.summarize_latency [PyVal.dict (pyDictOf [])] [] = (0, 0) ∧
    (("latency_p95_ms"), true) ∈ (Summarize.evaluate_gates
      ⟨1, 1, (Summarize.summarize_latency [PyVal.dict (pyDictOf [])] []).1,
        (Summarize.summarize_latency [PyVal.dict (pyDictOf [])] []).2⟩
      Summarize.DEFAULT_GATES).2 :=
  ⟨(summarize_empty_latency_gate.2 [PyVal.dict (pyDictOf [])] [] Summarize.DEFAULT_GATES
      (by rfl) (by rfl) (by decide)).1,
   (summarize_empty_latency_gate.2 [PyVal.dict (pyDictOf [])] [] Summarize.DEFAULT_GATES
      (by rfl) (by rfl) (by decide)).2 1 1⟩

theorem hallucination_reasons_mem (actual : PyVal) :
    ∀ x ∈ (Scoring._hallucination_checks actual).2,
      x = ("missing_fields_without_clarification") ∨
        x = ("clarification_without_missing_fields") := by
  intro x hx
  cases actual with
  | dict a =>
    simp only [Scoring._hallucination_checks] at hx
    rcases List.mem_append.mp hx with h | h
    · split_ifs at h with hc
      · exact Or.inl (List.mem_singleton.mp h)
      · simp at h
    · split_ifs at h with hc
      · exact Or.inr (List.mem_singleton.mp h)
      · simp at h
  | none => simp [Scoring._hallucination_checks] at hx
  | bool b => simp [Scoring._hallucination_checks] at hx
  | int n => simp [Scoring._hallucination_checks] at hx
  | float q => simp [Scoring._hallucination_checks] at hx
  | str s => simp [Scoring._hallucination_checks] at hx
  | list xs => simp [Scoring._hallucination_checks] at hx

/-- C2: `score_case` sets `overall_pass` true iff the actual value is an
object, the schema is valid, all four graded fields (category, priority,
device, needs_clarification) equal the expected values, and no hallucination
was detected; unknown missing-field values produce only the warning
`unknown_missing_fields`, which never appears in `failure_reasons`, and the
allowed vocabulary never changes `overall_pass` or `failure_reasons`. -/
theorem score_case_overall_pass_spec
    (expected : PyDict) (actual : PyVal) (input_text : String) (allowed : List String) :
    ((Scoring.score_case expected actual input_text allowed).overall_pass =
      (pyIsDict actual && (Schema.validate_required_fields actual).1 &&
       Scoring._field_correct expected actual ("category") &&
       Scoring._field_correct expected actual ("priority") &&
       Scoring._field_correct expected actual ("device") &&
       Scoring._field_correct expected actual ("needs_clarification") &&
       !(Scoring._hallucination_checks actual).1)) ∧
    ((Scoring.score_case expected actual input_text allowed).warnings =
      if Scoring._find_unknown_missing_fields actual allowed = [] then []
      else [("unknown_missing_fields")]) ∧
    (("unknown_missing_fields") ∉
      (Scoring.score_case expected actual input_text allowed).failure_reasons) ∧
    (∀ allowed2 : List String,
      (Scoring.score_case expected actual input_text allowed).overall_pass =
        (Scoring.score_case expected actual input_text allowed2).overall_pass ∧
      (Scoring.score_case expected actual input_text allowed).failure_reasons =
        (Scoring.score_case expected actual input_text allowed2).failure_reasons) := by
  refine ⟨?_, ?_, ?_, fun allowed2 => ⟨rfl, rfl⟩⟩
  · cases actual <;> rfl
  · have hw : (Scoring.score_case expected actual input_text allowed).warnings =
        (if (Scoring._find_unknown_missing_fields actual allowed).isEmpty then []
         else [("unknown_missing_fields")]) := rfl
    rw [hw]
    cases Scoring._find_unknown_missing_fields actual allowed with
    | nil => rfl
    | cons a l => simp
  · intro hmem
    have hfr : (Scoring.score_case expected actual input_text allowed).failure_reasons =
        pyDedupe
          ((if (match actual with | PyVal.dict _ => true | _ => false) then []
            else [("invalid_json")]) ++
           (if (if (match actual with | PyVal.dict _ => true | _ => false) then
                  Schema.validate_required_fields actual
                else (false, [("Output must be a JSON object")])).1 then []
            else [("schema_error")]) ++
           (if Scoring._field_correct expected actual ("category") then []
            else [("wrong_category")]) ++
           (if Scoring._field_correct expected actual ("priority") then []
            else [("wrong_priority")]) ++
           (if Scoring._field_correct expected actual ("device") then []
            else [("wrong_device")]) ++
           (if Scoring._field_correct expected actual ("needs_clarification") then []
            else [("wrong_needs_clarification")]) ++
           (if (Scoring._hallucination_checks actual).1 then
              [("hallucination")] ++ (Scoring._hallucination_checks actual).2
            else []) ++
           (if Scoring._is_device_extraction_failure actual input_text then
              [("extraction_failure_device_unknown")]
            else [])) := rfl
    rw [hfr] at hmem
    have hbase := mem_pyDedupe _ _ hmem
    simp only [List.append_assoc, List.mem_append] at hbase
    rcases hbase with h | h | h | h | h | h | h | h <;>
      [skip; skip; skip; skip; skip; skip; skip; skip]
    · split_ifs at h <;> simp_all
    · split_ifs at h <;> simp_all
    · split_ifs at h <;> simp_all
    · split_ifs at h <;> simp_all
    · split_ifs at h <;> simp_all
    · split_ifs at h <;> simp_all
    · split_ifs at h with hcnd
      · rcases List.mem_cons.mp h with h2 | h2
        · exact absurd h2 (by decide)
        · rcases hallucination_reasons_mem actual _ h2 with h3 | h3 <;>
            exact absurd h3 (by decide)
      · simp at h
    · split_ifs at h <;> simp_all

/-- A concrete expected record for the scoring witness. -/
def scoreExpectedEx : PyDict := pyDictOf
  [(("category"), PyVal.str ("Access")), (("priority"), PyVal.str ("P3")),
   (("device"), PyVal.str ("Laptop")), (("needs_clarification"), PyVal.bool true),
   (("missing_fields"), strListVal [("employee_email")]),
   (("summary"), PyVal.str ("Need email to continue."))]

/-- A concrete actual record (with an invented missing-field name) for the
scoring witness. -/
def scoreActualEx : PyVal := PyVal.dict (pyDictOf
  [(("category"), PyVal.str ("Access")), (("priority"), PyVal.str ("P3")),
   (("device"), PyVal.str ("Laptop")), (("needs_clarification"), PyVal.bool true),
   (("missing_fields"), strListVal [("invented_field_name")]),
   (("summary"), PyVal.str ("Need email to continue."))])

/-- Witness for C2 at a concrete scored case whose only anomaly is an
unknown missing-field value. -/
theorem score_case_overall_pass_spec_witness :
    (("unknown_missing_fields") ∉
      (Scoring.score_case scoreExpectedEx scoreActualEx ("Please help")
        [("employee_email")]).failure_reasons) ∧
    (Scoring.score_case scoreExpectedEx scoreActualEx ("Please help")
        [("employee_email")]).overall_pass =
      (pyIsDict scoreActualEx &&
       (Schema.validate_required_fields scoreActualEx).1 &&
       Scoring._field_correct scoreExpectedEx scoreActualEx ("category") &&
       Scoring._field_correct scoreExpectedEx scoreActualEx ("priority") &&
       Scoring._field_correct scoreExpectedEx scoreActualEx ("device") &&
       Scoring._field_correct scoreExpectedEx scoreActualEx ("needs_clarification") &&
       !(Scoring._hallucination_checks scoreActualEx).1) :=
  ⟨(score_case_overall_pass_spec scoreExpectedEx scoreActualEx ("Please help")
      [("employee_email")]).2.2.1,
   (score_case_overall_pass_spec scoreExpectedEx scoreActualEx ("Please help")
      [("employee_email")]).1⟩

/-! ## Theorems about the classification engine (C1, C8) -/

/-- C1: for every signals dict, input text, allowed vocabulary and strict
flag, the triage output built by `build_output_from_signals` satisfies the
consistency law: `needs_clarification` is true iff `missing_fields` is
non-empty. -/
theorem build_output_consistency_law
    (signals : PyDict) (input_text : String) (allowed : List String) (strict : Bool) :
    ((Rules.build_output_from_signals signals input_text allowed strict).1.needs_clarification
        = true) ↔
      (Rules.build_output_from_signals signals input_text allowed strict).1.missing_fields
        ≠ [] := by
  simp only [Rules.build_output_from_signals]
  generalize Rules.infer_missing_fields signals input_text allowed strict = m
  generalize Rules.infer_needs_clarification signals input_text m
    (Rules.infer_category signals input_text) = n
  rcases m with _ | ⟨x, xs⟩ <;> cases n <;> simp

/-- The lost-phone scenario input text. -/
def lostPhoneText : String := "I lost my phone and it has company email on it."

theorem lost_phone_category (signals : PyDict) :
    Rules.infer_category signals lostPhoneText = ("Security") := rfl

theorem lost_phone_device (device_hint : String) :
    Rules.infer_device device_hint lostPhoneText = ("Unknown") := rfl

theorem lost_phone_needs (signals : PyDict) :
    Rules.infer_needs_clarification signals lostPhoneText
      [("device_type"), ("phone_number_or_asset_id"), ("last_known_time")] ("Security")
      = true := rfl


theorem lost_phone_search_with_summary (x : String) :
    reSearch Rules._LOST_DEVICE_RE (pyLower (lostPhoneText ++ (" ") ++ x)) = true := by
  have hdata : (pyLower (lostPhoneText ++ (" ") ++ x)).data =
      (pyLower lostPhoneText).data ++ (' ' :: (pyLower x).data) := by
    show ((lostPhoneText ++ (" ") ++ x).data.map Char.toLower) =
      (lostPhoneText.data.map Char.toLower) ++ (' ' :: (x.data.map Char.toLower))
    have h1 : (lostPhoneText ++ (" ") ++ x).data =
        lostPhoneText.data ++ (' ' :: x.data) := rfl
    rw [h1, List.map_append]
    rfl
  show searchA Rules._LOST_DEVICE_RE (pyLower (lostPhoneText ++ (" ") ++ x)).data none = true
  rw [hdata]
  refine searchA_append Rules._LOST_DEVICE_RE (' ' :: (pyLower x).data) (by rfl)
    (pyLower lostPhoneText).data none ?_
  decide

theorem lost_phone_priority (signals : PyDict) :
    Rules.infer_priority signals lostPhoneText = ("P1") := by
  simp only [Rules.infer_priority]
  rw [lost_phone_category signals]
  rw [lost_phone_search_with_summary (Rules._signal_text signals ("summary"))]
  simp

theorem lost_phone_canon3 (allowed : List String) (strict : Bool)
    (h : (("device_type") ∈ allowed ∧ ("phone_number_or_asset_id") ∈ allowed ∧
      ("last_known_time") ∈ allowed) ∨ strict = false) :
    Rules.normalize_missing_fields_to_canonical
      [("device_type"), ("phone_number_or_asset_id"), ("last_known_time")] allowed strict =
      [("device_type"), ("phone_number_or_asset_id"), ("last_known_time")] := by
  have hmap : ∀ f ∈ [("device_type"), ("phone_number_or_asset_id"), ("last_known_time")],
      (match Rules._map_to_canonical f allowed with
       | some canonical => some canonical
       | Option.none => if strict then Option.none else some f) = some f := by
    intro f hf
    by_cases hc : allowed.contains f
    · have hm : Rules._map_to_canonical f allowed = some f := by
        unfold Rules._map_to_canonical
        rw [if_pos hc]
      rw [hm]
    · have hm : Rules._map_to_canonical f allowed = Option.none := by
        unfold Rules._map_to_canonical
        rw [if_neg hc]
        fin_cases hf <;> rfl
      rw [hm]
      rcases h with ⟨ha, hb, hcc⟩ | hs
      · exfalso
        apply hc
        fin_cases hf
        · exact List.elem_eq_true_of_mem ha
        · exact List.elem_eq_true_of_mem hb
        · exact List.elem_eq_true_of_mem hcc
      · rw [hs]
        rfl
  unfold Rules.normalize_missing_fields_to_canonical
  have hdedup : pyDedupe [("device_type"), ("phone_number_or_asset_id"), ("last_known_time")] =
      [("device_type"), ("phone_number_or_asset_id"), ("last_known_time")] := rfl
  rw [hdedup]
  simp only [List.filterMap_cons, List.filterMap_nil]
  rw [hmap ("device_type") (by simp), hmap ("phone_number_or_asset_id") (by simp),
    hmap ("last_known_time") (by simp)]
  rfl

theorem lost_phone_missing_fields (signals : PyDict) (allowed : List String) (strict : Bool)
    (h : (("device_type") ∈ allowed ∧ ("phone_number_or_asset_id") ∈ allowed ∧
      ("last_known_time") ∈ allowed) ∨ strict = false) :
    Rules.infer_missing_fields signals lostPhoneText allowed strict =
      [("device_type"), ("phone_number_or_asset_id"), ("last_known_time")] := by
  simp only [Rules.infer_missing_fields]
  rw [lost_phone_category signals]
  have hcond : ((("Security") == ("Security")) &&
      Rules._is_lost_device_security (pyLower lostPhoneText)) = true := by rfl
  rw [if_pos hcond]
  exact lost_phone_canon3 allowed strict h

/-- C8: for the lost-phone input text and every coerced TicketSignals value,
the classification engine produces category Security, priority P1, device
Unknown, missing fields exactly device_type / phone_number_or_asset_id /
last_known_time, and needs_clarification true — provided those three names
are in the run's allowed vocabulary or strict mode is off (strict
canonicalization would otherwise drop them). -/
theorem build_output_lost_phone (payload : PyDict) (allowed : List String) (strict : Bool)
    (h : (("device_type") ∈ allowed ∧ ("phone_number_or_asset_id") ∈ allowed ∧
      ("last_known_time") ∈ allowed) ∨ strict = false) :
    (Rules.build_output_from_signals (Rules.coerce_ticket_signals payload) lostPhoneText
        allowed strict).1.category = ("Security") ∧
    (Rules.build_output_from_signals (Rules.coerce_ticket_signals payload) lostPhoneText
        allowed strict).1.priority = ("P1") ∧
    (Rules.build_output_from_signals (Rules.coerce_ticket_signals payload) lostPhoneText
        allowed strict).1.device = ("Unknown") ∧
    (Rules.build_output_from_signals (Rules.coerce_ticket_signals payload) lostPhoneText
        allowed strict).1.missing_fields =
      [("device_type"), ("phone_number_or_asset_id"), ("last_known_time")] ∧
    (Rules.build_output_from_signals (Rules.coerce_ticket_signals payload) lostPhoneText
        allowed strict).1.needs_clarification = true := by
  simp only [Rules.build_output_from_signals]
  rw [lost_phone_category, lost_phone_priority, lost_phone_device,
    lost_phone_missing_fields (Rules.coerce_ticket_signals payload) allowed strict h,
    lost_phone_needs]
  refine ⟨rfl, rfl, rfl, rfl, rfl⟩

/-- Witness for C8 with an empty payload, the three required names as the
vocabulary, and strict mode on. -/
theorem build_output_lost_phone_witness :
    (Rules.build_output_from_signals (Rules.coerce_ticket_signals (pyDictOf []))
        lostPhoneText [("device_type"), ("phone_number_or_asset_id"), ("last_known_time")]
        true).1.category = ("Security") ∧
    (Rules.build_output_from_signals (Rules.coerce_ticket_signals (pyDictOf []))
        lostPhoneText [("device_type"), ("phone_number_or_asset_id"), ("last_known_time")]
        true).1.priority = ("P1") ∧
    (Rules.build_output_from_signals (Rules.coerce_ticket_signals (pyDictOf []))
        lostPhoneText [("device_type"), ("phone_number_or_asset_id"), ("last_known_time")]
        true).1.device = ("Unknown") ∧
    (Rules.build_output_from_signals (Rules.coerce_ticket_signals (pyDictOf []))
        lostPhoneText [("device_type"), ("phone_number_or_asset_id"), ("last_known_time")]
        true).1.missing_fields =
      [("device_type"), ("phone_number_or_asset_id"), ("last_known_time")] ∧
    (Rules.build_output_from_signals (Rules.coerce_ticket_signals (pyDictOf []))
        lostPhoneText [("device_type"), ("phone_number_or_asset_id"), ("last_known_time")]
        true).1.needs_clarification = true :=
  build_output_lost_phone (pyDictOf [])
    [("device_type"), ("phone_number_or_asset_id"), ("last_known_time")] true
    (Or.inl ⟨by decide, by decide, by decide⟩)

/-! ## Infrastructure for the normalize.py theorems -/

theorem dropWhile_self_idem (p : Char → Bool) :
    ∀ l : List Char, List.dropWhile p (List.dropWhile p l) = List.dropWhile p l
  | [] => rfl
  | a :: t => by
    by_cases h : p a = true
    · rw [List.dropWhile_cons, if_pos h, dropWhile_self_idem p t]
    · rw [List.dropWhile_cons, if_neg h, List.dropWhile_cons, if_neg h]

theorem dropWhile_append_self (p : Char → Bool) (u v : List Char)
    (h : List.dropWhile p (u ++ v) = u ++ v) : List.dropWhile p u = u := by
  cases u with
  | nil => rfl
  | cons a s =>
    rw [List.cons_append, List.dropWhile_cons] at h
    by_cases hp : p a = true
    · rw [if_pos hp] at h
      have hlen := congrArg List.length h
      have hle := (List.dropWhile_sublist (l := s ++ v) (p := p)).length_le
      simp at hlen hle
      omega
    · rw [List.dropWhile_cons, if_neg hp]

theorem pyStripL_idem (l : List Char) : pyStripL (pyStripL l) = pyStripL l := by
  unfold pyStripL pyLStripL pyRStripL
  have hr : List.dropWhile pyIsSpace
      ((List.dropWhile pyIsSpace l.reverse).reverse).reverse
      = ((List.dropWhile pyIsSpace l.reverse).reverse).reverse := by
    rw [List.reverse_reverse, dropWhile_self_idem]
  set r : List Char := (List.dropWhile pyIsSpace l.reverse).reverse with hrdef
  have hsplit : r.reverse = (List.dropWhile pyIsSpace r).reverse
      ++ (List.takeWhile pyIsSpace r).reverse := by
    rw [← List.reverse_append, List.takeWhile_append_dropWhile]
  have hu : List.dropWhile pyIsSpace (List.dropWhile pyIsSpace r).reverse
      = (List.dropWhile pyIsSpace r).reverse := by
    refine dropWhile_append_self pyIsSpace _ ((List.takeWhile pyIsSpace r).reverse) ?_
    rw [← hsplit]
    exact hr
  rw [hu, List.reverse_reverse, dropWhile_self_idem]

theorem pyStripS_idem (s : String) : pyStripS (pyStripS s) = pyStripS s := by
  unfold pyStripS
  rw [pyStripL_idem]

theorem pyStr_str (s : String) : pyStr (PyVal.str s) = s := rfl

theorem mem_dedupeAux_iff : ∀ (l seen : List String) (x : String),
    x ∈ dedupeAux seen l ↔ (x ∈ l ∧ ¬(x ∈ seen))
  | [], seen, x => by simp [dedupeAux]
  | v :: vs, seen, x => by
    rw [dedupeAux]
    by_cases hv : seen.contains v
    · rw [if_pos hv, mem_dedupeAux_iff vs seen x]
      have hvmem : v ∈ seen := List.mem_of_elem_eq_true hv
      constructor
      · rintro ⟨h1, h2⟩
        exact ⟨List.mem_cons_of_mem v h1, h2⟩
      · rintro ⟨h1, h2⟩
        rcases List.mem_cons.mp h1 with rfl | h1
        · exact absurd hvmem h2
        · exact ⟨h1, h2⟩
    · rw [if_neg hv]
      have hvn : ¬(v ∈ seen) := fun hm => hv (List.elem_eq_true_of_mem hm)
      constructor
      · intro h
        rcases List.mem_cons.mp h with rfl | h
        · exact ⟨List.mem_cons_self _ _, hvn⟩
        · rw [mem_dedupeAux_iff vs (v :: seen) x] at h
          obtain ⟨h1, h2⟩ := h
          exact ⟨List.mem_cons_of_mem v h1, fun hs => h2 (List.mem_cons_of_mem v hs)⟩
      · rintro ⟨h1, h2⟩
        rcases List.mem_cons.mp h1 with rfl | h1
        · exact List.mem_cons_self _ _
        · by_cases hxv : x = v
          · subst hxv
            exact List.mem_cons_self _ _
          · refine List.mem_cons_of_mem v ?_
            rw [mem_dedupeAux_iff vs (v :: seen) x]
            refine ⟨h1, fun hs => ?_⟩
            rcases List.mem_cons.mp hs with h | h
            · exact hxv h
            · exact h2 h

theorem mem_pyDedupe_iff (l : List String) (x : String) : x ∈ pyDedupe l ↔ x ∈ l := by
  rw [pyDedupe, mem_dedupeAux_iff]
  simp

theorem dedupeAux_nodup : ∀ (l seen : List String), (dedupeAux seen l).Nodup
  | [], seen => List.nodup_nil
  | v :: vs, seen => by
    rw [dedupeAux]
    by_cases hv : seen.contains v
    · rw [if_pos hv]
      exact dedupeAux_nodup vs seen
    · rw [if_neg hv]
      refine List.nodup_cons.mpr ⟨fun hm => ?_, dedupeAux_nodup vs (v :: seen)⟩
      rw [mem_dedupeAux_iff] at hm
      exact hm.2 (List.mem_cons_self v seen)

theorem dedupeAux_eq_self : ∀ (l seen : List String), l.Nodup →
    (∀ x ∈ l, ¬(x ∈ seen)) → dedupeAux seen l = l
  | [], seen, _, _ => rfl
  | v :: vs, seen, hnd, hdisj => by
    rw [dedupeAux]
    have hv : ¬(seen.contains v = true) :=
      fun hc => hdisj v (List.mem_cons_self v vs) (List.mem_of_elem_eq_true hc)
    rw [if_neg hv]
    have hnd' := List.nodup_cons.mp hnd
    rw [dedupeAux_eq_self vs (v :: seen) hnd'.2 ?_]
    intro x hx hmem
    rcases List.mem_cons.mp hmem with rfl | hmem
    · exact hnd'.1 hx
    · exact hdisj x (List.mem_cons_of_mem v hx) hmem

theorem pyDedupe_idem (l : List String) : pyDedupe (pyDedupe l) = pyDedupe l := by
  unfold pyDedupe
  refine dedupeAux_eq_self _ [] (dedupeAux_nodup l []) ?_
  intro x _ hm
  exact absurd hm (List.not_mem_nil x)

theorem pyTruthy_strListVal (l : List String) : pyTruthy (strListVal l) = !l.isEmpty := by
  cases l <;> rfl

/-! Shape lemmas for `_ensure_text_key`. -/

theorem ensure_fst (d : PyDict) (k dflt : String) (w : List String) :
    (NormalizeM._ensure_text_key d k dflt w).1
      = d.set k (PyVal.str (NormalizeM._ensure_text_key d k dflt w).2.2) := by
  unfold NormalizeM._ensure_text_key
  split
  · rfl
  · rfl
  · dsimp only
    split
    · rfl
    · rfl

theorem ensure_snd (d : PyDict) (k dflt : String) (w : List String) :
    (NormalizeM._ensure_text_key d k dflt w).2.1 = w ∨
      (NormalizeM._ensure_text_key d k dflt w).2.1 = w ++ [("defaulted_") ++ k] := by
  unfold NormalizeM._ensure_text_key
  split
  · exact Or.inr rfl
  · exact Or.inr rfl
  · dsimp only
    split
    · exact Or.inr rfl
    · exact Or.inl rfl

theorem ensure_get_other (d : PyDict) (k dflt : String) (w : List String) (k2 : String)
    (h : k ≠ k2) :
    ((NormalizeM._ensure_text_key d k dflt w).1).get? k2 = d.get? k2 := by
  rw [ensure_fst]
  exact PyDict.get_set_other d k k2 _ h

theorem ensure_of_str (d : PyDict) (k dflt : String) (w : List String) (s : String)
    (h : d.get? k = some (PyVal.str s)) (hs : pyStripS s = s) (hne : (s == ("")) = false) :
    NormalizeM._ensure_text_key d k dflt w = (d, w, s) := by
  unfold NormalizeM._ensure_text_key
  rw [h]
  dsimp only
  rw [pyStr_str, hs, if_neg (by simp_all), PyDict.set_self d k _ (by rw [h])]

theorem ensure_of_str_empty (d : PyDict) (k : String) (w : List String)
    (h : d.get? k = some (PyVal.str (""))) :
    NormalizeM._ensure_text_key d k ("") w = (d, w ++ [("defaulted_") ++ k], ("")) := by
  unfold NormalizeM._ensure_text_key
  rw [h]
  dsimp only
  rw [pyStr_str]
  rw [if_pos (by rfl), PyDict.set_self d k _ (by rw [h])]

theorem ensure_warn_mem (d : PyDict) (k dflt : String) (w : List String) :
    ∀ x ∈ (NormalizeM._ensure_text_key d k dflt w).2.1,
      x ∈ w ∨ x = ("defaulted_") ++ k := by
  intro x hx
  rcases ensure_snd d k dflt w with h | h <;> rw [h] at hx
  · exact Or.inl hx
  · rcases List.mem_append.mp hx with h2 | h2
    · exact Or.inl h2
    · exact Or.inr (List.mem_singleton.mp h2)

/-! Warning and value lemmas for the `_normalize_*` stages. -/

theorem normalize_category_warnings (c t : String) (w : List String) :
    ∀ x ∈ (NormalizeM._normalize_category c t w).2,
      x ∈ w ∨ x = ("normalized_category_synonym") ∨ x = ("category_out_of_set") := by
  intro x hx
  unfold NormalizeM._normalize_category at hx
  dsimp only at hx
  split at hx
  · exact Or.inl hx
  · split at hx
    · dsimp only at hx
      rcases List.mem_append.mp hx with h | h
      · exact Or.inl h
      · exact Or.inr (Or.inl (List.mem_singleton.mp h))
    · split at hx
      · dsimp only at hx
        rcases List.mem_append.mp hx with h | h
        · exact Or.inl h
        · exact Or.inr (Or.inl (List.mem_singleton.mp h))
      · dsimp only at hx
        rcases List.mem_append.mp hx with h | h
        · exact Or.inl h
        · exact Or.inr (Or.inr (List.mem_singleton.mp h))

theorem normalize_category_mem (c t : String) (w : List String) :
    (NormalizeM._normalize_category c t w).1 ∈ NormalizeM.ALLOWED_CATEGORIES := by
  unfold NormalizeM._normalize_category
  dsimp only
  split
  · rename_i hcon
    exact List.mem_of_elem_eq_true hcon
  · split
    · rename_i kv heq
      have hmem := List.mem_of_find?_eq_some heq
      have hall : ∀ pq ∈ NormalizeM._CATEGORY_SYNONYMS,
          pq.2 ∈ NormalizeM.ALLOWED_CATEGORIES := by decide
      exact hall kv hmem
    · split
      · show ("VPN") ∈ NormalizeM.ALLOWED_CATEGORIES
        decide
      · show ("Software") ∈ NormalizeM.ALLOWED_CATEGORIES
        decide

theorem normalize_priority_snd (p : String) (w : List String) :
    (NormalizeM._normalize_priority p w).2 = w ∨
      (NormalizeM._normalize_priority p w).2 = w ++ [("normalized_priority")] ∨
      (NormalizeM._normalize_priority p w).2 = w ++ [("priority_out_of_set")] := by
  unfold NormalizeM._normalize_priority
  dsimp only
  split_ifs
  · exact Or.inl rfl
  · exact Or.inr (Or.inl rfl)
  · exact Or.inr (Or.inl rfl)
  · exact Or.inr (Or.inl rfl)
  · split
    · try dsimp only
      split_ifs
      · exact Or.inr (Or.inl rfl)
      · exact Or.inr (Or.inr rfl)
      · exact Or.inr (Or.inr rfl)
    · exact Or.inr (Or.inr rfl)

theorem normalize_priority_mem (p : String) (w : List String) :
    (NormalizeM._normalize_priority p w).1 ∈ NormalizeM.ALLOWED_PRIORITIES := by
  unfold NormalizeM._normalize_priority
  dsimp only
  split_ifs with h1 h2 h3 h4
  · exact List.mem_of_elem_eq_true h1
  · show ("P1") ∈ NormalizeM.ALLOWED_PRIORITIES
    decide
  · show ("P3") ∈ NormalizeM.ALLOWED_PRIORITIES
    decide
  · show ("P4") ∈ NormalizeM.ALLOWED_PRIORITIES
    decide
  · split
    · try dsimp only
      split_ifs with hc hall
      · exact List.mem_of_elem_eq_true hall
      · show ("P3") ∈ NormalizeM.ALLOWED_PRIORITIES
        decide
      · show ("P3") ∈ NormalizeM.ALLOWED_PRIORITIES
        decide
    · show ("P3") ∈ NormalizeM.ALLOWED_PRIORITIES
      decide

theorem infer_device_mem (t : String) :
    ∀ inf, NormalizeM._infer_device t = some inf → inf ∈ NormalizeM.ALLOWED_DEVICES := by
  intro inf h
  unfold NormalizeM._infer_device at h
  split_ifs at h
  · injection h with h2
    rw [← h2]
    decide
  · injection h with h2
    rw [← h2]
    decide
  · injection h with h2
    rw [← h2]
    decide
  · injection h with h2
    rw [← h2]
    decide

theorem normalize_device_snd (v : PyVal) (t : String) (w : List String) :
    (NormalizeM._normalize_device v t w).2 = w ∨
      (NormalizeM._normalize_device v t w).2 = w ++ [("defaulted_device_from_text")] ∨
      (NormalizeM._normalize_device v t w).2 = w ++ [("defaulted_device")] ∨
      (NormalizeM._normalize_device v t w).2 = w ++ [("mapped_laptop_to_os_device")] ∨
      (NormalizeM._normalize_device v t w).2 = w ++ [("device_out_of_set_mapped_from_text")] ∨
      (NormalizeM._normalize_device v t w).2 = w ++ [("device_out_of_set")] := by
  unfold NormalizeM._normalize_device
  dsimp only
  split_ifs
  · split
    · exact Or.inr (Or.inl rfl)
    · exact Or.inr (Or.inr (Or.inl rfl))
  · exact Or.inl rfl
  · exact Or.inl rfl
  · exact Or.inl rfl
  · exact Or.inl rfl
  · exact Or.inr (Or.inr (Or.inr (Or.inl rfl)))
  · exact Or.inl rfl
  · split
    · exact Or.inr (Or.inr (Or.inr (Or.inr (Or.inl rfl))))
    · exact Or.inr (Or.inr (Or.inr (Or.inr (Or.inr rfl))))

theorem normalize_device_mem (v : PyVal) (t : String) (w : List String) :
    (NormalizeM._normalize_device v t w).1 ∈ NormalizeM.ALLOWED_DEVICES := by
  unfold NormalizeM._normalize_device
  dsimp only
  cases hinf : NormalizeM._infer_device t with
  | none =>
    split_ifs
    · show ("Unknown") ∈ NormalizeM.ALLOWED_DEVICES
      decide
    · show ("iPhone") ∈ NormalizeM.ALLOWED_DEVICES
      decide
    · show ("Android") ∈ NormalizeM.ALLOWED_DEVICES
      decide
    · show ("Mac") ∈ NormalizeM.ALLOWED_DEVICES
      decide
    · show ("Windows") ∈ NormalizeM.ALLOWED_DEVICES
      decide
    · show ("Unknown") ∈ NormalizeM.ALLOWED_DEVICES
      decide
    · rename_i hall
      exact List.mem_of_elem_eq_true hall
    · show ("Unknown") ∈ NormalizeM.ALLOWED_DEVICES
      decide
  | some inf =>
    have hmem := infer_device_mem t inf hinf
    split_ifs
    · exact hmem
    · show ("iPhone") ∈ NormalizeM.ALLOWED_DEVICES
      decide
    · show ("Android") ∈ NormalizeM.ALLOWED_DEVICES
      decide
    · show ("Mac") ∈ NormalizeM.ALLOWED_DEVICES
      decide
    · show ("Windows") ∈ NormalizeM.ALLOWED_DEVICES
      decide
    · exact hmem
    · rename_i hall
      exact List.mem_of_elem_eq_true hall
    · exact hmem

theorem nmf_fst_indep (v : PyVal) (w : List String) :
    (NormalizeM._normalize_missing_fields v w).1
      = (NormalizeM._normalize_missing_fields v []).1 := by
  cases v <;> rfl

theorem nmf_snd (v : PyVal) (w : List String) :
    (NormalizeM._normalize_missing_fields v w).2 = w ∨
      (NormalizeM._normalize_missing_fields v w).2 = w ++ [("defaulted_missing_fields")] := by
  cases v
  case list => exact Or.inl rfl
  all_goals exact Or.inr rfl

theorem nmf_aux_mem : ∀ (xs : PyList) (x : String),
    x ∈ NormalizeM._normalize_missing_fields_aux xs →
      pyStripS x = x ∧ (x == ("")) = false
  | .nil, x, hx => absurd hx (List.not_mem_nil x)
  | .cons item tl, x, hx => by
    rw [NormalizeM._normalize_missing_fields_aux] at hx
    try dsimp only at hx
    split_ifs at hx with h
    · exact nmf_aux_mem tl x hx
    · rcases List.mem_cons.mp hx with rfl | hx
      · exact ⟨pyStripS_idem (pyStr item), by simpa using h⟩
      · exact nmf_aux_mem tl x hx

theorem nmf_props (v : PyVal) :
    (∀ x ∈ (NormalizeM._normalize_missing_fields v []).1,
        pyStripS x = x ∧ (x == ("")) = false) ∧
      pyDedupe (NormalizeM._normalize_missing_fields v []).1
        = (NormalizeM._normalize_missing_fields v []).1 := by
  cases v
  case list xs =>
    refine ⟨fun x hx => ?_, pyDedupe_idem _⟩
    have hx2 := (mem_pyDedupe_iff _ x).mp hx
    exact nmf_aux_mem xs x hx2
  all_goals exact ⟨fun x hx => absurd hx (List.not_mem_nil x), rfl⟩

theorem nmf_aux_fix : ∀ nm : List String,
    (∀ x ∈ nm, pyStripS x = x ∧ (x == ("")) = false) →
      NormalizeM._normalize_missing_fields_aux (pyListOf (nm.map PyVal.str)) = nm
  | [], _ => rfl
  | y :: tl, h => by
    have hcons : pyListOf ((y :: tl).map PyVal.str)
        = PyList.cons (PyVal.str y) (pyListOf (tl.map PyVal.str)) := rfl
    rw [hcons, NormalizeM._normalize_missing_fields_aux]
    try dsimp only
    have hy := h y (List.mem_cons_self y tl)
    rw [pyStr_str, hy.1, if_neg (by simp [hy.2])]
    rw [nmf_aux_fix tl (fun x hx => h x (List.mem_cons_of_mem y hx))]

theorem nmf_fix (nm : List String) (w : List String)
    (h1 : ∀ x ∈ nm, pyStripS x = x ∧ (x == ("")) = false)
    (h2 : pyDedupe nm = nm) :
    NormalizeM._normalize_missing_fields (strListVal nm) w = (nm, w) := by
  unfold strListVal NormalizeM._normalize_missing_fields
  try dsimp only
  rw [nmf_aux_fix nm h1, h2]

theorem normalize_category_fix :
    ∀ c ∈ NormalizeM.ALLOWED_CATEGORIES, ∀ t w,
      NormalizeM._normalize_category c t w = (c, w) := by
  intro c hc t w
  fin_cases hc <;> rfl

theorem normalize_priority_fix :
    ∀ p ∈ NormalizeM.ALLOWED_PRIORITIES, ∀ w,
      NormalizeM._normalize_priority p w = (p, w) := by
  intro p hp w
  fin_cases hp <;> rfl

theorem normalize_device_fix :
    ∀ dv ∈ NormalizeM.ALLOWED_DEVICES, ∀ t w,
      NormalizeM._normalize_device (PyVal.str dv) t w = (dv, w) := by
  intro dv hd t w
  fin_cases hd <;> rfl

theorem allowed_category_props :
    ∀ c ∈ NormalizeM.ALLOWED_CATEGORIES, pyStripS c = c ∧ (c == ("")) = false := by
  decide

theorem allowed_priority_props :
    ∀ p ∈ NormalizeM.ALLOWED_PRIORITIES, pyStripS p = p ∧ (p == ("")) = false := by
  decide

/-- The value consulted for `needs_clarification` after the key-defaulting
steps of `normalize_output` (the original value, or `False` if absent). -/
def needsIn (d : PyDict) : PyVal :=
  (d.get? ("needs_clarification")).getD (PyVal.bool false)

/-- The value consulted for `missing_fields` after the key-defaulting steps
of `normalize_output` (the original value, or `[]` if absent). -/
def missingIn (d : PyDict) : PyVal :=
  (d.get? ("missing_fields")).getD (PyVal.list PyList.nil)

theorem pyIsFalse_bool (b : Bool) : pyIsFalse (PyVal.bool b) = !b := by
  cases b <;> rfl

theorem pyIsTrue_bool (b : Bool) : pyIsTrue (PyVal.bool b) = b := by
  cases b <;> rfl

/-- The warning strings that the defaulting and per-field normalization
stages of `normalize_output` can emit (everything before the two
consistency fixups). -/
def stageWarningsList : List String :=
  [("defaulted_category"), ("defaulted_priority"), ("defaulted_summary"),
   ("defaulted_needs_clarification"), ("defaulted_missing_fields"),
   ("normalized_category_synonym"), ("category_out_of_set"), ("normalized_priority"),
   ("priority_out_of_set"), ("defaulted_device_from_text"), ("defaulted_device"),
   ("mapped_laptop_to_os_device"), ("device_out_of_set_mapped_from_text"),
   ("device_out_of_set")]

theorem stw_m1 : (("defaulted_") ++ ("category")) ∈ stageWarningsList := by decide

theorem stw_m2 : (("defaulted_") ++ ("priority")) ∈ stageWarningsList := by decide

theorem stw_m3 : (("defaulted_") ++ ("summary")) ∈ stageWarningsList := by decide

theorem stw_m4 : ("defaulted_needs_clarification") ∈ stageWarningsList := by decide

theorem stw_m5 : ("defaulted_missing_fields") ∈ stageWarningsList := by decide

theorem stw_m6 : ("normalized_category_synonym") ∈ stageWarningsList := by decide

theorem stw_m7 : ("category_out_of_set") ∈ stageWarningsList := by decide

theorem stw_m8 : ("normalized_priority") ∈ stageWarningsList := by decide

theorem stw_m9 : ("priority_out_of_set") ∈ stageWarningsList := by decide

theorem stw_m10 : ("defaulted_device_from_text") ∈ stageWarningsList := by decide

theorem stw_m11 : ("defaulted_device") ∈ stageWarningsList := by decide

theorem stw_m12 : ("mapped_laptop_to_os_device") ∈ stageWarningsList := by decide

theorem stw_m13 : ("device_out_of_set_mapped_from_text") ∈ stageWarningsList := by decide

theorem stw_m14 : ("device_out_of_set") ∈ stageWarningsList := by decide

theorem stw_co_not_mem :
    ¬(("coerced_needs_clarification_true") ∈ stageWarningsList) := by decide

theorem stw_ncw_not_mem :
    ¬(("needs_clarification_without_missing_fields") ∈ stageWarningsList) := by decide

theorem co_ne_ncw :
    ("coerced_needs_clarification_true") ≠ ("needs_clarification_without_missing_fields") := by
  decide

set_option maxHeartbeats 6400000 in
/-- Master characterization of `normalize_output`: the value of the result
dict at the six canonical keys, and exactly when each of the two
consistency warnings is emitted, in terms of the (defaulted)
`needs_clarification` and `missing_fields` values of the input dict. -/
theorem normalize_output_master (actual : PyDict) (text : String) :
    ∃ out w,
      NormalizeM.normalize_output actual text = (out, w) ∧
      (∃ c ∈ NormalizeM.ALLOWED_CATEGORIES, out.get? ("category") = some (PyVal.str c)) ∧
      (∃ p ∈ NormalizeM.ALLOWED_PRIORITIES, out.get? ("priority") = some (PyVal.str p)) ∧
      (∃ dv ∈ NormalizeM.ALLOWED_DEVICES, out.get? ("device") = some (PyVal.str dv)) ∧
      (∃ s, out.get? ("summary") = some (PyVal.str s) ∧ pyStripS s = s) ∧
      out.get? ("needs_clarification")
        = some (PyVal.bool (NormalizeM._normalize_bool (needsIn actual)
            || !((NormalizeM._normalize_missing_fields (missingIn actual) []).1.isEmpty))) ∧
      out.get? ("missing_fields")
        = some (strListVal (NormalizeM._normalize_missing_fields (missingIn actual) []).1) ∧
      (∀ x ∈ (NormalizeM._normalize_missing_fields (missingIn actual) []).1,
        pyStripS x = x ∧ (x == ("")) = false) ∧
      pyDedupe (NormalizeM._normalize_missing_fields (missingIn actual) []).1
        = (NormalizeM._normalize_missing_fields (missingIn actual) []).1 ∧
      ((("coerced_needs_clarification_true") ∈ w) ↔
        (!((NormalizeM._normalize_missing_fields (missingIn actual) []).1.isEmpty)
          && !(NormalizeM._normalize_bool (needsIn actual))) = true) ∧
      ((("needs_clarification_without_missing_fields") ∈ w) ↔
        ((NormalizeM._normalize_bool (needsIn actual))
          && (NormalizeM._normalize_missing_fields (missingIn actual) []).1.isEmpty) = true) := by
  obtain ⟨out, w, hout⟩ : ∃ o ww, NormalizeM.normalize_output actual text = (o, ww) :=
    ⟨(NormalizeM.normalize_output actual text).1,
      (NormalizeM.normalize_output actual text).2, Prod.mk.eta.symm⟩
  set nb : Bool := NormalizeM._normalize_bool (needsIn actual) with hnbdef
  set nm : List String := (NormalizeM._normalize_missing_fields (missingIn actual) []).1
    with hnmdef
  refine ⟨out, w, hout, ?_⟩
  unfold NormalizeM.normalize_output at hout
  lift_lets at hout
  extract_lets warnings tl e1 category e2 priority e3 e4 e5 c6 n6 c7 n7 c8 n8 s9 n9
    c10 n10 b11 n11 fix1 w13 at hout
  have hW : warnings = [] := rfl
  have hE1 : e1 = NormalizeM._ensure_text_key actual ("category") ("Software") warnings := rfl
  have hE2 : e2 = NormalizeM._ensure_text_key e1.1 ("priority") ("P3") e1.2.1 := rfl
  have hE3 : e3 = NormalizeM._ensure_text_key e2.1 ("summary") ("") e2.2.1 := rfl
  have hE4 : e4 = (if (e3.1).hasKey ("needs_clarification") then (e3.1, e3.2.1)
      else ((e3.1).set ("needs_clarification") (PyVal.bool false),
        e3.2.1 ++ [("defaulted_needs_clarification")])) := rfl
  have hE5 : e5 = (if (e4.1).hasKey ("missing_fields") then (e4.1, e4.2)
      else ((e4.1).set ("missing_fields") (PyVal.list PyList.nil),
        e4.2 ++ [("defaulted_missing_fields")])) := rfl
  have hC6 : c6 = NormalizeM._normalize_category category tl e5.2 := rfl
  have hN6 : n6 = (e5.1).set ("category") (PyVal.str c6.1) := rfl
  have hC7 : c7 = NormalizeM._normalize_priority priority c6.2 := rfl
  have hN7 : n7 = n6.set ("priority") (PyVal.str c7.1) := rfl
  have hC8 : c8 = NormalizeM._normalize_device (n7.getd ("device") PyVal.none) tl c7.2 := rfl
  have hN8 : n8 = n7.set ("device") (PyVal.str c8.1) := rfl
  have hS9 : s9 = pyStripS (pyStr (n8.getd ("summary") (PyVal.str ("")))) := rfl
  have hN9 : n9 = n8.set ("summary") (PyVal.str s9) := rfl
  have hC10 : c10 = NormalizeM._normalize_missing_fields (n9.getd ("missing_fields")
      PyVal.none) c8.2 := rfl
  have hN10 : n10 = n9.set ("missing_fields") (strListVal c10.1) := rfl
  have hB11 : b11 = NormalizeM._normalize_bool (n10.getd ("needs_clarification")
      PyVal.none) := rfl
  have hN11 : n11 = n10.set ("needs_clarification") (PyVal.bool b11) := rfl
  have hFix : fix1 = (if pyTruthy (n11.getd ("missing_fields") PyVal.none) &&
        pyIsFalse (n11.getd ("needs_clarification") PyVal.none) then
      (n11.set ("needs_clarification") (PyVal.bool true),
        c10.2 ++ [("coerced_needs_clarification_true")])
    else (n11, c10.2)) := rfl
  have hW13 : w13 = (if pyIsTrue ((fix1.1).getd ("needs_clarification") PyVal.none) &&
        !(pyTruthy ((fix1.1).getd ("missing_fields") PyVal.none)) then
      fix1.2 ++ [("needs_clarification_without_missing_fields")]
    else fix1.2) := rfl
  have hfst : fix1.1 = out := (Prod.ext_iff.mp hout).1
  have hsnd : pyDedupe w13 = w := (Prod.ext_iff.mp hout).2
  -- value of the needs/missing keys before the per-field normalizations
  have g3N : e3.1.get? ("needs_clarification") = actual.get? ("needs_clarification") := by
    rw [hE3, ensure_get_other _ _ _ _ _ (by decide), hE2,
      ensure_get_other _ _ _ _ _ (by decide), hE1, ensure_get_other _ _ _ _ _ (by decide)]
  have g3M : e3.1.get? ("missing_fields") = actual.get? ("missing_fields") := by
    rw [hE3, ensure_get_other _ _ _ _ _ (by decide), hE2,
      ensure_get_other _ _ _ _ _ (by decide), hE1, ensure_get_other _ _ _ _ _ (by decide)]
  have g4N : e4.1.get? ("needs_clarification") = some (needsIn actual) := by
    rw [hE4]
    by_cases hk : e3.1.hasKey ("needs_clarification") = true
    · rw [if_pos hk]
      dsimp only
      rw [g3N]
      rw [PyDict.hasKey_eq_isSome, g3N] at hk
      unfold needsIn
      cases hv : actual.get? ("needs_clarification") with
      | none => rw [hv] at hk; simp at hk
      | some v => rfl
    · rw [if_neg hk]
      dsimp only
      rw [PyDict.get_set_same]
      rw [PyDict.hasKey_eq_isSome, g3N] at hk
      unfold needsIn
      cases hv : actual.get? ("needs_clarification") with
      | none => rfl
      | some v => rw [hv] at hk; simp at hk
  have g4M : e4.1.get? ("missing_fields") = actual.get? ("missing_fields") := by
    rw [hE4]
    by_cases hk : e3.1.hasKey ("needs_clarification") = true
    · rw [if_pos hk]
      dsimp only
      exact g3M
    · rw [if_neg hk]
      dsimp only
      rw [PyDict.get_set_other _ _ _ _ (by decide)]
      exact g3M
  have g5M : e5.1.get? ("missing_fields") = some (missingIn actual) := by
    rw [hE5]
    by_cases hk : e4.1.hasKey ("missing_fields") = true
    · rw [if_pos hk]
      dsimp only
      rw [g4M]
      rw [PyDict.hasKey_eq_isSome, g4M] at hk
      unfold missingIn
      cases hv : actual.get? ("missing_fields") with
      | none => rw [hv] at hk; simp at hk
      | some v => rfl
    · rw [if_neg hk]
      dsimp only
      rw [PyDict.get_set_same]
      rw [PyDict.hasKey_eq_isSome, g4M] at hk
      unfold missingIn
      cases hv : actual.get? ("missing_fields") with
      | none => rfl
      | some v => rw [hv] at hk; simp at hk
  have g5N : e5.1.get? ("needs_clarification") = some (needsIn actual) := by
    rw [hE5]
    by_cases hk : e4.1.hasKey ("missing_fields") = true
    · rw [if_pos hk]
      dsimp only
      exact g4N
    · rw [if_neg hk]
      dsimp only
      rw [PyDict.get_set_other _ _ _ _ (by decide)]
      exact g4N
  -- the n6..n10 chain
  have g10N : n10.get? ("needs_clarification") = some (needsIn actual) := by
    rw [hN10, PyDict.get_set_other _ _ _ _ (by decide), hN9,
      PyDict.get_set_other _ _ _ _ (by decide), hN8, PyDict.get_set_other _ _ _ _ (by decide),
      hN7, PyDict.get_set_other _ _ _ _ (by decide), hN6,
      PyDict.get_set_other _ _ _ _ (by decide), g5N]
  have g9M : n9.get? ("missing_fields") = some (missingIn actual) := by
    rw [hN9, PyDict.get_set_other _ _ _ _ (by decide), hN8,
      PyDict.get_set_other _ _ _ _ (by decide), hN7, PyDict.get_set_other _ _ _ _ (by decide),
      hN6, PyDict.get_set_other _ _ _ _ (by decide), g5M]
  have hC10v : c10.1 = nm := by
    rw [hC10]
    simp only [PyDict.getd]
    rw [g9M]
    simp only [Option.getD_some]
    rw [nmf_fst_indep]
  have hB11v : b11 = nb := by
    rw [hB11]
    simp only [PyDict.getd]
    rw [g10N]
    simp only [Option.getD_some]
  -- n11 values at the two consistency keys
  have g11N : n11.get? ("needs_clarification") = some (PyVal.bool nb) := by
    rw [hN11, PyDict.get_set_same, hB11v]
  have g11M : n11.get? ("missing_fields") = some (strListVal nm) := by
    rw [hN11, PyDict.get_set_other _ _ _ _ (by decide), hN10, PyDict.get_set_same, hC10v]
  -- values of the other keys at n11
  have g11C : n11.get? ("category") = some (PyVal.str c6.1) := by
    rw [hN11, PyDict.get_set_other _ _ _ _ (by decide), hN10,
      PyDict.get_set_other _ _ _ _ (by decide), hN9, PyDict.get_set_other _ _ _ _ (by decide),
      hN8, PyDict.get_set_other _ _ _ _ (by decide), hN7,
      PyDict.get_set_other _ _ _ _ (by decide), hN6, PyDict.get_set_same]
  have g11P : n11.get? ("priority") = some (PyVal.str c7.1) := by
    rw [hN11, PyDict.get_set_other _ _ _ _ (by decide), hN10,
      PyDict.get_set_other _ _ _ _ (by decide), hN9, PyDict.get_set_other _ _ _ _ (by decide),
      hN8, PyDict.get_set_other _ _ _ _ (by decide), hN7, PyDict.get_set_same]
  have g11D : n11.get? ("device") = some (PyVal.str c8.1) := by
    rw [hN11, PyDict.get_set_other _ _ _ _ (by decide), hN10,
      PyDict.get_set_other _ _ _ _ (by decide), hN9, PyDict.get_set_other _ _ _ _ (by decide),
      hN8, PyDict.get_set_same]
  have g11S : n11.get? ("summary") = some (PyVal.str s9) := by
    rw [hN11, PyDict.get_set_other _ _ _ _ (by decide), hN10,
      PyDict.get_set_other _ _ _ _ (by decide), hN9, PyDict.get_set_same]
  -- the fixup condition
  have hcond : (pyTruthy (n11.getd ("missing_fields") PyVal.none) &&
      pyIsFalse (n11.getd ("needs_clarification") PyVal.none)) = (!nm.isEmpty && !nb) := by
    simp only [PyDict.getd]
    rw [g11M, g11N]
    simp only [Option.getD_some]
    rw [pyTruthy_strListVal, pyIsFalse_bool]
  -- the final dict at keys other than needs_clarification
  have hfixO : ∀ k2 : String, ("needs_clarification") ≠ k2 →
      out.get? k2 = n11.get? k2 := by
    intro k2 hk2
    rw [← hfst, hFix]
    by_cases hc : (pyTruthy (n11.getd ("missing_fields") PyVal.none) &&
        pyIsFalse (n11.getd ("needs_clarification") PyVal.none)) = true
    · rw [if_pos hc]
      dsimp only
      exact PyDict.get_set_other _ _ _ _ hk2
    · rw [if_neg hc]
  -- warning-list vocabulary for the stage warnings
  have hv1 : ∀ x ∈ e1.2.1, x ∈ stageWarningsList := by
    intro x hx
    rw [hE1] at hx
    rcases ensure_warn_mem actual ("category") ("Software") warnings x hx with h | h
    · rw [hW] at h
      exact absurd h (List.not_mem_nil x)
    · rw [h]
      exact stw_m1
  have hv2 : ∀ x ∈ e2.2.1, x ∈ stageWarningsList := by
    intro x hx
    rw [hE2] at hx
    rcases ensure_warn_mem e1.1 ("priority") ("P3") e1.2.1 x hx with h | h
    · exact hv1 x h
    · rw [h]
      exact stw_m2
  have hv3 : ∀ x ∈ e3.2.1, x ∈ stageWarningsList := by
    intro x hx
    rw [hE3] at hx
    rcases ensure_warn_mem e2.1 ("summary") ("") e2.2.1 x hx with h | h
    · exact hv2 x h
    · rw [h]
      exact stw_m3
  have hv4 : ∀ x ∈ e4.2, x ∈ stageWarningsList := by
    intro x hx
    rw [hE4] at hx
    by_cases hk : e3.1.hasKey ("needs_clarification") = true
    · rw [if_pos hk] at hx
      exact hv3 x hx
    · rw [if_neg hk] at hx
      dsimp only at hx
      rcases List.mem_append.mp hx with h | h
      · exact hv3 x h
      · rw [List.mem_singleton.mp h]
        exact stw_m4
  have hv5 : ∀ x ∈ e5.2, x ∈ stageWarningsList := by
    intro x hx
    rw [hE5] at hx
    by_cases hk : e4.1.hasKey ("missing_fields") = true
    · rw [if_pos hk] at hx
      exact hv4 x hx
    · rw [if_neg hk] at hx
      dsimp only at hx
      rcases List.mem_append.mp hx with h | h
      · exact hv4 x h
      · rw [List.mem_singleton.mp h]
        exact stw_m5
  have hv6 : ∀ x ∈ c6.2, x ∈ stageWarningsList := by
    intro x hx
    rw [hC6] at hx
    rcases normalize_category_warnings category tl e5.2 x hx with h | h | h
    · exact hv5 x h
    · rw [h]
      exact stw_m6
    · rw [h]
      exact stw_m7
  have hv7 : ∀ x ∈ c7.2, x ∈ stageWarningsList := by
    intro x hx
    rw [hC7] at hx
    rcases normalize_priority_snd priority c6.2 with h | h | h <;> rw [h] at hx
    · exact hv6 x hx
    · rcases List.mem_append.mp hx with h2 | h2
      · exact hv6 x h2
      · rw [List.mem_singleton.mp h2]
        exact stw_m8
    · rcases List.mem_append.mp hx with h2 | h2
      · exact hv6 x h2
      · rw [List.mem_singleton.mp h2]
        exact stw_m9
  have hv8 : ∀ x ∈ c8.2, x ∈ stageWarningsList := by
    intro x hx
    rw [hC8] at hx
    rcases normalize_device_snd (n7.getd ("device") PyVal.none) tl c7.2
      with h | h | h | h | h | h <;> rw [h] at hx
    · exact hv7 x hx
    · rcases List.mem_append.mp hx with h2 | h2
      · exact hv7 x h2
      · rw [List.mem_singleton.mp h2]
        exact stw_m10
    · rcases List.mem_append.mp hx with h2 | h2
      · exact hv7 x h2
      · rw [List.mem_singleton.mp h2]
        exact stw_m11
    · rcases List.mem_append.mp hx with h2 | h2
      · exact hv7 x h2
      · rw [List.mem_singleton.mp h2]
        exact stw_m12
    · rcases List.mem_append.mp hx with h2 | h2
      · exact hv7 x h2
      · rw [List.mem_singleton.mp h2]
        exact stw_m13
    · rcases List.mem_append.mp hx with h2 | h2
      · exact hv7 x h2
      · rw [List.mem_singleton.mp h2]
        exact stw_m14
  have hv10 : ∀ x ∈ c10.2, x ∈ stageWarningsList := by
    intro x hx
    rw [hC10] at hx
    rcases nmf_snd (n9.getd ("missing_fields") PyVal.none) c8.2 with h | h <;> rw [h] at hx
    · exact hv8 x hx
    · rcases List.mem_append.mp hx with h2 | h2
      · exact hv8 x h2
      · rw [List.mem_singleton.mp h2]
        exact stw_m5
  have hco10 : ¬(("coerced_needs_clarification_true") ∈ c10.2) := by
    intro hmem
    exact stw_co_not_mem (hv10 _ hmem)
  have hnc10 : ¬(("needs_clarification_without_missing_fields") ∈ c10.2) := by
    intro hmem
    exact stw_ncw_not_mem (hv10 _ hmem)
  -- the final value of needs_clarification and the warnings
  have hwmem : ∀ x : String, x ∈ w ↔ x ∈ w13 := by
    intro x
    rw [← hsnd, mem_pyDedupe_iff]
  have houtN : out.get? ("needs_clarification") = some (PyVal.bool (nb || !nm.isEmpty)) := by
    rw [← hfst, hFix, hcond]
    by_cases hc : (!nm.isEmpty && !nb) = true
    · rw [if_pos hc]
      dsimp only
      rw [PyDict.get_set_same]
      have h1 : nm.isEmpty = false := by
        cases hm : nm.isEmpty
        · rfl
        · rw [hm] at hc
          simp at hc
      have h2 : nb = false := by
        cases hb : nb
        · rfl
        · rw [hb] at hc
          simp at hc
      rw [h1, h2]
      rfl
    · rw [if_neg hc]
      rw [g11N]
      have heq : (nb || !nm.isEmpty) = nb := by
        cases hb : nb with
        | true => rfl
        | false =>
          cases hm : nm.isEmpty with
          | true => rfl
          | false =>
            rw [hb, hm] at hc
            simp at hc
      rw [heq]
  have houtM : out.get? ("missing_fields") = some (strListVal nm) := by
    rw [hfixO ("missing_fields") (by decide)]
    exact g11M
  have hwarn : ((("coerced_needs_clarification_true") ∈ w) ↔ (!nm.isEmpty && !nb) = true) ∧
      ((("needs_clarification_without_missing_fields") ∈ w) ↔ (nb && nm.isEmpty) = true) := by
    by_cases hc : (!nm.isEmpty && !nb) = true
    · have hFixv : fix1 = (n11.set ("needs_clarification") (PyVal.bool true),
          c10.2 ++ [("coerced_needs_clarification_true")]) := by
        rw [hFix, hcond, if_pos hc]
      have h1 : nm.isEmpty = false := by
        cases hm : nm.isEmpty
        · rfl
        · rw [hm] at hc
          simp at hc
      have h2 : nb = false := by
        cases hb : nb
        · rfl
        · rw [hb] at hc
          simp at hc
      have hcondF : ¬((pyIsTrue ((fix1.1).getd ("needs_clarification") PyVal.none) &&
          !(pyTruthy ((fix1.1).getd ("missing_fields") PyVal.none))) = true) := by
        rw [hFixv]
        dsimp only
        simp only [PyDict.getd]
        rw [PyDict.get_set_same, PyDict.get_set_other _ _ _ _ (by decide), g11M]
        simp only [Option.getD_some]
        rw [pyTruthy_strListVal, h1]
        simp
      have hw13v : w13 = c10.2 ++ [("coerced_needs_clarification_true")] := by
        rw [hW13, if_neg hcondF, hFixv]
      constructor
      · rw [hwmem, hw13v]
        constructor
        · intro _
          exact hc
        · intro _
          exact List.mem_append.mpr (Or.inr (List.mem_singleton.mpr rfl))
      · rw [hwmem, hw13v, h1, h2]
        constructor
        · intro hmem
          rcases List.mem_append.mp hmem with h | h
          · exact absurd h hnc10
          · exact absurd (List.mem_singleton.mp h).symm co_ne_ncw
        · intro hfalse
          simp at hfalse
    · have hFixv : fix1 = (n11, c10.2) := by
        rw [hFix, hcond, if_neg hc]
      have hD : (pyIsTrue ((fix1.1).getd ("needs_clarification") PyVal.none) &&
          !(pyTruthy ((fix1.1).getd ("missing_fields") PyVal.none))) = (nb && nm.isEmpty) := by
        rw [hFixv]
        dsimp only
        simp only [PyDict.getd]
        rw [g11N, g11M]
        simp only [Option.getD_some]
        rw [pyIsTrue_bool, pyTruthy_strListVal, Bool.not_not]
      by_cases hd : (nb && nm.isEmpty) = true
      · have hcondT : (pyIsTrue ((fix1.1).getd ("needs_clarification") PyVal.none) &&
            !(pyTruthy ((fix1.1).getd ("missing_fields") PyVal.none))) = true := by
          rw [hD]
          exact hd
        have hw13v : w13 = c10.2 ++ [("needs_clarification_without_missing_fields")] := by
          rw [hW13, if_pos hcondT, hFixv]
        constructor
        · rw [hwmem, hw13v]
          constructor
          · intro hmem
            rcases List.mem_append.mp hmem with h | h
            · exact absurd h hco10
            · exact absurd (List.mem_singleton.mp h) co_ne_ncw
          · intro htrue
            exact absurd htrue hc
        · rw [hwmem, hw13v]
          constructor
          · intro _
            exact hd
          · intro _
            exact List.mem_append.mpr (Or.inr (List.mem_singleton.mpr rfl))
      · have hcondF : ¬((pyIsTrue ((fix1.1).getd ("needs_clarification") PyVal.none) &&
            !(pyTruthy ((fix1.1).getd ("missing_fields") PyVal.none))) = true) := by
          rw [hD]
          exact hd
        have hw13v : w13 = c10.2 := by
          rw [hW13, if_neg hcondF, hFixv]
        constructor
        · rw [hwmem, hw13v]
          constructor
          · intro hmem
            exact absurd hmem hco10
          · intro htrue
            exact absurd htrue hc
        · rw [hwmem, hw13v]
          constructor
          · intro hmem
            exact absurd hmem hnc10
          · intro htrue
            exact absurd htrue hd
  have hq1 : c6.1 ∈ NormalizeM.ALLOWED_CATEGORIES := by
    rw [hC6]
    exact normalize_category_mem category tl e5.2
  have hq2 : out.get? ("category") = some (PyVal.str c6.1) := by
    rw [hfixO ("category") (by decide)]
    exact g11C
  have hq3 : c7.1 ∈ NormalizeM.ALLOWED_PRIORITIES := by
    rw [hC7]
    exact normalize_priority_mem priority c6.2
  have hq4 : out.get? ("priority") = some (PyVal.str c7.1) := by
    rw [hfixO ("priority") (by decide)]
    exact g11P
  have hq5 : c8.1 ∈ NormalizeM.ALLOWED_DEVICES := by
    rw [hC8]
    exact normalize_device_mem (n7.getd ("device") PyVal.none) tl c7.2
  have hq6 : out.get? ("device") = some (PyVal.str c8.1) := by
    rw [hfixO ("device") (by decide)]
    exact g11D
  have hq7 : out.get? ("summary") = some (PyVal.str s9) := by
    rw [hfixO ("summary") (by decide)]
    exact g11S
  have hq8 : pyStripS s9 = s9 := by
    rw [hS9]
    exact pyStripS_idem _
  exact ⟨⟨c6.1, hq1, hq2⟩, ⟨c7.1, hq3, hq4⟩, ⟨c8.1, hq5, hq6⟩, ⟨s9, hq7, hq8⟩,
    houtN, houtM, (nmf_props (missingIn actual)).1, (nmf_props (missingIn actual)).2,
    hwarn.1, hwarn.2⟩

/-- **C5.** `normalize_output` enforces the consistency law asymmetrically: for
every candidate dict and input text, if the normalized `missing_fields` list is
non-empty while the (defaulted) `needs_clarification` value coerces to false,
then `needs_clarification` is forced to `True` and the warning
`coerced_needs_clarification_true` is emitted; whereas if `needs_clarification`
coerces to true while the normalized `missing_fields` list is empty, the value
is left `True` and only the warning `needs_clarification_without_missing_fields`
is emitted — that direction is never auto-corrected. -/
theorem normalize_output_consistency_asymmetry (actual : PyDict) (text : String) :
    (((NormalizeM._normalize_missing_fields (missingIn actual) []).1 ≠ [] ∧
        NormalizeM._normalize_bool (needsIn actual) = false →
      (NormalizeM.normalize_output actual text).1.get? ("needs_clarification")
          = some (PyVal.bool true) ∧
        ("coerced_needs_clarification_true")
          ∈ (NormalizeM.normalize_output actual text).2) ∧
    (NormalizeM._normalize_bool (needsIn actual) = true ∧
        (NormalizeM._normalize_missing_fields (missingIn actual) []).1 = [] →
      (NormalizeM.normalize_output actual text).1.get? ("needs_clarification")
          = some (PyVal.bool true) ∧
        ("needs_clarification_without_missing_fields")
          ∈ (NormalizeM.normalize_output actual text).2 ∧
        ¬(("coerced_needs_clarification_true")
          ∈ (NormalizeM.normalize_output actual text).2))) := by
  obtain ⟨out, w, hout, _, _, _, _, hN, hM, _, _, hco, hncw⟩ :=
    normalize_output_master actual text
  rw [hout]
  dsimp only
  constructor
  · rintro ⟨hnm, hnb⟩
    have hie : (NormalizeM._normalize_missing_fields (missingIn actual) []).1.isEmpty
        = false := by
      cases hl : (NormalizeM._normalize_missing_fields (missingIn actual) []).1 with
      | nil => exact absurd hl hnm
      | cons a t => rfl
    constructor
    · rw [hN, hnb, hie]
      rfl
    · rw [hco, hnb, hie]
      rfl
  · rintro ⟨hnb, hnm⟩
    have hie : (NormalizeM._normalize_missing_fields (missingIn actual) []).1.isEmpty
        = true := by
      rw [hnm]
      rfl
    refine ⟨?_, ?_, ?_⟩
    · rw [hN, hnb, hie]
      rfl
    · rw [hncw, hnb, hie]
      rfl
    · rw [hco, hnb, hie]
      simp
theorem normalize_output_consistency_asymmetry_witness :
    ((NormalizeM.normalize_output (pyDictOf [(("missing_fields"), strListVal [("team")]),
          (("needs_clarification"), PyVal.bool false)]) ("x")).1.get?
        ("needs_clarification") = some (PyVal.bool true) ∧
      ("coerced_needs_clarification_true")
        ∈ (NormalizeM.normalize_output (pyDictOf [(("missing_fields"), strListVal [("team")]),
            (("needs_clarification"), PyVal.bool false)]) ("x")).2) ∧
    ((NormalizeM.normalize_output (pyDictOf [(("needs_clarification"), PyVal.bool true)])
          ("x")).1.get? ("needs_clarification") = some (PyVal.bool true) ∧
      ("needs_clarification_without_missing_fields")
        ∈ (NormalizeM.normalize_output (pyDictOf [(("needs_clarification"), PyVal.bool true)])
            ("x")).2 ∧
      ¬(("coerced_needs_clarification_true")
        ∈ (NormalizeM.normalize_output (pyDictOf [(("needs_clarification"), PyVal.bool true)])
            ("x")).2)) :=
  ⟨(normalize_output_consistency_asymmetry
      (pyDictOf [(("missing_fields"), strListVal [("team")]),
        (("needs_clarification"), PyVal.bool false)]) ("x")).1 ⟨by decide, by decide⟩,
   (normalize_output_consistency_asymmetry
      (pyDictOf [(("needs_clarification"), PyVal.bool true)]) ("x")).2 ⟨by decide, by decide⟩⟩

set_option maxHeartbeats 6400000 in
/-- `normalize_output` is the identity on a dict that is already in normal
form; the warnings of such a run are exactly the recurring ones (an empty
summary re-defaults, and `needs_clarification=True` with empty
`missing_fields` re-warns). -/
theorem normalize_output_fix (d : PyDict) (text : String)
    (c : String) (hc : c ∈ NormalizeM.ALLOWED_CATEGORIES)
    (hgc : d.get? ("category") = some (PyVal.str c))
    (p : String) (hp : p ∈ NormalizeM.ALLOWED_PRIORITIES)
    (hgp : d.get? ("priority") = some (PyVal.str p))
    (dv : String) (hdv : dv ∈ NormalizeM.ALLOWED_DEVICES)
    (hgd : d.get? ("device") = some (PyVal.str dv))
    (s : String) (hgs : d.get? ("summary") = some (PyVal.str s)) (hss : pyStripS s = s)
    (b : Bool) (hgb : d.get? ("needs_clarification") = some (PyVal.bool b))
    (nmv : List String) (hgm : d.get? ("missing_fields") = some (strListVal nmv))
    (hnm1 : ∀ x ∈ nmv, pyStripS x = x ∧ (x == ("")) = false)
    (hnm2 : pyDedupe nmv = nmv)
    (hbm : nmv.isEmpty = false → b = true) :
    NormalizeM.normalize_output d text =
      (d, (if (s == ("")) = true then [("defaulted_summary")] else [])
        ++ (if (b && nmv.isEmpty) = true
          then [("needs_clarification_without_missing_fields")] else [])) := by
  unfold NormalizeM.normalize_output
  lift_lets
  extract_lets warnings tl e1 category e2 priority e3 e4 e5 c6 n6 c7 n7 c8 n8 s9 n9
    c10 n10 b11 n11 fix1 w13
  have hW : warnings = [] := rfl
  have h1 : e1 = (d, warnings, c) :=
    ensure_of_str d ("category") ("Software") warnings c hgc
      (allowed_category_props c hc).1 (allowed_category_props c hc).2
  have h2 : e2 = (d, warnings, p) := by
    have he : e2 = NormalizeM._ensure_text_key e1.1 ("priority") ("P3") e1.2.1 := rfl
    rw [he, h1]
    exact ensure_of_str d ("priority") ("P3") warnings p hgp
      (allowed_priority_props p hp).1 (allowed_priority_props p hp).2
  have h3 : e3 = (d, (if (s == ("")) = true
      then warnings ++ [("defaulted_") ++ ("summary")] else warnings), s) := by
    have he : e3 = NormalizeM._ensure_text_key e2.1 ("summary") ("") e2.2.1 := rfl
    rw [he, h2]
    by_cases hs0 : (s == ("")) = true
    · rw [if_pos hs0]
      have hseq : s = ("") := by simpa using hs0
      subst hseq
      exact ensure_of_str_empty d ("summary") warnings hgs
    · rw [if_neg hs0]
      exact ensure_of_str d ("summary") ("") warnings s hgs hss
        (by simpa using hs0)
  have hk4 : (e3.1).hasKey ("needs_clarification") = true := by
    rw [h3]
    dsimp only
    rw [PyDict.hasKey_eq_isSome, hgb]
    rfl
  have h4 : e4 = (d, (if (s == ("")) = true
      then warnings ++ [("defaulted_") ++ ("summary")] else warnings)) := by
    have he : e4 = (if (e3.1).hasKey ("needs_clarification") then (e3.1, e3.2.1)
        else ((e3.1).set ("needs_clarification") (PyVal.bool false),
          e3.2.1 ++ [("defaulted_needs_clarification")])) := rfl
    rw [he, if_pos hk4, h3]
  have hk5 : (e4.1).hasKey ("missing_fields") = true := by
    rw [h4]
    dsimp only
    rw [PyDict.hasKey_eq_isSome, hgm]
    rfl
  have h5 : e5 = (d, (if (s == ("")) = true
      then warnings ++ [("defaulted_") ++ ("summary")] else warnings)) := by
    have he : e5 = (if (e4.1).hasKey ("missing_fields") then (e4.1, e4.2)
        else ((e4.1).set ("missing_fields") (PyVal.list PyList.nil),
          e4.2 ++ [("defaulted_missing_fields")])) := rfl
    rw [he, if_pos hk5, h4]
  have hcatv : category = c := by
    have he : category = e1.2.2 := rfl
    rw [he, h1]
  have h6 : c6 = (c, (if (s == ("")) = true
      then warnings ++ [("defaulted_") ++ ("summary")] else warnings)) := by
    have he : c6 = NormalizeM._normalize_category category tl e5.2 := rfl
    rw [he, hcatv, h5]
    exact normalize_category_fix c hc tl _
  have hn6 : n6 = d := by
    have he : n6 = (e5.1).set ("category") (PyVal.str c6.1) := rfl
    rw [he, h5, h6]
    exact PyDict.set_self d ("category") _ (by rw [hgc])
  have hpriv : priority = p := by
    have he : priority = e2.2.2 := rfl
    rw [he, h2]
  have h7 : c7 = (p, (if (s == ("")) = true
      then warnings ++ [("defaulted_") ++ ("summary")] else warnings)) := by
    have he : c7 = NormalizeM._normalize_priority priority c6.2 := rfl
    rw [he, hpriv, h6]
    exact normalize_priority_fix p hp _
  have hn7 : n7 = d := by
    have he : n7 = n6.set ("priority") (PyVal.str c7.1) := rfl
    rw [he, hn6, h7]
    exact PyDict.set_self d ("priority") _ (by rw [hgp])
  have h8 : c8 = (dv, (if (s == ("")) = true
      then warnings ++ [("defaulted_") ++ ("summary")] else warnings)) := by
    have he : c8 = NormalizeM._normalize_device (n7.getd ("device") PyVal.none) tl c7.2 := rfl
    rw [he, hn7, h7]
    have hv : d.getd ("device") PyVal.none = PyVal.str dv := by
      simp only [PyDict.getd]
      rw [hgd]
      rfl
    rw [hv]
    exact normalize_device_fix dv hdv tl _
  have hn8 : n8 = d := by
    have he : n8 = n7.set ("device") (PyVal.str c8.1) := rfl
    rw [he, hn7, h8]
    exact PyDict.set_self d ("device") _ (by rw [hgd])
  have hs9 : s9 = s := by
    have he : s9 = pyStripS (pyStr (n8.getd ("summary") (PyVal.str ("")))) := rfl
    rw [he, hn8]
    have hv : d.getd ("summary") (PyVal.str ("")) = PyVal.str s := by
      simp only [PyDict.getd]
      rw [hgs]
      rfl
    rw [hv, pyStr_str, hss]
  have hn9 : n9 = d := by
    have he : n9 = n8.set ("summary") (PyVal.str s9) := rfl
    rw [he, hn8, hs9]
    exact PyDict.set_self d ("summary") _ (by rw [hgs])
  have h10 : c10 = (nmv, (if (s == ("")) = true
      then warnings ++ [("defaulted_") ++ ("summary")] else warnings)) := by
    have he : c10 = NormalizeM._normalize_missing_fields
        (n9.getd ("missing_fields") PyVal.none) c8.2 := rfl
    rw [he, hn9, h8]
    have hv : d.getd ("missing_fields") PyVal.none = strListVal nmv := by
      simp only [PyDict.getd]
      rw [hgm]
      rfl
    rw [hv]
    exact nmf_fix nmv _ hnm1 hnm2
  have hn10 : n10 = d := by
    have he : n10 = n9.set ("missing_fields") (strListVal c10.1) := rfl
    rw [he, hn9, h10]
    exact PyDict.set_self d ("missing_fields") _ (by rw [hgm])
  have hb11 : b11 = b := by
    have he : b11 = NormalizeM._normalize_bool
        (n10.getd ("needs_clarification") PyVal.none) := rfl
    rw [he, hn10]
    have hv : d.getd ("needs_clarification") PyVal.none = PyVal.bool b := by
      simp only [PyDict.getd]
      rw [hgb]
      rfl
    rw [hv]
    rfl
  have hn11 : n11 = d := by
    have he : n11 = n10.set ("needs_clarification") (PyVal.bool b11) := rfl
    rw [he, hn10, hb11]
    exact PyDict.set_self d ("needs_clarification") _ (by rw [hgb])
  have hcondF : (pyTruthy (n11.getd ("missing_fields") PyVal.none) &&
      pyIsFalse (n11.getd ("needs_clarification") PyVal.none)) = false := by
    rw [hn11]
    have hv1 : d.getd ("missing_fields") PyVal.none = strListVal nmv := by
      simp only [PyDict.getd]
      rw [hgm]
      rfl
    have hv2 : d.getd ("needs_clarification") PyVal.none = PyVal.bool b := by
      simp only [PyDict.getd]
      rw [hgb]
      rfl
    rw [hv1, hv2, pyTruthy_strListVal, pyIsFalse_bool]
    cases hm : nmv.isEmpty with
    | true => rfl
    | false =>
      rw [hbm hm]
      rfl
  have hfixv : fix1 = (d, c10.2) := by
    have he : fix1 = (if pyTruthy (n11.getd ("missing_fields") PyVal.none) &&
          pyIsFalse (n11.getd ("needs_clarification") PyVal.none) then
        (n11.set ("needs_clarification") (PyVal.bool true),
          c10.2 ++ [("coerced_needs_clarification_true")])
      else (n11, c10.2)) := rfl
    rw [he, if_neg (by rw [hcondF]; exact Bool.false_ne_true), hn11]
  have hcondD : (pyIsTrue ((fix1.1).getd ("needs_clarification") PyVal.none) &&
      !(pyTruthy ((fix1.1).getd ("missing_fields") PyVal.none))) = (b && nmv.isEmpty) := by
    rw [hfixv]
    dsimp only
    have hv1 : d.getd ("needs_clarification") PyVal.none = PyVal.bool b := by
      simp only [PyDict.getd]
      rw [hgb]
      rfl
    have hv2 : d.getd ("missing_fields") PyVal.none = strListVal nmv := by
      simp only [PyDict.getd]
      rw [hgm]
      rfl
    rw [hv1, hv2, pyIsTrue_bool, pyTruthy_strListVal, Bool.not_not]
  have hc10snd : c10.2 = (if (s == ("")) = true
      then warnings ++ [("defaulted_") ++ ("summary")] else warnings) := by
    rw [h10]
  refine Prod.ext_iff.mpr ⟨?_, ?_⟩
  · rw [hfixv]
  · dsimp only
    by_cases hd : (b && nmv.isEmpty) = true
    · have hw13v : w13 = c10.2 ++ [("needs_clarification_without_missing_fields")] := by
        have he : w13 = (if pyIsTrue ((fix1.1).getd ("needs_clarification") PyVal.none) &&
              !(pyTruthy ((fix1.1).getd ("missing_fields") PyVal.none)) then
            fix1.2 ++ [("needs_clarification_without_missing_fields")]
          else fix1.2) := rfl
        rw [he, if_pos (by rw [hcondD]; exact hd), hfixv]
      rw [hw13v, hc10snd, hW, if_pos hd]
      by_cases hs0 : (s == ("")) = true
      · rw [if_pos hs0, if_pos hs0]
        decide
      · rw [if_neg hs0, if_neg hs0]
        decide
    · have hw13v : w13 = c10.2 := by
        have he : w13 = (if pyIsTrue ((fix1.1).getd ("needs_clarification") PyVal.none) &&
              !(pyTruthy ((fix1.1).getd ("missing_fields") PyVal.none)) then
            fix1.2 ++ [("needs_clarification_without_missing_fields")]
          else fix1.2) := rfl
        rw [he, if_neg (by rw [hcondD]; exact hd), hfixv]
      rw [hw13v, hc10snd, hW, if_neg hd]
      by_cases hs0 : (s == ("")) = true
      · rw [if_pos hs0, if_pos hs0]
        decide
      · rw [if_neg hs0, if_neg hs0]
        decide

/-- The warnings that a second normalization pass of an already-normalized
dict re-emits (modelled from the spec sentence being checked, to compare with
the behaviour of `normalize_output`): an empty summary re-defaults, and
`needs_clarification=True` with empty `missing_fields` re-warns. -/
def renormWarnings (d : PyDict) : List String :=
  (if (pyStripS (pyStr (d.getd ("summary") (PyVal.str ("")))) == ("")) = true
    then [("defaulted_summary")] else [])
  ++ (if (pyIsTrue (d.getd ("needs_clarification") PyVal.none)
      && !(pyTruthy (d.getd ("missing_fields") PyVal.none))) = true
    then [("needs_clarification_without_missing_fields")] else [])

/-- **C6.** Counterexample to the idempotence claim as stated: re-normalizing
the normalized form of `{"needs_clarification": True}` does not return an
empty warnings list (the consistency warning recurs). -/
theorem normalize_output_idem_counterexample :
    (NormalizeM.normalize_output
      ((NormalizeM.normalize_output
        (pyDictOf [(("needs_clarification"), PyVal.bool true)]) ("x")).1) ("x")).2
      ≠ [] := by decide

/-- **C6 (amended).** Re-normalizing a normalized output returns the identical
dict; the warnings of the second pass are not always empty but exactly the
recurring ones given by `renormWarnings`. -/
theorem normalize_output_idem_amended (actual : PyDict) (text : String) :
    NormalizeM.normalize_output ((NormalizeM.normalize_output actual text).1) text
      = ((NormalizeM.normalize_output actual text).1,
        renormWarnings ((NormalizeM.normalize_output actual text).1)) := by
  obtain ⟨out, w, hout, ⟨c, hc, hgc⟩, ⟨p, hp, hgp⟩, ⟨dv, hdv, hgd⟩, ⟨s, hgs, hss⟩,
    hN, hM, hnm1, hnm2, _, _⟩ := normalize_output_master actual text
  rw [hout]
  dsimp only
  have hbm : (NormalizeM._normalize_missing_fields (missingIn actual) []).1.isEmpty = false →
      (NormalizeM._normalize_bool (needsIn actual)
        || !((NormalizeM._normalize_missing_fields (missingIn actual) []).1.isEmpty))
        = true := by
    intro h
    rw [h]
    simp
  have hfix := normalize_output_fix out text c hc hgc p hp hgp dv hdv hgd s hgs hss
    _ hN _ hM hnm1 hnm2 hbm
  rw [hfix]
  have hrw : renormWarnings out =
      (if (s == ("")) = true then [("defaulted_summary")] else [])
        ++ (if ((NormalizeM._normalize_bool (needsIn actual)
            || !((NormalizeM._normalize_missing_fields (missingIn actual) []).1.isEmpty))
            && (NormalizeM._normalize_missing_fields (missingIn actual) []).1.isEmpty) = true
          then [("needs_clarification_without_missing_fields")] else []) := by
    unfold renormWarnings
    have hcond1 : (pyStripS (pyStr (out.getd ("summary") (PyVal.str ("")))) == (""))
        = (s == ("")) := by
      simp only [PyDict.getd]
      rw [hgs]
      simp only [Option.getD_some]
      rw [pyStr_str, hss]
    have hcond2 : (pyIsTrue (out.getd ("needs_clarification") PyVal.none)
        && !(pyTruthy (out.getd ("missing_fields") PyVal.none)))
        = ((NormalizeM._normalize_bool (needsIn actual)
            || !((NormalizeM._normalize_missing_fields (missingIn actual) []).1.isEmpty))
          && (NormalizeM._normalize_missing_fields (missingIn actual) []).1.isEmpty) := by
      simp only [PyDict.getd]
      rw [hN, hM]
      simp only [Option.getD_some]
      rw [pyIsTrue_bool, pyTruthy_strListVal, Bool.not_not]
    rw [hcond1, hcond2]
  rw [hrw]
